import Mathlib

/-!
Verification development for the blood-report analysis pipeline
(`app/services/nlp_extractor.py`, `app/services/ml_models.py`,
`app/services/recommendation_engine.py`, `app/routes/analysis.py`,
`app/models/blood_config.py`).

Text is modelled as lists of characters; Python `dict`s (which preserve
insertion order) are modelled as association lists; Python floats are
modelled as rationals.
-/

namespace BloodAnalysis

/-- ASCII lower-casing, as applied by `re.IGNORECASE` on the ASCII
patterns and report text handled by the extractor. -/
def pyToLower (c : Char) : Char :=
  if 'A' ≤ c ∧ c ≤ 'Z' then Char.ofNat (c.toNat + 32) else c

/-- Lower-case every character of a line. -/
def lowerChars (l : List Char) : List Char := l.map pyToLower

/-- Substring test: does `needle` occur contiguously inside the second list?
Models `re.search` for a pattern with no effective metacharacters. -/
def containsSub (needle : List Char) : List Char → Bool
  | [] => needle.isEmpty
  | c :: cs => needle.isPrefixOf (c :: cs) || containsSub needle cs

/-- Case-insensitive alias search on one line, modelling
`re.search(pattern, line, re.IGNORECASE)` in `_extract_parameter_value`. -/
def aliasMatch (pat line : List Char) : Bool :=
  containsSub (lowerChars pat) (lowerChars line)

/-- Characters Python's `str.strip()` removes (ASCII whitespace). -/
def isPySpace (c : Char) : Bool :=
  c = ' ' || c = '\t' || c = '\n' || c = '\r' || c = '\x0c' || c = '\x0b'

/-- Models `text.replace(',', '')` at the start of `_extract_numerical_value`. -/
def stripCommas (l : List Char) : List Char := l.filter (fun c => !(c = ','))

/-- Numeric value of one ASCII digit. -/
def digitVal (c : Char) : ℕ := c.toNat - 48

/-- Value of a digit string, as read by Python `float` on an integer token. -/
def parseNatDigits (l : List Char) : ℕ :=
  l.foldl (fun acc c => 10 * acc + digitVal c) 0

/-- Value of a decimal token with integer part `ip` and fractional part `fp`,
as read by Python `float`. -/
def decValue (ip fp : List Char) : ℚ :=
  (parseNatDigits ip : ℚ) + (parseNatDigits fp : ℚ) / (10 : ℚ) ^ fp.length

/-- Scanner state for the regex `\d+\.\d+` over a line: outside any number,
inside the integer part, just past the dot, or inside the fractional part. -/
inductive DecSt
  | out
  | run1 (r1 : List Char)
  | dot (r1 : List Char)
  | run2 (r1 r2 : List Char)

/-- Left-to-right scan collecting the non-overlapping matches of
`re.findall(r'(\d+\.\d+)', text)` as (integer part, fractional part) pairs.
A digit run not followed by `.` plus a digit yields no decimal match, and
matching resumes after it, exactly as the regex engine does. -/
def decScan : List Char → DecSt → List (List Char × List Char)
  | [], st =>
    match st with
    | .run2 r1 r2 => [(r1, r2)]
    | _ => []
  | c :: cs, .out =>
    if c.isDigit then decScan cs (.run1 [c]) else decScan cs .out
  | c :: cs, .run1 r1 =>
    if c.isDigit then decScan cs (.run1 (r1 ++ [c]))
    else if c = '.' then decScan cs (.dot r1)
    else decScan cs .out
  | c :: cs, .dot r1 =>
    if c.isDigit then decScan cs (.run2 r1 [c]) else decScan cs .out
  | c :: cs, .run2 r1 r2 =>
    if c.isDigit then decScan cs (.run2 r1 (r2 ++ [c]))
    else (r1, r2) :: decScan cs .out

/-- Left-to-right scan collecting the matches of `re.findall(r'(\d+)', text)`:
the maximal digit runs of the line. -/
def intScan : List Char → List Char → List (List Char)
  | [], acc => if acc.isEmpty then [] else [acc]
  | c :: cs, acc =>
    if c.isDigit then intScan cs (acc ++ [c])
    else if acc.isEmpty then intScan cs []
    else acc :: intScan cs []

/-- The sanity filter `_is_reasonable_blood_value`: `0.001 <= value <= 1000`. -/
def is_reasonable_blood_value (v : ℚ) : Bool :=
  decide ((1 : ℚ) / 1000 ≤ v) && decide (v ≤ 1000)

/-- Models `_extract_numerical_value`: strip commas, then try every match of
the decimal regex and afterwards every match of the whole-number regex,
returning the first value that passes the sanity filter.  (In the source the
second regex pass runs whenever no decimal match passed the filter, so the
search order is exactly this concatenation.) -/
def pyExtractNumericalValue (line : List Char) : Option ℚ :=
  let t := stripCommas line
  let decs := (decScan t .out).map (fun p => decValue p.1 p.2)
  let ints := (intScan t []).map (fun d => (parseNatDigits d : ℚ))
  (decs ++ ints).find? is_reasonable_blood_value

/-- Models the line loop of `_extract_parameter_value` for one alias pattern:
scan lines top to bottom; at each line containing the alias, try that line,
then the immediately following line; on failure keep scanning further lines. -/
def scanLines (pat : List Char) : List (List Char) → Option ℚ
  | [] => none
  | l :: rest =>
    if aliasMatch pat l then
      match pyExtractNumericalValue l with
      | some v => some v
      | none =>
        match rest with
        | [] => none
        | nxt :: _ =>
          match pyExtractNumericalValue nxt with
          | some v => some v
          | none => scanLines pat rest
    else scanLines pat rest

/-- Models `_extract_parameter_value`: try each alias pattern in declared
order; the first pattern whose line scan produces a value wins. -/
def extractParameterValue (lines : List (List Char)) (pats : List (List Char)) : Option ℚ :=
  pats.findSome? (fun p => scanLines p lines)

/-- Characters of a string literal. -/
def strChars (s : String) : List Char := s.data

/-- The `parameter_patterns` table of `NLPExtractor`, in declaration order.
A source pattern ending in `s?` (an optional plural `s`) is searched with
`re.search`, where a trailing optional character never affects whether the
pattern is found, so each such pattern is recorded here by its stem. -/
def parameter_patterns : List (String × List String) :=
  [ ("WBC", ["WBC", "White Blood Cell", "Leukocyte", "White Blood Cell Count"])
  , ("RBC", ["RBC", "Red Blood Cell", "Erythrocyte", "Red Blood Cell Count"])
  , ("HGB", ["HGB", "Hb", "Hemoglobin"])
  , ("HCT", ["HCT", "Hematocrit"])
  , ("MCV", ["MCV", "Mean Corpuscular Volume"])
  , ("MCH", ["MCH", "Mean Corpuscular Hemoglobin"])
  , ("MCHC", ["MCHC", "Mean Corpuscular Hemoglobin Concentration"])
  , ("PLT", ["PLT", "Platelet", "Platelet Count"])
  , ("RDW_SD", ["RDW-SD", "RDW SD", "Red Cell Distribution Width SD"])
  , ("RDW_CV", ["RDW-CV", "RDW CV", "Red Cell Distribution Width CV"])
  , ("PDW", ["PDW", "Platelet Distribution Width"])
  , ("MPV", ["MPV", "Mean Platelet Volume"])
  , ("P_LCR", ["P-LCR", "PLCR", "Platelet Large Cell Ratio"])
  , ("PCT", ["PCT", "Plateletcrit"])
  , ("NEUT", ["NEUT", "Neutrophil", "Neutrophil Count"])
  , ("LYMPH", ["LYMPH", "Lymphocyte", "Lymphocyte Count"])
  , ("MONO", ["MONO", "Monocyte", "Monocyte Count"])
  , ("EO", ["EO", "Eosinophil", "Eosinophil Count"])
  , ("BASO", ["BASO", "Basophil", "Basophil Count"])
  , ("IG", ["IG", "Immature Granulocyte"])
  , ("NRBCS", ["NRBC", "Nucleated RBC", "Nucleated Red Blood Cell"])
  , ("RETICULOCYTES", ["Reticulocyte", "RETIC", "Reticulocyte Count"])
  , ("IRF", ["IRF", "Immature Reticulocyte Fraction"])
  , ("LFR", ["LFR", "Low Fluorescence Reticulocyte"])
  , ("MFR", ["MFR", "Medium Fluorescence Reticulocyte"])
  , ("HFR", ["HFR", "High Fluorescence Reticulocyte"])
  ]

/-- Core of `extract_parameters` on an already split line list: for each of
the 26 codes in declaration order, record the extracted value when present. -/
def extractParamsLines (lines : List (List Char)) : List (String × ℚ) :=
  parameter_patterns.filterMap
    (fun pr => (extractParameterValue lines (pr.2.map strChars)).map (fun v => (pr.1, v)))

/-- Character-level split on newlines, keeping empty pieces; `acc` holds the
current piece in reverse. -/
def splitLinesChars : List Char → List Char → List (List Char)
  | [], acc => [acc.reverse]
  | c :: cs, acc =>
    if c = '\n' then acc.reverse :: splitLinesChars cs []
    else splitLinesChars cs (c :: acc)

/-- Models `text.split('\n')` followed by per-line character access. -/
def splitLines (s : String) : List (List Char) :=
  splitLinesChars s.data []

/-- Models `NLPExtractor.extract_parameters`. -/
def extract_parameters (text : String) : List (String × ℚ) :=
  extractParamsLines (splitLines text)

/-- First-match lookup in an association list, modelling Python `dict`
membership test plus indexing. -/
def lookupStr {α : Type} (l : List (String × α)) (k : String) : Option α :=
  (l.find? (fun e => e.1 == k)).map (fun e => e.2)

/-- The `reasonable_ranges` table inside `validate_parameters`
(the plausibility bounds, one pair per code). -/
def reasonable_ranges : List (String × ℚ × ℚ) :=
  [ ("WBC", 1.0, 50.0), ("RBC", 2.0, 8.0), ("HGB", 5.0, 20.0), ("HCT", 20.0, 60.0)
  , ("MCV", 60.0, 120.0), ("MCH", 20.0, 40.0), ("MCHC", 30.0, 38.0), ("PLT", 50.0, 600.0)
  , ("RDW_SD", 35.0, 60.0), ("RDW_CV", 10.0, 20.0), ("PDW", 8.0, 25.0), ("MPV", 6.0, 15.0)
  , ("P_LCR", 10.0, 50.0), ("PCT", 0.05, 0.7), ("NEUT", 0.5, 15.0), ("LYMPH", 0.5, 10.0)
  , ("MONO", 0.1, 1.5), ("EO", 0.02, 0.8), ("BASO", 0.0, 0.5), ("IG", 0.0, 0.1)
  , ("NRBCS", 0.0, 5.0), ("RETICULOCYTES", 0.1, 5.0), ("IRF", 0.3, 35.0)
  , ("LFR", 80.0, 95.0), ("MFR", 8.0, 25.0), ("HFR", 0.0, 3.0)
  ]

/-- Models `NLPExtractor.validate_parameters`: keep an observation unchanged
when its code has no plausibility range or its value lies inside the range;
drop it otherwise. -/
def validate_parameters (ps : List (String × ℚ)) : List (String × ℚ) :=
  ps.filterMap
    (fun kv =>
      match lookupStr reasonable_ranges kv.1 with
      | some r => if r.1 ≤ kv.2 ∧ kv.2 ≤ r.2 then some kv else none
      | none => some kv)

/-- One entry of the `NORMAL_RANGES` table of `blood_config.py`. -/
structure NormalRange where
  min : ℚ
  max : ℚ
  unit : String
  critical_low : ℚ
  critical_high : ℚ
deriving DecidableEq

/-- The `NORMAL_RANGES` table: clinical normal ranges for the 26 codes. -/
def NORMAL_RANGES : List (String × NormalRange) :=
  [ ("WBC", ⟨4.5, 10.0, "×10⁹/L", 2.0, 30.0⟩)
  , ("RBC", ⟨4.2, 5.4, "×10⁶/µL", 3.0, 6.0⟩)
  , ("HGB", ⟨12.0, 16.0, "g/dL", 8.0, 18.0⟩)
  , ("HCT", ⟨36.1, 44.3, "%", 30.0, 50.0⟩)
  , ("MCV", ⟨80, 100, "fL", 70, 110⟩)
  , ("MCH", ⟨27, 31, "pg", 20, 35⟩)
  , ("MCHC", ⟨33, 36, "g/dL", 30, 38⟩)
  , ("PLT", ⟨150, 400, "×10³/µL", 50, 600⟩)
  , ("RDW_SD", ⟨39, 46, "fL", 35, 60⟩)
  , ("RDW_CV", ⟨11.6, 14.6, "%", 10, 20⟩)
  , ("PDW", ⟨10, 17, "fL", 8, 25⟩)
  , ("MPV", ⟨7.5, 11.5, "fL", 6, 15⟩)
  , ("P_LCR", ⟨13, 43, "%", 10, 50⟩)
  , ("PCT", ⟨0.1, 0.5, "%", 0.05, 0.7⟩)
  , ("NEUT", ⟨1.5, 8.0, "×10⁹/L", 1.0, 12.0⟩)
  , ("LYMPH", ⟨1.0, 4.0, "×10⁹/L", 0.5, 6.0⟩)
  , ("MONO", ⟨0.2, 0.8, "×10⁹/L", 0.1, 1.5⟩)
  , ("EO", ⟨0.04, 0.4, "×10⁹/L", 0.02, 0.8⟩)
  , ("BASO", ⟨0.0, 0.2, "×10⁹/L", 0.0, 0.5⟩)
  , ("IG", ⟨0.0, 0.05, "×10⁹/L", 0.0, 0.1⟩)
  , ("NRBCS", ⟨0, 0, "/100 WBC", 0, 5⟩)
  , ("RETICULOCYTES", ⟨0.5, 2.5, "%", 0.1, 5.0⟩)
  , ("IRF", ⟨0.48, 27.0, "%", 0.3, 35.0⟩)
  , ("LFR", ⟨87.0, 91.4, "%", 80.0, 95.0⟩)
  , ("MFR", ⟨11.0, 18.0, "%", 8.0, 25.0⟩)
  , ("HFR", ⟨0.0, 1.7, "%", 0.0, 3.0⟩)
  ]

/-- Expected directional deviation of a parameter in a disease pattern. -/
inductive Direction
  | low
  | normal
  | high
deriving DecidableEq

/-- One entry of the `DISEASE_PATTERNS` registry of `blood_config.py`. -/
structure DiseasePattern where
  parameters : List String
  pattern : List (String × Direction)
  weight : ℚ
deriving DecidableEq

/-- The `DISEASE_PATTERNS` registry, in declaration order. -/
def DISEASE_PATTERNS : List (String × DiseasePattern) :=
  [ ("Iron Deficiency Anemia",
      ⟨["HGB", "MCV", "MCH", "MCHC", "RDW_CV", "RETICULOCYTES"],
       [("HGB", .low), ("MCV", .low), ("MCH", .low), ("MCHC", .low),
        ("RDW_CV", .high), ("RETICULOCYTES", .normal)], 0.9⟩)
  , ("Vitamin B12 Deficiency",
      ⟨["HGB", "MCV", "MCH", "RDW_CV", "RETICULOCYTES"],
       [("HGB", .low), ("MCV", .high), ("MCH", .high), ("RDW_CV", .high),
        ("RETICULOCYTES", .low)], 0.85⟩)
  , ("Thrombocytopenia",
      ⟨["PLT", "MPV", "PCT", "PDW"],
       [("PLT", .low), ("MPV", .high), ("PCT", .low), ("PDW", .high)], 0.95⟩)
  , ("Leukocytosis",
      ⟨["WBC", "NEUT", "LYMPH", "MONO"], [("WBC", .high)], 0.8⟩)
  , ("Leukopenia",
      ⟨["WBC", "NEUT", "LYMPH", "MONO"], [("WBC", .low)], 0.85⟩)
  , ("Neutrophilia",
      ⟨["NEUT", "WBC", "LYMPH"],
       [("NEUT", .high), ("WBC", .high), ("LYMPH", .normal)], 0.75⟩)
  , ("Neutropenia",
      ⟨["NEUT", "WBC"], [("NEUT", .low), ("WBC", .low)], 0.8⟩)
  , ("Lymphocytosis",
      ⟨["LYMPH", "WBC", "NEUT"],
       [("LYMPH", .high), ("WBC", .high), ("NEUT", .normal)], 0.7⟩)
  , ("Lymphopenia",
      ⟨["LYMPH", "WBC"], [("LYMPH", .low), ("WBC", .low)], 0.75⟩)
  , ("Infection",
      ⟨["WBC", "NEUT", "LYMPH", "CRP"], [("WBC", .high), ("NEUT", .high)], 0.7⟩)
  , ("Inflammation",
      ⟨["WBC", "NEUT", "MONO"], [("WBC", .high), ("NEUT", .high)], 0.65⟩)
  , ("Polycythemia",
      ⟨["RBC", "HGB", "HCT", "RETICULOCYTES"],
       [("RBC", .high), ("HGB", .high), ("HCT", .high),
        ("RETICULOCYTES", .normal)], 0.8⟩)
  , ("Bone Marrow Stress",
      ⟨["NRBCS", "RETICULOCYTES", "IRF", "HFR"],
       [("NRBCS", .high), ("RETICULOCYTES", .high), ("IRF", .high),
        ("HFR", .high)], 0.9⟩)
  , ("Hemolytic Anemia",
      ⟨["HGB", "RETICULOCYTES", "LDH", "BILIRUBIN"],
       [("HGB", .low), ("RETICULOCYTES", .high)], 0.8⟩)
  ]

/-- The `SEVERITY_LEVELS` bucket table of `blood_config.py`. -/
def SEVERITY_LEVELS : List (String × ℚ × ℚ) :=
  [ ("Normal", 0, 0.2), ("Low Risk", 0.2, 0.4), ("Medium Risk", 0.4, 0.6)
  , ("High Risk", 0.6, 0.8), ("Critical", 0.8, 1.0)
  ]

/-- Modelled from the spec: the repository declares the `DISEASE_PATTERNS`
registry but contains no code that evaluates it (the live route calls the
statistical classifier instead), so the Disease Pattern Matcher of spec
section 4.3 is modelled from the spec text.  Directional classification of
one code against its clinical `NORMAL_RANGES` entry: value below the range
minimum is `low`, above the maximum is `high`, otherwise `normal`; a code
absent from the validated set, or without a normal range, classifies as
nothing. -/
def classifyDirection (obs : List (String × ℚ)) (code : String) : Option Direction :=
  match lookupStr obs code, lookupStr NORMAL_RANGES code with
  | some v, some r =>
    some (if v < r.min then .low else if v > r.max then .high else .normal)
  | _, _ => none

/-- Modelled from the spec: a code of a pattern counts toward the numerator
exactly when its directional classification equals the pattern's expected
direction for that code. -/
def directionMatches (obs : List (String × ℚ)) (pat : DiseasePattern) (code : String) : Bool :=
  match lookupStr pat.pattern code with
  | some d => decide (classifyDirection obs code = some d)
  | none => false

/-- Modelled from the spec: `matchScore = weight × (matching codes / total
codes in the pattern)`, every code of `parameters` counting toward the
denominator. -/
def matchScore (pat : DiseasePattern) (obs : List (String × ℚ)) : ℚ :=
  pat.weight * (pat.parameters.countP (directionMatches obs pat) : ℚ)
    / (pat.parameters.length : ℚ)

/-- One entry of the disease list built in `analyze_blood_report`
(`disease_name` plus `probability`; the derived display fields do not feed
any later computation). -/
structure DiseasePrediction where
  disease_name : String
  probability : ℚ
deriving DecidableEq

/-- Models `_is_abnormal_parameter` of `analysis.py`: outside the clinical
`NORMAL_RANGES` entry; codes without an entry are never abnormal. -/
def _is_abnormal_parameter (param : String) (value : ℚ) : Bool :=
  match lookupStr NORMAL_RANGES param with
  | some r => decide (value < r.min) || decide (value > r.max)
  | none => false

/-- Models `_calculate_risk_score` of `analysis.py`: an empty prediction
list short-circuits to `0.0`; otherwise the highest probability plus an
abnormality bonus, capped at `1.0`. -/
def _calculate_risk_score (preds : List DiseasePrediction) (params : List (String × ℚ)) : ℚ :=
  match preds.map (fun d => d.probability) with
  | [] => 0
  | p :: ps =>
    let max_prob := ps.foldl max p
    let abnormal_count := params.countP (fun kv => _is_abnormal_parameter kv.1 kv.2)
    let abnormality_factor := min 1 ((abnormal_count : ℚ) / 10)
    min 1 (max_prob + abnormality_factor * (0.2 : ℚ))

/-- Formalization of the overall-score formula exactly as claim C2 states
it: `min(1.0, maxMatchScoreOrZero + min(1.0, abnormalCount/10) × 0.2)` with
`maxMatchScoreOrZero = 0` for an empty list, with no further case split. -/
def claimOverallScore (preds : List DiseasePrediction) (params : List (String × ℚ)) : ℚ :=
  let maxMatchScoreOrZero :=
    match preds.map (fun d => d.probability) with
    | [] => 0
    | p :: ps => ps.foldl max p
  let abnormalCount := params.countP (fun kv => _is_abnormal_parameter kv.1 kv.2)
  min 1 (maxMatchScoreOrZero + min 1 ((abnormalCount : ℚ) / 10) * (0.2 : ℚ))

/-- Models `_determine_severity` of `analysis.py`. -/
def _determine_severity (risk_score : ℚ) : String :=
  if risk_score ≥ 0.8 then "Critical"
  else if risk_score ≥ 0.6 then "High Risk"
  else if risk_score ≥ 0.4 then "Medium Risk"
  else if risk_score ≥ 0.2 then "Low Risk"
  else "Normal"

/-- The three result shapes of `BloodAnalysisModel.predict`: the
not-trained early return, the successful return, and the exception-handler
return.  Every path returns a `dict`. -/
inductive PredictOutcome
  | notTrained
  | success
  | failure
deriving DecidableEq

/-- The keys, in insertion order, of the `dict` returned by
`BloodAnalysisModel.predict` on each path. -/
def predictKeys : PredictOutcome → List String
  | .notTrained => ["error", "suggestion"]
  | .success =>
    ["prediction", "confidence", "probabilities", "abnormalities",
     "recommendations", "parameters_analyzed"]
  | .failure => ["error", "prediction", "confidence"]

/-- Models Python tuple unpacking `a, b = s` of a string `s`: it succeeds
exactly when the string has two characters. -/
def unpackPair (s : String) : Option (Char × Char) :=
  match s.data with
  | [a, b] => some (a, b)
  | _ => none

/-- Models the `for disease_name, probability in disease_predictions_raw:`
loop of `analyze_blood_report`: iterating a `dict` yields its keys, and the
first key that cannot be unpacked raises (`Except.error`). -/
def buildDiseaseList : List String → Except Unit (List (Char × Char))
  | [] => .ok []
  | k :: ks =>
    match unpackPair k with
    | none => .error ()
    | some p => (buildDiseaseList ks).map (fun l => p :: l)

/-- Whitespace-run collapse, modelling `re.sub(r'\s+', ' ', text)`; the
flag records whether the previous character was part of a whitespace run. -/
def collapseWs : List Char → Bool → List Char
  | [], _ => []
  | c :: cs, inRun =>
    if isPySpace c then
      if inRun then collapseWs cs true else ' ' :: collapseWs cs true
    else c :: collapseWs cs false

/-- The bullet characters removed by `clean_extracted_text`. -/
def isBullet (c : Char) : Bool :=
  c = '•' || c = '·' || c = '■' || c = '□' || c = '●' || c = '○'

/-- Generic leftmost non-overlapping removal of matches, modelling
`re.sub(pattern, '', text)` for a matcher that reports the length of a match
starting at the head; scanning resumes after each removed match.  Structured
on fuel; any fuel of at least the list length is exact. -/
def removeBy (m : List Char → Option ℕ) : ℕ → List Char → List Char
  | 0, l => l
  | _ + 1, [] => []
  | fuel + 1, c :: cs =>
    match m (c :: cs) with
    | some n => removeBy m fuel ((c :: cs).drop n)
    | none => c :: removeBy m fuel cs

/-- Match of `r'Page \d+'` at the head of the list (greedy digits). -/
def pageSpMatcher (l : List Char) : Option ℕ :=
  let pre := strChars "Page "
  if pre.isPrefixOf l then
    let ds := (l.drop 5).takeWhile Char.isDigit
    if ds.isEmpty then none else some (5 + ds.length)
  else none

/-- Match of `r'Page\d+'` at the head of the list (greedy digits). -/
def pageNoSpMatcher (l : List Char) : Option ℕ :=
  let pre := strChars "Page"
  if pre.isPrefixOf l then
    let ds := (l.drop 4).takeWhile Char.isDigit
    if ds.isEmpty then none else some (4 + ds.length)
  else none

/-- Match of `r'http[s]?://\S+'` at the head of the list. -/
def urlMatcher (l : List Char) : Option ℕ :=
  if (strChars "https://").isPrefixOf l then
    let ds := (l.drop 8).takeWhile (fun c => !isPySpace c)
    if ds.isEmpty then none else some (8 + ds.length)
  else if (strChars "http://").isPrefixOf l then
    let ds := (l.drop 7).takeWhile (fun c => !isPySpace c)
    if ds.isEmpty then none else some (7 + ds.length)
  else none

/-- Match of `r'www\.\S+'` at the head of the list. -/
def wwwMatcher (l : List Char) : Option ℕ :=
  if (strChars "www.").isPrefixOf l then
    let ds := (l.drop 4).takeWhile (fun c => !isPySpace c)
    if ds.isEmpty then none else some (4 + ds.length)
  else none

/-- Models Python `str.strip()`. -/
def pyStrip (l : List Char) : List Char :=
  ((l.dropWhile isPySpace).reverse.dropWhile isPySpace).reverse

/-- Models `NLPExtractor.clean_extracted_text`: collapse whitespace runs,
then apply the artifact substitutions in source order, then strip.  The
first artifact pattern is the empty regex, whose substitution is the
identity; the `\x0c` and `\f` patterns both remove the form-feed character,
which the whitespace collapse has already consumed, and are kept here as the
(identity) filter they amount to. -/
def clean_extracted_text (s : String) : String :=
  let t1 := collapseWs s.data false
  let t2 := t1.filter (fun c => !isBullet c)
  let t3 := removeBy pageSpMatcher (t2.length + 1) t2
  let t4 := removeBy pageNoSpMatcher (t3.length + 1) t3
  let t5 := t4.filter (fun c => !(c = '\x0c'))
  let t6 := removeBy urlMatcher (t5.length + 1) t5
  let t7 := removeBy wwwMatcher (t6.length + 1) t6
  String.mk (pyStrip t7)

/-- The distinct failure shapes of the `analyze` route that the claims
distinguish: the short-text rejection, the empty-validated-set rejection,
and the generic handler for exceptions raised later in the body. -/
inductive AnalysisError
  | noTextExtracted
  | noValidParameters
  | analysisFailed
deriving DecidableEq

/-- The guard `not extracted_text or len(extracted_text.strip()) < 10`. -/
def shortText (s : String) : Bool :=
  s.data.isEmpty || decide ((pyStrip s.data).length < 10)

/-- The validated observation set the route computes from the input text. -/
def pipelineValidated (s : String) : List (String × ℚ) :=
  validate_parameters (extract_parameters (clean_extracted_text s))

/-- Control skeleton of `analyze_blood_report` from the extracted text on:
reject short text, extract and validate, reject an empty validated set, then
build the disease list from the keys of the `predict` result — whose failure
is caught by the route's generic handler as the `analysisFailed` error.  The
database writes do not affect the computation and are omitted; the `ok`
branch (never reached) would carry the unpacked pairs onward. -/
def analyze_blood_report (text : String) (o : PredictOutcome) :
    Except AnalysisError (List (Char × Char)) :=
  if shortText text then .error .noTextExtracted
  else
    let validated := pipelineValidated text
    if validated.isEmpty then .error .noValidParameters
    else
      match buildDiseaseList (predictKeys o) with
      | .error _ => .error .analysisFailed
      | .ok pairs => .ok pairs

/-- One template of the `disease_recommendations` registry of
`recommendation_engine.py`. -/
structure RecTemplate where
  category : String
  recommendation_text : String
  why : String
  purpose : String
  base_duration : ℕ
  tips : List String
deriving DecidableEq

/-- The `disease_recommendations` registry built by
`_initialize_recommendations`, in declaration order. -/
def disease_recommendations : List (String × List RecTemplate) :=
  [ ("Iron Deficiency Anemia",
      [ ⟨"Diet",
         "Increase iron-rich foods: red meat, spinach, lentils, fortified cereals",
         "Low hemoglobin levels indicate iron deficiency",
         "Boost iron levels and improve oxygen transport", 12,
         ["Combine with Vitamin C for better absorption", "Avoid tea/coffee with meals"]⟩
      , ⟨"Medical", "Consult doctor for iron supplements",
         "Diet alone may not be sufficient", "Rapidly increase iron stores", 8,
         ["Take supplements as prescribed", "Monitor for side effects"]⟩])
  , ("Vitamin B12 Deficiency",
      [ ⟨"Diet", "Consume B12-rich foods: eggs, fish, dairy, fortified foods",
         "Low B12 affects nerve function and red blood cell production",
         "Restore B12 levels and prevent nerve damage", 16,
         ["Include animal products in diet", "Consider fortified foods if vegetarian"]⟩])
  , ("Thrombocytopenia",
      [ ⟨"Lifestyle", "Avoid activities that may cause bleeding or bruising",
         "Low platelet count increases bleeding risk",
         "Prevent bleeding complications", 12,
         ["Use soft-bristle toothbrush", "Avoid contact sports"]⟩])
  , ("Leukocytosis",
      [ ⟨"Medical", "Consult doctor immediately for infection screening",
         "High white blood cells may indicate infection",
         "Identify and treat underlying cause", 2,
         ["Monitor for fever", "Get prescribed tests done"]⟩])
  , ("Normal",
      [ ⟨"Lifestyle", "Maintain balanced diet and regular exercise",
         "Your blood parameters are within normal range",
         "Maintain good health", 52,
         ["Eat variety of fruits and vegetables", "Exercise 30 minutes daily"]⟩])
  ]

/-- One generated recommendation. -/
structure Recommendation where
  category : String
  recommendation_text : String
  why : String
  purpose : String
  duration_weeks : ℕ
  priority_level : String
  disease_related : String
deriving DecidableEq

/-- Models `_calculate_duration` (`int()` truncation of a non-negative
float is the floor). -/
def _calculate_duration (base : ℕ) (p : ℚ) : ℕ :=
  if p > 0.8 then base
  else if p > 0.5 then ((base : ℚ) * (0.75 : ℚ)).floor.toNat
  else ((base : ℚ) * (0.5 : ℚ)).floor.toNat

/-- Models `_get_priority_level`. -/
def _get_priority_level (category : String) (p : ℚ) : String :=
  if category = "Medical" ∨ p > 0.8 then "High"
  else if category = "Diet" ∨ p > 0.5 then "Medium"
  else "Low"

/-- Models `_priority_score`. -/
def _priority_score (s : String) : ℕ :=
  if s = "High" then 0 else if s = "Medium" then 1 else if s = "Low" then 2 else 3

/-- Instantiation of one registry template for one matched disease, as in
the loop body of `generate_recommendations`. -/
def instantiateTemplate (d : DiseasePrediction) (t : RecTemplate) : Recommendation :=
  ⟨t.category, t.recommendation_text, t.why, t.purpose,
   _calculate_duration t.base_duration d.probability,
   _get_priority_level t.category d.probability, d.disease_name⟩

/-- Instantiation of one `Normal` fallback template, as in the
`if not recommendations:` branch of `generate_recommendations`. -/
def instantiateNormal (t : RecTemplate) : Recommendation :=
  ⟨t.category, t.recommendation_text, t.why, t.purpose, t.base_duration,
   "Low", "General Health"⟩

/-- Stable insertion with respect to the priority score. -/
def stableInsert (r : Recommendation) : List Recommendation → List Recommendation
  | [] => [r]
  | y :: ys =>
    if _priority_score r.priority_level ≤ _priority_score y.priority_level then
      r :: y :: ys
    else y :: stableInsert r ys

/-- Stable sort by priority score, modelling Python
`sorted(recommendations, key=...)`; a stable sort by a key is unique, so
this insertion sort computes exactly the `sorted` result. -/
def stableSortRecs : List Recommendation → List Recommendation
  | [] => []
  | x :: xs => stableInsert x (stableSortRecs xs)

/-- The disease-specific recommendations collected by the first loop of
`generate_recommendations`: diseases absent from the registry contribute
nothing. -/
def baseRecs (preds : List DiseasePrediction) : List Recommendation :=
  preds.flatMap
    (fun d =>
      match lookupStr disease_recommendations d.disease_name with
      | some ts => ts.map (instantiateTemplate d)
      | none => [])

/-- Models `RecommendationEngine.generate_recommendations`: disease-specific
recommendations, the `Normal` fallback when none were produced, then stable
sort by priority and truncation to 8.  (The registry is known to hold the
`Normal` key; the `getD` default is never taken.) -/
def generate_recommendations (preds : List DiseasePrediction) : List Recommendation :=
  let recs := baseRecs preds
  let recs :=
    if recs.isEmpty then
      ((lookupStr disease_recommendations "Normal").getD []).map instantiateNormal
    else recs
  (stableSortRecs recs).take 8

/-- A numeric token of a line in the sense of claim C5: a maximal decimal
(`\d+.\d+`) or whole-number (`\d+`) occurrence, in textual order. -/
inductive NumToken
  | dec (ip fp : List Char)
  | int (d : List Char)
deriving DecidableEq

/-- Value of a numeric token. -/
def tokenValue : NumToken → ℚ
  | .dec ip fp => decValue ip fp
  | .int d => (parseNatDigits d : ℚ)

/-- Single left-to-right pass listing the numeric tokens of a line in
textual order, a digit run immediately followed by a dot and another digit
run forming one decimal token.  This is the token order claim C5 describes. -/
def tokScan : List Char → DecSt → List NumToken
  | [], st =>
    match st with
    | .run1 r1 => [.int r1]
    | .dot r1 => [.int r1]
    | .run2 r1 r2 => [.dec r1 r2]
    | .out => []
  | c :: cs, .out =>
    if c.isDigit then tokScan cs (.run1 [c]) else tokScan cs .out
  | c :: cs, .run1 r1 =>
    if c.isDigit then tokScan cs (.run1 (r1 ++ [c]))
    else if c = '.' then tokScan cs (.dot r1)
    else .int r1 :: tokScan cs .out
  | c :: cs, .dot r1 =>
    if c.isDigit then tokScan cs (.run2 r1 [c]) else .int r1 :: tokScan cs .out
  | c :: cs, .run2 r1 r2 =>
    if c.isDigit then tokScan cs (.run2 r1 (r2 ++ [c]))
    else .dec r1 r2 :: tokScan cs .out

/-- Value extraction from one line exactly as claim C5 words it: the first
numeric token in textual order passing the sanity filter, after stripping
thousands separators. -/
def claimLineValue (line : List Char) : Option ℚ :=
  ((tokScan (stripCommas line) .out).map tokenValue).find? is_reasonable_blood_value

/-- Per-pattern scan exactly as claim C5 words it: on the first line
containing the alias, take a value from that line or, failing that, from
the immediately following line only; extraction for the pattern then stops
either way. -/
def claimScan (pat : List Char) : List (List Char) → Option ℚ
  | [] => none
  | l :: rest =>
    if aliasMatch pat l then
      match claimLineValue l with
      | some v => some v
      | none =>
        match rest with
        | [] => none
        | nxt :: _ => claimLineValue nxt
    else claimScan pat rest

/-- Extraction for one code exactly as claim C5 words it. -/
def claimExtractParameterValue (lines : List (List Char)) (pats : List (List Char)) : Option ℚ :=
  pats.findSome? (fun p => claimScan p lines)

/-- Nonempty all-digit character list. -/
def isDigits (l : List Char) : Bool := !l.isEmpty && l.all Char.isDigit

/-- Integer part of a numeric token string (everything before the dot). -/
def tokInt (t : List Char) : List Char := t.takeWhile (fun c => !(c = '.'))

/-- Rest of a numeric token string from the dot on. -/
def tokRest (t : List Char) : List Char := t.dropWhile (fun c => !(c = '.'))

/-- Well-formed numeric token string: digits, or digits dot digits. -/
def wfTokenB (t : List Char) : Bool :=
  isDigits (tokInt t) && ((tokRest t).isEmpty || isDigits (tokRest t).tail)

/-- Value Python `float` reads from a well-formed numeric token string. -/
def pyFloat (t : List Char) : ℚ :=
  if (tokRest t).isEmpty then (parseNatDigits (tokInt t) : ℚ)
  else decValue (tokInt t) (tokRest t).tail

/-- First alias pattern of a code in the `parameter_patterns` table. -/
def firstAlias (code : String) : List Char :=
  match lookupStr parameter_patterns code with
  | some (a :: _) => strChars a
  | _ => []

/-- A line consisting of a code's first alias, one space, and a numeric
token. -/
def canonLine (code : String) (t : List Char) : List Char :=
  firstAlias code ++ ' ' :: t

/-- Does the line start with the code's first alias, immediately followed
by a numeric token whose value lies inside the code's plausibility range?
Witness form of the hypothesis of claim C6. -/
def canonicalObsLine (code : String) (l : List Char) : Bool :=
  (firstAlias code).isPrefixOf l &&
    (match l.drop (firstAlias code).length with
     | ' ' :: t =>
       wfTokenB t &&
         (match lookupStr reasonable_ranges code with
          | some r => decide (r.1 ≤ pyFloat t ∧ pyFloat t ≤ r.2)
          | none => false)
     | _ => false)

/-- The hypothesis of claim C6 at a line list: every one of the 26 codes
has a line holding its first alias immediately followed by a plausible
numeric value. -/
def claimHypothesisC6 (lines : List (List Char)) : Bool :=
  parameter_patterns.all (fun pr => lines.any (fun l => canonicalObsLine pr.1 l))

/-- Each line paired with the immediately following line, when any. -/
def withNext : List (List Char) → List (List Char × Option (List Char))
  | [] => []
  | [l] => [(l, none)]
  | l :: l2 :: rest => (l, some l2) :: withNext (l2 :: rest)

/-- Station-based reformulation of `_extract_parameter_value`: for each
alias pattern in declared order, the first line containing the alias that
yields a value — from itself or from its immediate successor — wins. -/
def amendedExtractValue (lines : List (List Char)) (pats : List (List Char)) : Option ℚ :=
  pats.findSome?
    (fun p =>
      (withNext lines).findSome?
        (fun st =>
          if aliasMatch p st.1 then
            match pyExtractNumericalValue st.1 with
            | some v => some v
            | none => st.2.bind pyExtractNumericalValue
          else none))

/-- A recommendation is an instantiation of a registry template of one of
the matched diseases. -/
def originatesFrom (preds : List DiseasePrediction) (r : Recommendation) : Prop :=
  ∃ d ts t, d ∈ preds ∧ lookupStr disease_recommendations d.disease_name = some ts ∧
    t ∈ ts ∧ r = instantiateTemplate d t

/-- The single recommendation generated from the `Normal` fallback set. -/
def normalRecommendation : Recommendation :=
  ⟨"Lifestyle", "Maintain balanced diet and regular exercise",
   "Your blood parameters are within normal range", "Maintain good health",
   52, "Low", "General Health"⟩

/-- Join lines with newlines (inverse of `splitLinesChars` on
newline-free lines). -/
def joinLines : List (List Char) → List Char
  | [] => []
  | [l] => l
  | l :: l2 :: rest => l ++ '\n' :: joinLines (l2 :: rest)

/-- Bucket membership as claim C4 states it: all buckets are half-open
`[lo, hi)` except the top one, closed at `1`. -/
def inSeverityBucket (q : ℚ) (e : String × ℚ × ℚ) : Bool :=
  decide (e.2.1 ≤ q) && (decide (q < e.2.2) || (decide (e.2.2 = 1) && decide (q ≤ 1)))

/-- The validated observation set of spec Scenario A. -/
def scenarioAObs : List (String × ℚ) := [("HGB", 9.5), ("MCV", 75)]

/-- The `Iron Deficiency Anemia` entry of the pattern registry. -/
def idaPattern : DiseasePattern :=
  ⟨["HGB", "MCV", "MCH", "MCHC", "RDW_CV", "RETICULOCYTES"],
   [("HGB", .low), ("MCV", .low), ("MCH", .low), ("MCHC", .low),
    ("RDW_CV", .high), ("RETICULOCYTES", .normal)], 0.9⟩

/-- A report text listing, in catalogue order, every code's first alias
followed by a value inside the code's plausibility range; the `BASO` value
`0.0` is plausible (the `BASO` band is `[0.0, 0.5]`) but fails the
extractor's `0.001 ≤ v` sanity filter. -/
def textA : String :=
  "WBC 6.0\nRBC 4.8\nHGB 13.0\nHCT 40.0\nMCV 90.0\nMCH 29.0\nMCHC 34.0\nPLT 250.0\nRDW-SD 42.0\nRDW-CV 13.0\nPDW 12.0\nMPV 9.0\nP-LCR 30.0\nPCT 0.3\nNEUT 4.0\nLYMPH 2.0\nMONO 0.5\nEO 0.2\nBASO 0.0\nIG 0.03\nNRBC 1.0\nReticulocyte 1.5\nIRF 10.0\nLFR 88.0\nMFR 12.0\nHFR 1.0"

/-- The same report text with sanity-passing values everywhere but with the
`MCHC` line placed before the `MCH` line. -/
def textB : String :=
  "WBC 6.0\nRBC 4.8\nHGB 13.0\nHCT 40.0\nMCV 90.0\nMCHC 34.0\nMCH 29.0\nPLT 250.0\nRDW-SD 42.0\nRDW-CV 13.0\nPDW 12.0\nMPV 9.0\nP-LCR 30.0\nPCT 0.3\nNEUT 4.0\nLYMPH 2.0\nMONO 0.5\nEO 0.2\nBASO 0.1\nIG 0.03\nNRBC 1.0\nReticulocyte 1.5\nIRF 10.0\nLFR 88.0\nMFR 12.0\nHFR 1.0"

/-- Character class of the alias patterns: Latin letters and the hyphen.
Every registered first alias consists of such characters only. -/
def isAliasChar (c : Char) : Bool := c.isAlpha || c = '-'

/-- Character class of numeric tokens: digits and the decimal dot. -/
def isTokChar (c : Char) : Bool := c.isDigit || c = '.'

/-! Helper lemmas. -/

theorem digit_not_upper (c : Char) (h : c.isDigit = true) : pyToLower c = c := by
  simp only [Char.isDigit, Bool.and_eq_true, decide_eq_true_eq] at h
  unfold pyToLower
  rw [if_neg]
  rintro ⟨ha, _⟩
  change (65 : UInt32) ≤ c.val at ha
  obtain ⟨h1, h2⟩ := h
  simp only [UInt32.le_def, BitVec.le_def,
    show (UInt32.toBitVec 65).toNat = 65 from rfl,
    show (UInt32.toBitVec 48).toNat = 48 from rfl,
    show (UInt32.toBitVec 57).toNat = 57 from rfl] at ha h1 h2
  omega

theorem digit_char_facts (c : Char) (h : c.isDigit = true) :
    isTokChar c = true ∧ ¬(c = '.') ∧ ¬(c = ',') ∧ ¬(c = '\n') ∧
    isAliasChar (pyToLower c) = false := by
  refine ⟨by simp [isTokChar, h], ?_, ?_, ?_, ?_⟩
  · rintro rfl; exact absurd h (by decide)
  · rintro rfl; exact absurd h (by decide)
  · rintro rfl; exact absurd h (by decide)
  · rw [digit_not_upper c h]
    simp only [Char.isDigit, Bool.and_eq_true, decide_eq_true_eq] at h
    obtain ⟨h1, h2⟩ := h
    simp only [isAliasChar, Char.isAlpha, Char.isUpper, Char.isLower,
      Bool.or_eq_false_iff, Bool.and_eq_false_iff, decide_eq_false_iff_not]
    simp only [UInt32.le_def, BitVec.le_def,
      show (UInt32.toBitVec 48).toNat = 48 from rfl,
      show (UInt32.toBitVec 57).toNat = 57 from rfl] at h1 h2
    refine ⟨⟨Or.inl ?_, Or.inl ?_⟩, ?_⟩
    · simp only [ge_iff_le, UInt32.le_def, BitVec.le_def,
        show (UInt32.toBitVec 65).toNat = 65 from rfl]
      omega
    · simp only [ge_iff_le, UInt32.le_def, BitVec.le_def,
        show (UInt32.toBitVec 97).toNat = 97 from rfl]
      omega
    · rintro rfl
      exact absurd h1 (by decide)

theorem tokChar_not_alias (c : Char) (h : isTokChar c = true) :
    isAliasChar (pyToLower c) = false := by
  rcases (by simpa [isTokChar] using h : c.isDigit = true ∨ c = '.') with hd | rfl
  · exact (digit_char_facts c hd).2.2.2.2
  · decide

theorem tokChar_facts (c : Char) (h : isTokChar c = true) :
    ¬(c = ',') ∧ ¬(c = '\n') := by
  rcases (by simpa [isTokChar] using h : c.isDigit = true ∨ c = '.') with hd | rfl
  · exact ⟨(digit_char_facts c hd).2.2.1, (digit_char_facts c hd).2.2.2.1⟩
  · exact ⟨by decide, by decide⟩

theorem validate_eq_filter (ps : List (String × ℚ)) :
    validate_parameters ps =
      ps.filter
        (fun kv =>
          match lookupStr reasonable_ranges kv.1 with
          | some r => decide (r.1 ≤ kv.2 ∧ kv.2 ≤ r.2)
          | none => true) := by
  induction ps with
  | nil => rfl
  | cons kv t ih =>
    simp only [validate_parameters, List.filterMap_cons, List.filter_cons] at *
    cases h : lookupStr reasonable_ranges kv.1 with
    | none => simpa [h] using ih
    | some r =>
      by_cases hc : r.1 ≤ kv.2 ∧ kv.2 ≤ r.2
      · simpa [h, hc] using ih
      · simpa [h, hc] using ih

/-- C7: the validator returns a sub-mapping of its input: it never adds
codes and never alters a retained value (the output is a sublist of the
input); an observation whose value falls outside its plausibility range is
dropped; a code with no plausibility range passes through unchanged; and
every retained observation that has a range lies within it. -/
theorem C7_validator_submapping (ps : List (String × ℚ)) :
    List.Sublist (validate_parameters ps) ps ∧
    (∀ kv ∈ validate_parameters ps, ∀ r, lookupStr reasonable_ranges kv.1 = some r →
      r.1 ≤ kv.2 ∧ kv.2 ≤ r.2) ∧
    (∀ kv ∈ ps, ∀ r, lookupStr reasonable_ranges kv.1 = some r →
      (kv.2 < r.1 ∨ r.2 < kv.2) → kv ∉ validate_parameters ps) ∧
    (∀ kv ∈ ps, lookupStr reasonable_ranges kv.1 = none → kv ∈ validate_parameters ps) := by
  refine ⟨?_, ?_, ?_, ?_⟩
  · rw [validate_eq_filter]
    exact List.filter_sublist ps
  · intro kv hmem r hr
    rw [validate_eq_filter, List.mem_filter] at hmem
    have := hmem.2
    rw [hr] at this
    simpa using this
  · intro kv _ r hr hout hmem
    rw [validate_eq_filter, List.mem_filter] at hmem
    have := hmem.2
    rw [hr] at this
    simp only [decide_eq_true_eq] at this
    rcases hout with h | h
    · exact absurd this.1 (not_le.mpr h)
    · exact absurd this.2 (not_le.mpr h)
  · intro kv hmem hr
    rw [validate_eq_filter, List.mem_filter]
    refine ⟨hmem, ?_⟩
    rw [hr]

/-- Witness for C7 at a concrete extracted mapping: an in-range code, an
unknown code without a range, and an out-of-range code. -/
theorem C7_validator_submapping_witness :
    List.Sublist
      (validate_parameters [("HGB", 9.5), ("XYZ", 3), ("MCV", 5000)])
      [("HGB", 9.5), ("XYZ", 3), ("MCV", 5000)] ∧
    ("XYZ", (3 : ℚ)) ∈ validate_parameters [("HGB", 9.5), ("XYZ", 3), ("MCV", 5000)] ∧
    ("MCV", (5000 : ℚ)) ∉ validate_parameters [("HGB", 9.5), ("XYZ", 3), ("MCV", 5000)] := by
  refine ⟨(C7_validator_submapping _).1, ?_, ?_⟩
  · exact (C7_validator_submapping _).2.2.2 _ (by simp)
      (by with_unfolding_all rfl)
  · exact (C7_validator_submapping _).2.2.1 _ (by simp) (60, 120)
      (by with_unfolding_all rfl) (by norm_num)

/-- Counterexample to C2: with an empty match list and one abnormal
validated observation (`HGB = 5` lies outside the clinical range
`[12, 16]`), the code returns `0.0`, while the claimed formula
`min(1, 0 + min(1, 1/10) × 0.2)` yields `1/50 = 0.02`. -/
theorem C2_empty_list_counterexample :
    _calculate_risk_score [] [("HGB", 5)] = 0 ∧
    claimOverallScore [] [("HGB", 5)] = 1 / 50 ∧
    (0 : ℚ) ≠ 1 / 50 := by
  refine ⟨by with_unfolding_all rfl, by with_unfolding_all rfl, by norm_num⟩

/-- C2 (amended): the overall risk score is `0.0` whenever the match list
is empty, regardless of abnormal observations; for a non-empty list it
equals `min(1, maxMatchScore + min(1, abnormalCount/10) × 0.2)`, with
`abnormalCount` counting validated observations outside their clinical
`NORMAL_RANGES` entry (not the plausibility range). -/
theorem C2_risk_score_amended (preds : List DiseasePrediction) (params : List (String × ℚ)) :
    (preds = [] → _calculate_risk_score preds params = 0) ∧
    (preds ≠ [] → _calculate_risk_score preds params = claimOverallScore preds params) := by
  constructor
  · intro h
    subst h
    rfl
  · intro h
    cases preds with
    | nil => exact absurd rfl h
    | cons p t => simp [_calculate_risk_score, claimOverallScore]

/-- Witness for C2 (amended) at a non-empty prediction list. -/
theorem C2_risk_score_amended_witness :
    _calculate_risk_score [⟨"Leukopenia", 1 / 2⟩] [("HGB", 5)] =
      claimOverallScore [⟨"Leukopenia", 1 / 2⟩] [("HGB", 5)] :=
  (C2_risk_score_amended [⟨"Leukopenia", 1 / 2⟩] [("HGB", 5)]).2 (by simp)

theorem le_foldl_max (ps : List ℚ) : ∀ p : ℚ, p ≤ ps.foldl max p := by
  induction ps with
  | nil => intro p; simp
  | cons a t ih =>
    intro p
    simpa using le_trans (le_max_left p a) (ih (max p a))

theorem foldl_max_le (ps : List ℚ) : ∀ p : ℚ, p ≤ 1 → (∀ x ∈ ps, x ≤ 1) →
    ps.foldl max p ≤ 1 := by
  induction ps with
  | nil => intro p h _; simpa using h
  | cons a t ih =>
    intro p hp hall
    simp only [List.foldl_cons]
    exact ih (max p a) (max_le hp (hall a (by simp))) (fun x hx => hall x (by simp [hx]))

/-- C4: the severity assignment follows the claimed bucket table, the five
buckets partition `[0, 1]` with no gap and no overlap, and the computed
overall score lies in `[0, 1]` whenever all match scores do. -/
theorem C4_severity_partition_and_bounds :
    (∀ q : ℚ, 0 ≤ q → q ≤ 1 →
      SEVERITY_LEVELS.countP (fun e => inSeverityBucket q e) = 1 ∧
      ∀ e ∈ SEVERITY_LEVELS, inSeverityBucket q e = true → _determine_severity q = e.1) ∧
    (∀ (preds : List DiseasePrediction) (params : List (String × ℚ)),
      (∀ d ∈ preds, 0 ≤ d.probability ∧ d.probability ≤ 1) →
      0 ≤ _calculate_risk_score preds params ∧ _calculate_risk_score preds params ≤ 1) := by
  constructor
  · intro q h0 h1
    constructor
    · simp only [SEVERITY_LEVELS, List.countP_cons, List.countP_nil, inSeverityBucket,
        Bool.and_eq_true, Bool.or_eq_true, decide_eq_true_eq]
      rcases lt_or_le q 0.2 with hq | hq
      · rw [if_neg (by rintro ⟨hA, _⟩; linarith),
          if_neg (by rintro ⟨hA, _⟩; linarith),
          if_neg (by rintro ⟨hA, _⟩; linarith),
          if_neg (by rintro ⟨hA, _⟩; linarith),
          if_pos ⟨h0, Or.inl hq⟩]
      · rcases lt_or_le q 0.4 with hq2 | hq2
        · rw [if_neg (by rintro ⟨hA, _⟩; linarith),
            if_neg (by rintro ⟨hA, _⟩; linarith),
            if_neg (by rintro ⟨hA, _⟩; linarith),
            if_pos ⟨hq, Or.inl hq2⟩,
            if_neg (by
              rintro ⟨hA, hB | ⟨hC, hD⟩⟩
              · linarith
              · norm_num at hC)]
        · rcases lt_or_le q 0.6 with hq3 | hq3
          · rw [if_neg (by rintro ⟨hA, _⟩; linarith),
              if_neg (by rintro ⟨hA, _⟩; linarith),
              if_pos ⟨hq2, Or.inl hq3⟩,
              if_neg (by
                rintro ⟨hA, hB | ⟨hC, hD⟩⟩
                · linarith
                · norm_num at hC),
              if_neg (by
                rintro ⟨hA, hB | ⟨hC, hD⟩⟩
                · linarith
                · norm_num at hC)]
          · rcases lt_or_le q 0.8 with hq4 | hq4
            · rw [if_neg (by rintro ⟨hA, _⟩; linarith),
                if_pos ⟨hq3, Or.inl hq4⟩,
                if_neg (by
                  rintro ⟨hA, hB | ⟨hC, hD⟩⟩
                  · linarith
                  · norm_num at hC),
                if_neg (by
                  rintro ⟨hA, hB | ⟨hC, hD⟩⟩
                  · linarith
                  · norm_num at hC),
                if_neg (by
                  rintro ⟨hA, hB | ⟨hC, hD⟩⟩
                  · linarith
                  · norm_num at hC)]
            · rw [if_pos ⟨hq4, Or.inr ⟨by norm_num, h1⟩⟩,
                if_neg (by
                  rintro ⟨hA, hB | ⟨hC, hD⟩⟩
                  · linarith
                  · norm_num at hC),
                if_neg (by
                  rintro ⟨hA, hB | ⟨hC, hD⟩⟩
                  · linarith
                  · norm_num at hC),
                if_neg (by
                  rintro ⟨hA, hB | ⟨hC, hD⟩⟩
                  · linarith
                  · norm_num at hC),
                if_neg (by
                  rintro ⟨hA, hB | ⟨hC, hD⟩⟩
                  · linarith
                  · norm_num at hC)]
    · intro e he hb
      fin_cases he <;>
        simp only [inSeverityBucket, Bool.and_eq_true, Bool.or_eq_true,
          decide_eq_true_eq] at hb
      · rcases hb.2 with h | h
        · simp only [_determine_severity]
          rw [if_neg (by push_neg; nlinarith), if_neg (by push_neg; nlinarith),
            if_neg (by push_neg; nlinarith), if_neg (by push_neg; nlinarith)]
        · exfalso; norm_num at h
      · rcases hb.2 with h | h
        · simp only [_determine_severity]
          rw [if_neg (by push_neg; nlinarith), if_neg (by push_neg; nlinarith),
            if_neg (by push_neg; nlinarith), if_pos hb.1]
        · exfalso; norm_num at h
      · rcases hb.2 with h | h
        · simp only [_determine_severity]
          rw [if_neg (by push_neg; nlinarith), if_neg (by push_neg; nlinarith),
            if_pos hb.1]
        · exfalso; norm_num at h
      · rcases hb.2 with h | h
        · simp only [_determine_severity]
          rw [if_neg (by push_neg; nlinarith), if_pos hb.1]
        · exfalso; norm_num at h
      · simp only [_determine_severity]
        rw [if_pos hb.1]
  · intro preds params hall
    cases preds with
    | nil =>
      constructor
      · rfl
      · rw [show _calculate_risk_score [] params = 0 from rfl]; norm_num
    | cons d t =>
      simp only [_calculate_risk_score, List.map_cons]
      have hf0 : (0 : ℚ) ≤ min 1 ((params.countP fun kv => _is_abnormal_parameter kv.1 kv.2 : ℚ) / 10) :=
        le_min (by norm_num) (div_nonneg (Nat.cast_nonneg _) (by norm_num))
      have hmp : (0 : ℚ) ≤ (t.map (fun d => d.probability)).foldl max d.probability :=
        le_trans (hall d (by simp)).1 (le_foldl_max _ _)
      constructor
      · refine le_min (by norm_num) ?_
        have : (0 : ℚ) ≤ min 1 ((params.countP fun kv => _is_abnormal_parameter kv.1 kv.2 : ℚ) / 10) * 0.2 :=
          mul_nonneg hf0 (by norm_num)
        linarith
      · exact min_le_left _ _

/-- Witness for C4 at `q = 1/2` and a concrete prediction list. -/
theorem C4_severity_partition_and_bounds_witness :
    (SEVERITY_LEVELS.countP (fun e => inSeverityBucket (1 / 2) e) = 1 ∧
      ∀ e ∈ SEVERITY_LEVELS, inSeverityBucket (1 / 2) e = true →
        _determine_severity (1 / 2) = e.1) ∧
    (0 ≤ _calculate_risk_score [⟨"Leukopenia", 1 / 2⟩] [("HGB", 5)] ∧
      _calculate_risk_score [⟨"Leukopenia", 1 / 2⟩] [("HGB", 5)] ≤ 1) :=
  ⟨C4_severity_partition_and_bounds.1 (1 / 2) (by norm_num) (by norm_num),
   C4_severity_partition_and_bounds.2 [⟨"Leukopenia", 1 / 2⟩] [("HGB", 5)]
     (by intro d hd; simp at hd; simp [hd]; norm_num)⟩

theorem buildDiseaseList_error (keys : List String) (hne : keys ≠ [])
    (hall : ∀ k ∈ keys, unpackPair k = none) :
    buildDiseaseList keys = .error () := by
  cases keys with
  | nil => exact absurd rfl hne
  | cons k ks =>
    have hk : unpackPair k = none := hall k (by simp)
    simp [buildDiseaseList, hk]

/-- C3: `predict` returns a dict on every path, every key of every such
dict has length other than two — so iterating it can never unpack a
`(disease_name, probability)` pair — and therefore every request that
passes the guards and reaches the disease-list construction ends in the
route's generic `analysisFailed` error rather than a response. -/
theorem C3_predict_unpack_always_fails :
    (∀ o : PredictOutcome, predictKeys o ≠ [] ∧ ∀ k ∈ predictKeys o, unpackPair k = none) ∧
    (∀ (text : String) (o : PredictOutcome),
      shortText text = false → pipelineValidated text ≠ [] →
      analyze_blood_report text o = .error .analysisFailed) := by
  have hkeys : ∀ o : PredictOutcome,
      predictKeys o ≠ [] ∧ ∀ k ∈ predictKeys o, unpackPair k = none := by
    intro o
    cases o <;> refine ⟨by simp [predictKeys], ?_⟩ <;>
      · intro k hk
        fin_cases hk <;> rfl
  refine ⟨hkeys, ?_⟩
  intro text o hshort hval
  unfold analyze_blood_report
  rw [if_neg (by simp [hshort])]
  simp only [List.isEmpty_iff]
  rw [if_neg hval, buildDiseaseList_error (predictKeys o) (hkeys o).1 (hkeys o).2]

/-- Witness for C3 at a concrete report text whose validated set is
non-empty: the route returns the generic failure on every predict path. -/
theorem C3_predict_unpack_always_fails_witness :
    analyze_blood_report "HGB 9.5 xx" .success = .error .analysisFailed :=
  C3_predict_unpack_always_fails.2 "HGB 9.5 xx" .success
    (by with_unfolding_all rfl) (by with_unfolding_all decide)

/-- C8: whenever extraction plus validation yields zero observations the
route fails with one of its two explicit pre-matching errors — never with
a success and never reaching the matching stage — and empty input text is
rejected by the length guard with no assessment produced. -/
theorem C8_no_parameters_is_failure :
    ∀ (text : String) (o : PredictOutcome),
      (pipelineValidated text = [] →
        (analyze_blood_report text o = .error .noTextExtracted ∨
          analyze_blood_report text o = .error .noValidParameters) ∧
        ∀ pairs, analyze_blood_report text o ≠ .ok pairs) ∧
      analyze_blood_report "" o = .error .noTextExtracted := by
  intro text o
  constructor
  · intro hval
    have hres : analyze_blood_report text o = .error .noTextExtracted ∨
        analyze_blood_report text o = .error .noValidParameters := by
      unfold analyze_blood_report
      by_cases hs : shortText text = true
      · rw [if_pos hs]
        exact Or.inl rfl
      · rw [if_neg hs]
        simp only [hval]
        exact Or.inr rfl
    refine ⟨hres, ?_⟩
    intro pairs hok
    rcases hres with h | h <;> rw [hok] at h <;> exact Except.noConfusion h
  · unfold analyze_blood_report
    rw [if_pos (by rfl)]

/-- Witness for C8 at empty text, whose validated set is empty. -/
theorem C8_no_parameters_is_failure_witness :
    (analyze_blood_report "" .notTrained = .error .noTextExtracted ∨
      analyze_blood_report "" .notTrained = .error .noValidParameters) ∧
    analyze_blood_report "" .notTrained ≠ .ok [] :=
  ⟨((C8_no_parameters_is_failure "" .notTrained).1 (by with_unfolding_all rfl)).1,
   ((C8_no_parameters_is_failure "" .notTrained).1 (by with_unfolding_all rfl)).2 []⟩

/-- Counterexample to C10: on the 7-character text `"WBC 5.0"` — shorter
than the route's 10-character threshold — the extractor, called directly,
scans and returns a non-empty mapping, not the empty mapping the claim
promises. -/
theorem C10_short_text_counterexample :
    extract_parameters "WBC 5.0" = [("WBC", 5)] ∧
    ("WBC 5.0".length < 10) := by
  constructor
  · with_unfolding_all rfl
  · decide

/-- C10 (amended): the length short-circuit lives in the analysis route,
not in the extractor: any text that strips to fewer than 10 characters is
rejected with the `noTextExtracted` error before extraction runs, while the
extractor itself, applied to empty text, returns the empty mapping only
because no alias matches. -/
theorem C10_short_circuit_amended :
    (∀ (text : String) (o : PredictOutcome), (pyStrip text.data).length < 10 →
      analyze_blood_report text o = .error .noTextExtracted) ∧
    extract_parameters "" = [] := by
  constructor
  · intro text o hlen
    unfold analyze_blood_report
    rw [if_pos (by simp [shortText, hlen])]
  · with_unfolding_all rfl

/-- Witness for C10 (amended) at a concrete 3-character text. -/
theorem C10_short_circuit_amended_witness :
    analyze_blood_report "abc" .success = .error .noTextExtracted :=
  C10_short_circuit_amended.1 "abc" .success (by with_unfolding_all decide)

theorem mem_stableInsert (r x : Recommendation) (l : List Recommendation) :
    x ∈ stableInsert r l ↔ x = r ∨ x ∈ l := by
  induction l with
  | nil => simp [stableInsert]
  | cons y ys ih =>
    by_cases hc : _priority_score r.priority_level ≤ _priority_score y.priority_level
    · simp [stableInsert, hc]
    · simp only [stableInsert, if_neg hc, List.mem_cons, ih]
      tauto

theorem mem_stableSortRecs (x : Recommendation) (l : List Recommendation) :
    x ∈ stableSortRecs l ↔ x ∈ l := by
  induction l with
  | nil => simp [stableSortRecs]
  | cons y ys ih => simp [stableSortRecs, mem_stableInsert, ih]

/-- Counterexample to C9: a non-empty match list whose disease
(`Neutropenia`) has no registry entry still produces the reserved `Normal`
fallback set (`General Health`, priority `Low`), although the claim allows
the fallback only for an empty match list. -/
theorem C9_fallback_counterexample :
    generate_recommendations [⟨"Neutropenia", 9 / 10⟩] = [normalRecommendation] ∧
    ([⟨"Neutropenia", 9 / 10⟩] : List DiseasePrediction) ≠ [] ∧
    normalRecommendation.disease_related = "General Health" ∧
    normalRecommendation.priority_level = "Low" :=
  ⟨by with_unfolding_all rfl, by simp, rfl, rfl⟩

/-- C9 (amended): the fallback set is emitted exactly when no matched
disease contributes a registry template — in particular whenever the match
list is empty — and whenever some matched disease is in the registry, every
emitted recommendation instantiates a template of a matched registry
disease (and is never the `General Health` fallback). -/
theorem C9_recommendation_provenance (preds : List DiseasePrediction) :
    (baseRecs preds = [] → generate_recommendations preds = [normalRecommendation]) ∧
    (baseRecs preds ≠ [] → ∀ r ∈ generate_recommendations preds,
      originatesFrom preds r ∧ r.disease_related ≠ "General Health") := by
  constructor
  · intro h
    simp only [generate_recommendations, h]
    rfl
  · intro h r hr
    simp only [generate_recommendations, List.isEmpty_iff, if_neg h] at hr
    have hr2 : r ∈ stableSortRecs (baseRecs preds) := List.take_subset 8 _ hr
    rw [mem_stableSortRecs] at hr2
    simp only [baseRecs, List.mem_flatMap] at hr2
    obtain ⟨d, hd, hin⟩ := hr2
    cases hlk : lookupStr disease_recommendations d.disease_name with
    | none => rw [hlk] at hin; simp at hin
    | some ts =>
      rw [hlk] at hin
      simp only [List.mem_map] at hin
      obtain ⟨t, ht, rfl⟩ := hin
      refine ⟨⟨d, ts, t, hd, hlk, ht, rfl⟩, ?_⟩
      show d.disease_name ≠ "General Health"
      intro heq
      rw [heq] at hlk
      rw [show lookupStr disease_recommendations "General Health" = none from rfl] at hlk
      exact Option.noConfusion hlk

/-- Witness for C9 (amended) at a matched registry disease: the first
generated recommendation instantiates one of its templates. -/
theorem C9_recommendation_provenance_witness :
    originatesFrom [⟨"Iron Deficiency Anemia", 9 / 10⟩]
      ⟨"Diet",
       "Increase iron-rich foods: red meat, spinach, lentils, fortified cereals",
       "Low hemoglobin levels indicate iron deficiency",
       "Boost iron levels and improve oxygen transport", 12, "High",
       "Iron Deficiency Anemia"⟩ :=
  ((C9_recommendation_provenance [⟨"Iron Deficiency Anemia", 9 / 10⟩]).2
    (by with_unfolding_all decide) _ (by with_unfolding_all decide)).1

/-- C1: for every validated observation set and every registered pattern,
the matcher's score is `weight × (matching codes / total codes)`, where a
code matches exactly when the pattern expects for it the direction obtained
from its clinical range (`value < min` low, `value > max` high, otherwise
normal), and a code absent from the observation set never matches. -/
theorem C1_matcher_formula (obs : List (String × ℚ)) (name : String)
    (pat : DiseasePattern) (_hmem : (name, pat) ∈ DISEASE_PATTERNS) :
    matchScore pat obs =
      pat.weight *
        (((pat.parameters.filter (fun c => directionMatches obs pat c)).length : ℚ) /
          (pat.parameters.length : ℚ)) ∧
    (∀ c v r, lookupStr obs c = some v → lookupStr NORMAL_RANGES c = some r →
      (directionMatches obs pat c = true ↔
        lookupStr pat.pattern c =
          some (if v < r.min then Direction.low
            else if v > r.max then Direction.high else Direction.normal))) ∧
    (∀ c, lookupStr obs c = none → directionMatches obs pat c = false) := by
  refine ⟨?_, ?_, ?_⟩
  · rw [matchScore, List.countP_eq_length_filter, mul_div_assoc]
  · intro c v r h1 h2
    simp only [directionMatches, classifyDirection, h1, h2]
    cases hlp : lookupStr pat.pattern c with
    | none => simp
    | some d => simp [eq_comm]
  · intro c h
    cases hlp : lookupStr pat.pattern c with
    | none => simp [directionMatches, hlp]
    | some d => simp [directionMatches, classifyDirection, hlp, h]

/-- Witness for C1 at spec Scenario A (`HGB 9.5`, `MCV 75`) against the
registered Iron Deficiency Anemia pattern. -/
theorem C1_matcher_formula_witness :
    matchScore idaPattern scenarioAObs =
      idaPattern.weight *
        (((idaPattern.parameters.filter
            (fun c => directionMatches scenarioAObs idaPattern c)).length : ℚ) /
          (idaPattern.parameters.length : ℚ)) :=
  (C1_matcher_formula scenarioAObs "Iron Deficiency Anemia" idaPattern
    (by with_unfolding_all decide)).1

theorem scanLines_eq_withNext (pat : List Char) (lines : List (List Char)) :
    scanLines pat lines =
      (withNext lines).findSome?
        (fun st =>
          if aliasMatch pat st.1 then
            match pyExtractNumericalValue st.1 with
            | some v => some v
            | none => st.2.bind pyExtractNumericalValue
          else none) := by
  induction lines with
  | nil => rfl
  | cons l rest ih =>
    cases rest with
    | nil =>
      by_cases ha : aliasMatch pat l
      · cases hv : pyExtractNumericalValue l with
        | some v => simp [scanLines, withNext, ha, hv]
        | none => simp [scanLines, withNext, ha, hv]
      · simp [scanLines, withNext, ha]
    | cons l2 rest2 =>
      by_cases ha : aliasMatch pat l
      · cases hv : pyExtractNumericalValue l with
        | some v => simp [scanLines, withNext, ha, hv]
        | none =>
          cases hv2 : pyExtractNumericalValue l2 with
          | some v => simp [scanLines, withNext, ha, hv, hv2]
          | none => simpa [scanLines, withNext, ha, hv, hv2] using ih
      · simpa [scanLines, withNext, ha] using ih

/-- Counterexample to C5, at the registered alias patterns for `HGB`.  On
the single line `HGB 7 9.5` both `7` and `9.5` pass the sanity filter and
`7` comes first in textual order, yet the code returns `9.5`, because the
decimal-regex pass runs before the whole-number pass.  And on the lines
`HGB low / xx / HGB 9.5`, the first line containing the alias (and its
successor) has no numeric token, yet the code keeps scanning and returns
`9.5` from the third line instead of stopping. -/
theorem C5_extractor_order_counterexample :
    extractParameterValue [strChars "HGB 7 9.5"]
        (((lookupStr parameter_patterns "HGB").getD []).map strChars) = some (19 / 2) ∧
    claimExtractParameterValue [strChars "HGB 7 9.5"]
        (((lookupStr parameter_patterns "HGB").getD []).map strChars) = some 7 ∧
    ((19 : ℚ) / 2) ≠ 7 ∧
    extractParameterValue [strChars "HGB low", strChars "xx", strChars "HGB 9.5"]
        (((lookupStr parameter_patterns "HGB").getD []).map strChars) = some (19 / 2) ∧
    claimExtractParameterValue [strChars "HGB low", strChars "xx", strChars "HGB 9.5"]
        (((lookupStr parameter_patterns "HGB").getD []).map strChars) = none := by
  refine ⟨by with_unfolding_all rfl, by with_unfolding_all rfl, by norm_num,
    by with_unfolding_all rfl, by with_unfolding_all rfl⟩

/-- C5 (amended): for each alias pattern in declared order the extractor
scans every line top-to-bottom; at each line containing the alias it tries
that line and then the immediately following line only, taking the first
value that passes the `0.001 ≤ v ≤ 1000` filter in a two-pass order — all
decimal tokens in textual order, then all whole-number tokens in textual
order, after stripping thousands separators — and the first value found
over this whole search stops extraction for that code. -/
theorem C5_extractor_amended :
    (∀ (lines : List (List Char)) (pats : List (List Char)),
      extractParameterValue lines pats = amendedExtractValue lines pats) ∧
    (∀ v : ℚ, is_reasonable_blood_value v = true ↔ (1 / 1000 ≤ v ∧ v ≤ 1000)) := by
  constructor
  · intro lines pats
    simp [extractParameterValue, amendedExtractValue, scanLines_eq_withNext]
  · intro v
    simp [is_reasonable_blood_value]

/-- Counterexample to C6, at two texts whose every code has its first alias
immediately followed by a value inside the code's plausibility range
(`claimHypothesisC6`).  In `textA` the `BASO` value `0.0` is plausible but
fails the sanity filter, so `BASO` silently captures the next line's `IG`
value `0.03` instead; in `textB` the `MCHC` line precedes the `MCH` line,
so `MCH` captures the `MCHC` value `34` instead of its own value `29`.  In
both cases the validated set does not hold the values the text paired with
the aliases. -/
theorem C6_round_trip_counterexample :
    claimHypothesisC6 (splitLines textA) = true ∧
    lookupStr (validate_parameters (extract_parameters textA)) "BASO" = some (3 / 100) ∧
    ((3 : ℚ) / 100) ≠ 0 ∧
    claimHypothesisC6 (splitLines textB) = true ∧
    lookupStr (validate_parameters (extract_parameters textB)) "MCH" = some 34 ∧
    ((34 : ℚ)) ≠ 29 := by
  refine ⟨by with_unfolding_all rfl, by with_unfolding_all rfl, by norm_num,
    by with_unfolding_all rfl, by with_unfolding_all rfl, by norm_num⟩

theorem isPrefixOf_append_disjoint (n : List Char) :
    ∀ (x y : List Char), (∀ c ∈ n, isAliasChar c = true) →
      (∀ c ∈ y, isAliasChar c = false) →
      n.isPrefixOf (x ++ y) = n.isPrefixOf x := by
  induction n with
  | nil => intro x y _ _; simp [List.isPrefixOf]
  | cons c n' ih =>
    intro x y hn hy
    cases x with
    | nil =>
      cases y with
      | nil => rfl
      | cons d ys =>
        have hcd : ¬(c = d) := by
          intro he
          have h1 := hn c (by simp)
          have h2 := hy d (by simp)
          rw [he] at h1
          rw [h1] at h2
          exact Bool.noConfusion h2
        simp [List.isPrefixOf, beq_eq_false_iff_ne.mpr hcd]
    | cons a x' =>
      simp only [List.cons_append, List.isPrefixOf, List.append_eq]
      rw [ih x' y (fun e he => hn e (by simp [he])) hy]

theorem containsSub_nil_false (n : List Char) (hne : n ≠ [])
    (hn : ∀ c ∈ n, isAliasChar c = true) :
    ∀ y : List Char, (∀ c ∈ y, isAliasChar c = false) → containsSub n y = false := by
  intro y
  induction y with
  | nil =>
    intro _
    simp [containsSub, List.isEmpty_iff, hne]
  | cons d ys ih =>
    intro hy
    have hpre : n.isPrefixOf (d :: ys) = false := by
      have h := isPrefixOf_append_disjoint n [] (d :: ys) hn hy
      rw [List.nil_append] at h
      rw [h]
      cases n with
      | nil => exact absurd rfl hne
      | cons c n' => rfl
    simp [containsSub, hpre, ih (fun e he => hy e (by simp [he]))]

theorem containsSub_append_disjoint (n : List Char) (hne : n ≠ [])
    (hn : ∀ c ∈ n, isAliasChar c = true) :
    ∀ (x y : List Char), (∀ c ∈ y, isAliasChar c = false) →
      containsSub n (x ++ y) = containsSub n x := by
  intro x
  induction x with
  | nil =>
    intro y hy
    rw [List.nil_append, containsSub_nil_false n hne hn y hy]
    cases n with
    | nil => exact absurd rfl hne
    | cons c n' => rfl
  | cons a x' ih =>
    intro y hy
    have step : containsSub n ((a :: x') ++ y) =
        (n.isPrefixOf ((a :: x') ++ y) || containsSub n (x' ++ y)) := rfl
    rw [step, isPrefixOf_append_disjoint n (a :: x') y hn hy, ih y hy]
    rfl

theorem isPrefixOf_append_self (n : List Char) : ∀ r : List Char,
    n.isPrefixOf (n ++ r) = true := by
  induction n with
  | nil => intro r; simp [List.isPrefixOf]
  | cons c n' ih => intro r; simp [List.isPrefixOf, ih r]

theorem containsSub_self_append (n r : List Char) : containsSub n (n ++ r) = true := by
  cases n with
  | nil => cases r <;> simp [containsSub]
  | cons c n' => simp [containsSub, isPrefixOf_append_self]

theorem decScan_nonDigits (l : List Char) :
    ∀ cs : List Char, (∀ c ∈ l, c.isDigit = false) →
      decScan (l ++ cs) .out = decScan cs .out := by
  induction l with
  | nil => intro cs _; rfl
  | cons c l' ih =>
    intro cs hl
    simp only [List.cons_append, decScan, hl c (by simp), Bool.false_eq_true, if_false,
      List.append_eq]
    exact ih cs (fun e he => hl e (by simp [he]))

theorem decScan_run1 (d : List Char) :
    ∀ (r cs : List Char), (∀ c ∈ d, c.isDigit = true) →
      decScan (d ++ cs) (.run1 r) = decScan cs (.run1 (r ++ d)) := by
  induction d with
  | nil => intro r cs _; simp
  | cons c d' ih =>
    intro r cs hd
    simp only [List.cons_append, decScan, hd c (by simp), if_true, List.append_eq]
    rw [ih (r ++ [c]) cs (fun e he => hd e (by simp [he])), List.append_assoc]
    rfl

theorem decScan_run2 (d : List Char) :
    ∀ (r1 r2 cs : List Char), (∀ c ∈ d, c.isDigit = true) →
      decScan (d ++ cs) (.run2 r1 r2) = decScan cs (.run2 r1 (r2 ++ d)) := by
  induction d with
  | nil => intro r1 r2 cs _; simp
  | cons c d' ih =>
    intro r1 r2 cs hd
    simp only [List.cons_append, decScan, hd c (by simp), if_true, List.append_eq]
    rw [ih r1 (r2 ++ [c]) cs (fun e he => hd e (by simp [he])), List.append_assoc]
    rfl

theorem decScan_dec_token (d1 d2 : List Char) (h1ne : d1 ≠ []) (h2ne : d2 ≠ [])
    (h1 : ∀ c ∈ d1, c.isDigit = true) (h2 : ∀ c ∈ d2, c.isDigit = true) :
    decScan (d1 ++ '.' :: d2) .out = [(d1, d2)] := by
  cases d1 with
  | nil => exact absurd rfl h1ne
  | cons c d1' =>
    simp only [List.cons_append, decScan, h1 c (by simp), if_true, List.append_eq]
    rw [decScan_run1 d1' [c] ('.' :: d2) (fun e he => h1 e (by simp [he]))]
    simp only [decScan, show ('.' : Char).isDigit = false from rfl,
      Bool.false_eq_true, if_false, if_pos rfl]
    cases d2 with
    | nil => exact absurd rfl h2ne
    | cons e d2' =>
      simp only [decScan, h2 e (by simp), if_true]
      rw [show d2' = d2' ++ [] from (List.append_nil d2').symm,
        decScan_run2 d2' ([c] ++ d1') [e] [] (fun x hx => h2 x (by simp [hx]))]
      simp [decScan]

theorem decScan_int_token (d : List Char) (hd : ∀ c ∈ d, c.isDigit = true) :
    decScan d .out = [] := by
  cases d with
  | nil => rfl
  | cons c d' =>
    simp only [decScan, hd c (by simp), if_true]
    rw [show d' = d' ++ [] from (List.append_nil d').symm,
      decScan_run1 d' [c] [] (fun e he => hd e (by simp [he]))]
    rfl

theorem intScan_nonDigits (l : List Char) :
    ∀ cs : List Char, (∀ c ∈ l, c.isDigit = false) →
      intScan (l ++ cs) [] = intScan cs [] := by
  induction l with
  | nil => intro cs _; rfl
  | cons c l' ih =>
    intro cs hl
    simp only [List.cons_append, intScan, hl c (by simp), Bool.false_eq_true, if_false,
      List.isEmpty_nil, if_true, List.append_eq]
    exact ih cs (fun e he => hl e (by simp [he]))

theorem intScan_digits (d : List Char) :
    ∀ (acc cs : List Char), (∀ c ∈ d, c.isDigit = true) →
      intScan (d ++ cs) acc = intScan cs (acc ++ d) := by
  induction d with
  | nil => intro acc cs _; simp
  | cons c d' ih =>
    intro acc cs hd
    simp only [List.cons_append, intScan, hd c (by simp), if_true, List.append_eq]
    rw [ih (acc ++ [c]) cs (fun e he => hd e (by simp [he])), List.append_assoc]
    rfl

theorem intScan_int_token (d : List Char) (hne : d ≠ [])
    (hd : ∀ c ∈ d, c.isDigit = true) : intScan d [] = [d] := by
  rw [show d = d ++ [] from (List.append_nil d).symm, intScan_digits d [] [] hd]
  simp [intScan, List.isEmpty_iff, hne]

theorem intScan_dec_token (d1 d2 : List Char) (h1ne : d1 ≠ []) (h2ne : d2 ≠ [])
    (h1 : ∀ c ∈ d1, c.isDigit = true) (h2 : ∀ c ∈ d2, c.isDigit = true) :
    intScan (d1 ++ '.' :: d2) [] = [d1, d2] := by
  rw [intScan_digits d1 [] ('.' :: d2) h1]
  simp only [intScan, show ('.' : Char).isDigit = false from rfl, Bool.false_eq_true,
    if_false, List.nil_append, List.isEmpty_iff, h1ne, if_false]
  rw [intScan_int_token d2 h2ne h2]

theorem dropWhile_head_false {p : Char → Bool} :
    ∀ (l : List Char) (c : Char) (cs : List Char), l.dropWhile p = c :: cs → p c = false := by
  intro l
  induction l with
  | nil => intro c cs h; simp [List.dropWhile] at h
  | cons a l' ih =>
    intro c cs h
    by_cases hp : p a
    · rw [List.dropWhile_cons_of_pos hp] at h
      exact ih c cs h
    · rw [List.dropWhile_cons_of_neg hp] at h
      cases h
      exact Bool.eq_false_iff.mpr hp

theorem tok_parts_append (d2 : List Char) :
    ∀ d1 : List Char, (∀ c ∈ d1, ¬(c = '.')) →
      tokInt (d1 ++ '.' :: d2) = d1 ∧ tokRest (d1 ++ '.' :: d2) = '.' :: d2 := by
  intro d1
  induction d1 with
  | nil =>
    intro _
    constructor
    · simp [tokInt, List.takeWhile]
    · simp [tokRest, List.dropWhile]
  | cons c d1' ih =>
    intro h
    have hc : (!decide (c = '.')) = true := by simp [h c (by simp)]
    obtain ⟨ih1, ih2⟩ := ih (fun e he => h e (by simp [he]))
    constructor
    · simp only [tokInt, List.cons_append, List.takeWhile_cons, hc, if_true]
      exact congrArg (c :: ·) ih1
    · simp only [tokRest, List.cons_append, List.dropWhile_cons, hc, if_true]
      exact ih2

theorem wf_token_shape (t : List Char) (h : wfTokenB t = true) :
    ((∀ c ∈ t, c.isDigit = true) ∧ t ≠ [] ∧ pyFloat t = (parseNatDigits t : ℚ)) ∨
    (∃ d1 d2, t = d1 ++ '.' :: d2 ∧ d1 ≠ [] ∧ d2 ≠ [] ∧
      (∀ c ∈ d1, c.isDigit = true) ∧ (∀ c ∈ d2, c.isDigit = true) ∧
      pyFloat t = decValue d1 d2) := by
  have hsplit : tokInt t ++ tokRest t = t := by
    unfold tokInt tokRest
    exact List.takeWhile_append_dropWhile _ t
  simp only [wfTokenB, Bool.and_eq_true, Bool.or_eq_true] at h
  obtain ⟨hint, hrest⟩ := h
  have hd1 : (tokInt t ≠ []) ∧ ∀ c ∈ tokInt t, c.isDigit = true := by
    simpa [isDigits, List.isEmpty_iff, List.all_eq_true] using hint
  cases hre : tokRest t with
  | nil =>
    left
    have hteq : tokInt t = t := by
      conv_rhs => rw [← hsplit, hre, List.append_nil]
    have hdig : ∀ c ∈ t, c.isDigit = true := by rw [← hteq]; exact hd1.2
    have hne : t ≠ [] := by rw [← hteq]; exact hd1.1
    have hpf : pyFloat t = (parseNatDigits t : ℚ) := by
      conv_lhs => simp [pyFloat, hre]
      rw [hteq]
    exact ⟨hdig, hne, hpf⟩
  | cons r0 rtail =>
    right
    have hr0 : r0 = '.' := by
      have := dropWhile_head_false t r0 rtail hre
      simpa using this
    rcases hrest with hemp | hdig
    · rw [hre] at hemp; simp at hemp
    · rw [hre] at hdig
      have hd2 : (rtail ≠ []) ∧ ∀ c ∈ rtail, c.isDigit = true := by
        simpa [isDigits, List.isEmpty_iff, List.all_eq_true] using hdig
      refine ⟨tokInt t, rtail, ?_, hd1.1, hd2.1, hd1.2, hd2.2, ?_⟩
      · conv_lhs => rw [← hsplit]
        rw [hre, hr0]
      · simp [pyFloat, hre, hr0]

theorem wf_token_tokChars (t : List Char) (hw : wfTokenB t = true) :
    ∀ c ∈ t, isTokChar c = true := by
  rcases wf_token_shape t hw with ⟨hd, _, _⟩ | ⟨d1, d2, heq, _, _, h1, h2, _⟩
  · intro c hc; simp [isTokChar, hd c hc]
  · intro c hc
    rw [heq] at hc
    rcases List.mem_append.mp hc with hm | hm
    · simp [isTokChar, h1 c hm]
    · rcases List.mem_cons.mp hm with rfl | hm
      · rfl
      · simp [isTokChar, h2 c hm]

theorem pyExtract_canonLine (a t : List Char)
    (ha : ∀ c ∈ a, c.isDigit = false ∧ ¬(c = ','))
    (hw : wfTokenB t = true)
    (hs : is_reasonable_blood_value (pyFloat t) = true) :
    pyExtractNumericalValue (a ++ ' ' :: t) = some (pyFloat t) := by
  have htok := wf_token_tokChars t hw
  have hstrip : stripCommas (a ++ ' ' :: t) = a ++ ' ' :: t := by
    unfold stripCommas
    rw [List.filter_eq_self]
    intro c hc
    rcases List.mem_append.mp hc with hm | hm
    · simp [(ha c hm).2]
    · rcases List.mem_cons.mp hm with rfl | hm
      · decide
      · simp [(tokChar_facts c (htok c hm)).1]
  have hnd : ∀ c ∈ a ++ [' '], c.isDigit = false := by
    intro c hc
    rcases List.mem_append.mp hc with hm | hm
    · exact (ha c hm).1
    · rcases List.mem_cons.mp hm with rfl | hm
      · rfl
      · simp at hm
  have hgroup : a ++ ' ' :: t = (a ++ [' ']) ++ t := by simp
  simp only [pyExtractNumericalValue, hstrip]
  rcases wf_token_shape t hw with ⟨hd, hne, hpf⟩ | ⟨d1, d2, heq, h1ne, h2ne, h1, h2, hpf⟩
  · rw [hgroup, decScan_nonDigits (a ++ [' ']) t hnd, decScan_int_token t hd,
      intScan_nonDigits (a ++ [' ']) t hnd, intScan_int_token t hne hd]
    simp only [List.map_nil, List.map_cons, List.nil_append, List.find?]
    rw [← hpf, hs]
  · rw [hgroup, heq, decScan_nonDigits (a ++ [' ']) _ hnd,
      decScan_dec_token d1 d2 h1ne h2ne h1 h2,
      intScan_nonDigits (a ++ [' ']) _ hnd,
      intScan_dec_token d1 d2 h1ne h2ne h1 h2]
    simp only [List.map_cons, List.map_nil, List.cons_append, List.find?]
    rw [← hpf, hs, ← heq]

theorem aliasMatch_canonLine_eq (p a t : List Char) (hpne : lowerChars p ≠ [])
    (hp : ∀ c ∈ lowerChars p, isAliasChar c = true)
    (ht : ∀ c ∈ t, isTokChar c = true) :
    aliasMatch p (a ++ ' ' :: t) = containsSub (lowerChars p) (lowerChars a) := by
  unfold aliasMatch
  have hsplit : lowerChars (a ++ ' ' :: t) = lowerChars a ++ (' ' :: lowerChars t) := by
    simp [lowerChars, pyToLower]
  rw [hsplit]
  apply containsSub_append_disjoint (lowerChars p) hpne hp
  intro c hc
  rcases List.mem_cons.mp hc with rfl | hc
  · rfl
  · simp only [lowerChars, List.mem_map] at hc
    obtain ⟨d, hd, rfl⟩ := hc
    exact tokChar_not_alias d (ht d hd)

theorem aliasMatch_self_line (p t : List Char) :
    aliasMatch p (p ++ ' ' :: t) = true := by
  unfold aliasMatch
  have hsplit : lowerChars (p ++ ' ' :: t) = lowerChars p ++ (' ' :: lowerChars t) := by
    simp [lowerChars, pyToLower]
  rw [hsplit]
  exact containsSub_self_append (lowerChars p) _

theorem scanLines_prefix_nomatch (p : List Char) :
    ∀ (pre rest : List (List Char)), (∀ l ∈ pre, aliasMatch p l = false) →
      scanLines p (pre ++ rest) = scanLines p rest := by
  intro pre
  induction pre with
  | nil => intro rest _; rfl
  | cons l pre' ih =>
    intro rest h
    have hl : aliasMatch p l = false := h l (by simp)
    simp only [List.cons_append, scanLines, hl, Bool.false_eq_true, if_false]
    exact ih rest (fun e he => h e (by simp [he]))

theorem scanLines_hit (p l : List Char) (rest : List (List Char)) (v : ℚ)
    (hm : aliasMatch p l = true) (hv : pyExtractNumericalValue l = some v) :
    scanLines p (l :: rest) = some v := by
  cases rest <;> simp [scanLines, hm, hv]

theorem extract_canonical_station (p1 : List Char) (pats : List (List Char))
    (pre post : List (List Char)) (a t : List Char) (v : ℚ)
    (hpre : ∀ l ∈ pre, aliasMatch p1 l = false)
    (hmatch : aliasMatch p1 (a ++ ' ' :: t) = true)
    (hval : pyExtractNumericalValue (a ++ ' ' :: t) = some v) :
    extractParameterValue (pre ++ (a ++ ' ' :: t) :: post) (p1 :: pats) = some v := by
  unfold extractParameterValue
  rw [List.findSome?_cons]
  rw [scanLines_prefix_nomatch p1 pre _ hpre, scanLines_hit p1 _ post v hmatch hval]

theorem extract_canonical_rows (p1 : List Char) (pats : List (List Char))
    (rows : List (List Char × List Char)) (t : List Char)
    (post : List (List Char)) (v : ℚ)
    (htokens : ∀ x ∈ rows.map (fun row => row.2), ∀ c ∈ x, isTokChar c = true)
    (hnc : ∀ x ∈ rows.map (fun row => row.1),
      containsSub (lowerChars p1) (lowerChars x) = false)
    (hpne : lowerChars p1 ≠ [])
    (hp : ∀ c ∈ lowerChars p1, isAliasChar c = true)
    (hval : pyExtractNumericalValue (p1 ++ ' ' :: t) = some v) :
    extractParameterValue
      ((rows.map (fun row => row.1 ++ ' ' :: row.2)) ++ (p1 ++ ' ' :: t) :: post)
      (p1 :: pats) = some v := by
  have hpre : ∀ l ∈ rows.map (fun row => row.1 ++ ' ' :: row.2),
      aliasMatch p1 l = false := by
    intro l hl
    rw [List.mem_map] at hl
    obtain ⟨row, hrow, rfl⟩ := hl
    rw [aliasMatch_canonLine_eq p1 row.1 row.2 hpne hp
      (htokens row.2 (List.mem_map_of_mem _ hrow))]
    exact hnc row.1 (List.mem_map_of_mem _ hrow)
  unfold extractParameterValue
  rw [List.findSome?_cons]
  rw [scanLines_prefix_nomatch p1 _ _ hpre,
    scanLines_hit p1 _ post v (aliasMatch_self_line p1 t) hval]

theorem canonLine_no_newline (a t : List Char) (ha : ∀ c ∈ a, ¬(c = '\n'))
    (ht : ∀ c ∈ t, isTokChar c = true) :
    ∀ c ∈ a ++ ' ' :: t, ¬(c = '\n') := by
  intro c hc
  rcases List.mem_append.mp hc with hm | hm
  · exact ha c hm
  · rcases List.mem_cons.mp hm with rfl | hm
    · decide
    · exact (tokChar_facts c (ht c hm)).2

theorem splitLinesChars_no_newline (l : List Char) :
    ∀ acc : List Char, (∀ c ∈ l, ¬(c = '\n')) →
      splitLinesChars l acc = [acc.reverse ++ l] := by
  induction l with
  | nil => intro acc _; simp [splitLinesChars]
  | cons c l' ih =>
    intro acc h
    have hc : ¬(c = '\n') := h c (by simp)
    simp only [splitLinesChars, if_neg hc]
    rw [ih (c :: acc) (fun e he => h e (by simp [he]))]
    simp

theorem splitLinesChars_newline_split (l : List Char) :
    ∀ (acc rest : List Char), (∀ c ∈ l, ¬(c = '\n')) →
      splitLinesChars (l ++ '\n' :: rest) acc =
        (acc.reverse ++ l) :: splitLinesChars rest [] := by
  induction l with
  | nil =>
    intro acc rest _
    simp [splitLinesChars]
  | cons c l' ih =>
    intro acc rest h
    have hc : ¬(c = '\n') := h c (by simp)
    simp only [List.cons_append, splitLinesChars, if_neg hc, List.append_eq]
    rw [ih (c :: acc) rest (fun e he => h e (by simp [he]))]
    simp

theorem splitLines_joinLines (ls : List (List Char)) (hne : ls ≠ [])
    (h : ∀ l ∈ ls, ∀ c ∈ l, ¬(c = '\n')) :
    splitLinesChars (joinLines ls) [] = ls := by
  induction ls with
  | nil => exact absurd rfl hne
  | cons l ls' ih =>
    cases ls' with
    | nil =>
      show splitLinesChars (joinLines [l]) [] = [l]
      rw [show joinLines [l] = l from rfl,
        splitLinesChars_no_newline l [] (h l (by simp))]
      simp
    | cons l2 rest =>
      show splitLinesChars (l ++ '\n' :: joinLines (l2 :: rest)) [] = l :: l2 :: rest
      rw [splitLinesChars_newline_split l [] (joinLines (l2 :: rest)) (h l (by simp))]
      rw [ih (by simp) (fun e he => h e (by simp [he]))]
      simp

theorem validate_cons_in (k : String) (v : ℚ) (rest : List (String × ℚ)) (lo hi : ℚ)
    (hlk : lookupStr reasonable_ranges k = some (lo, hi)) (hin : lo ≤ v ∧ v ≤ hi) :
    validate_parameters ((k, v) :: rest) = (k, v) :: validate_parameters rest := by
  simp only [validate_parameters, List.filterMap_cons, hlk]
  rw [if_pos hin]

/-- C6 (amended): for every choice of 26 well-formed numeric tokens whose
values lie inside the codes' plausibility ranges and pass the extractor's
`0.001 ≤ v ≤ 1000` sanity filter, the text listing one line per code in
catalogue order — the code's first alias, a space, and the token — extracts
and validates to exactly the 26 observations holding exactly those values. -/
theorem C6_round_trip_amended
    (t1 t2 t3 t4 t5 t6 t7 t8 t9 t10 t11 t12 t13 t14 t15 t16 t17 t18 t19 t20 t21 t22 t23 t24 t25 t26 : List Char)
    (w1 : wfTokenB t1 = true)
    (s1 : is_reasonable_blood_value (pyFloat t1) = true)
    (r1 : (1.0 : ℚ) ≤ pyFloat t1 ∧ pyFloat t1 ≤ 50.0)
    (w2 : wfTokenB t2 = true)
    (s2 : is_reasonable_blood_value (pyFloat t2) = true)
    (r2 : (2.0 : ℚ) ≤ pyFloat t2 ∧ pyFloat t2 ≤ 8.0)
    (w3 : wfTokenB t3 = true)
    (s3 : is_reasonable_blood_value (pyFloat t3) = true)
    (r3 : (5.0 : ℚ) ≤ pyFloat t3 ∧ pyFloat t3 ≤ 20.0)
    (w4 : wfTokenB t4 = true)
    (s4 : is_reasonable_blood_value (pyFloat t4) = true)
    (r4 : (20.0 : ℚ) ≤ pyFloat t4 ∧ pyFloat t4 ≤ 60.0)
    (w5 : wfTokenB t5 = true)
    (s5 : is_reasonable_blood_value (pyFloat t5) = true)
    (r5 : (60.0 : ℚ) ≤ pyFloat t5 ∧ pyFloat t5 ≤ 120.0)
    (w6 : wfTokenB t6 = true)
    (s6 : is_reasonable_blood_value (pyFloat t6) = true)
    (r6 : (20.0 : ℚ) ≤ pyFloat t6 ∧ pyFloat t6 ≤ 40.0)
    (w7 : wfTokenB t7 = true)
    (s7 : is_reasonable_blood_value (pyFloat t7) = true)
    (r7 : (30.0 : ℚ) ≤ pyFloat t7 ∧ pyFloat t7 ≤ 38.0)
    (w8 : wfTokenB t8 = true)
    (s8 : is_reasonable_blood_value (pyFloat t8) = true)
    (r8 : (50.0 : ℚ) ≤ pyFloat t8 ∧ pyFloat t8 ≤ 600.0)
    (w9 : wfTokenB t9 = true)
    (s9 : is_reasonable_blood_value (pyFloat t9) = true)
    (r9 : (35.0 : ℚ) ≤ pyFloat t9 ∧ pyFloat t9 ≤ 60.0)
    (w10 : wfTokenB t10 = true)
    (s10 : is_reasonable_blood_value (pyFloat t10) = true)
    (r10 : (10.0 : ℚ) ≤ pyFloat t10 ∧ pyFloat t10 ≤ 20.0)
    (w11 : wfTokenB t11 = true)
    (s11 : is_reasonable_blood_value (pyFloat t11) = true)
    (r11 : (8.0 : ℚ) ≤ pyFloat t11 ∧ pyFloat t11 ≤ 25.0)
    (w12 : wfTokenB t12 = true)
    (s12 : is_reasonable_blood_value (pyFloat t12) = true)
    (r12 : (6.0 : ℚ) ≤ pyFloat t12 ∧ pyFloat t12 ≤ 15.0)
    (w13 : wfTokenB t13 = true)
    (s13 : is_reasonable_blood_value (pyFloat t13) = true)
    (r13 : (10.0 : ℚ) ≤ pyFloat t13 ∧ pyFloat t13 ≤ 50.0)
    (w14 : wfTokenB t14 = true)
    (s14 : is_reasonable_blood_value (pyFloat t14) = true)
    (r14 : (0.05 : ℚ) ≤ pyFloat t14 ∧ pyFloat t14 ≤ 0.7)
    (w15 : wfTokenB t15 = true)
    (s15 : is_reasonable_blood_value (pyFloat t15) = true)
    (r15 : (0.5 : ℚ) ≤ pyFloat t15 ∧ pyFloat t15 ≤ 15.0)
    (w16 : wfTokenB t16 = true)
    (s16 : is_reasonable_blood_value (pyFloat t16) = true)
    (r16 : (0.5 : ℚ) ≤ pyFloat t16 ∧ pyFloat t16 ≤ 10.0)
    (w17 : wfTokenB t17 = true)
    (s17 : is_reasonable_blood_value (pyFloat t17) = true)
    (r17 : (0.1 : ℚ) ≤ pyFloat t17 ∧ pyFloat t17 ≤ 1.5)
    (w18 : wfTokenB t18 = true)
    (s18 : is_reasonable_blood_value (pyFloat t18) = true)
    (r18 : (0.02 : ℚ) ≤ pyFloat t18 ∧ pyFloat t18 ≤ 0.8)
    (w19 : wfTokenB t19 = true)
    (s19 : is_reasonable_blood_value (pyFloat t19) = true)
    (r19 : (0.0 : ℚ) ≤ pyFloat t19 ∧ pyFloat t19 ≤ 0.5)
    (w20 : wfTokenB t20 = true)
    (s20 : is_reasonable_blood_value (pyFloat t20) = true)
    (r20 : (0.0 : ℚ) ≤ pyFloat t20 ∧ pyFloat t20 ≤ 0.1)
    (w21 : wfTokenB t21 = true)
    (s21 : is_reasonable_blood_value (pyFloat t21) = true)
    (r21 : (0.0 : ℚ) ≤ pyFloat t21 ∧ pyFloat t21 ≤ 5.0)
    (w22 : wfTokenB t22 = true)
    (s22 : is_reasonable_blood_value (pyFloat t22) = true)
    (r22 : (0.1 : ℚ) ≤ pyFloat t22 ∧ pyFloat t22 ≤ 5.0)
    (w23 : wfTokenB t23 = true)
    (s23 : is_reasonable_blood_value (pyFloat t23) = true)
    (r23 : (0.3 : ℚ) ≤ pyFloat t23 ∧ pyFloat t23 ≤ 35.0)
    (w24 : wfTokenB t24 = true)
    (s24 : is_reasonable_blood_value (pyFloat t24) = true)
    (r24 : (80.0 : ℚ) ≤ pyFloat t24 ∧ pyFloat t24 ≤ 95.0)
    (w25 : wfTokenB t25 = true)
    (s25 : is_reasonable_blood_value (pyFloat t25) = true)
    (r25 : (8.0 : ℚ) ≤ pyFloat t25 ∧ pyFloat t25 ≤ 25.0)
    (w26 : wfTokenB t26 = true)
    (s26 : is_reasonable_blood_value (pyFloat t26) = true)
    (r26 : (0.0 : ℚ) ≤ pyFloat t26 ∧ pyFloat t26 ≤ 3.0)
    :
    validate_parameters (extract_parameters (String.mk (joinLines
      [strChars "WBC" ++ ' ' :: t1,
       strChars "RBC" ++ ' ' :: t2,
       strChars "HGB" ++ ' ' :: t3,
       strChars "HCT" ++ ' ' :: t4,
       strChars "MCV" ++ ' ' :: t5,
       strChars "MCH" ++ ' ' :: t6,
       strChars "MCHC" ++ ' ' :: t7,
       strChars "PLT" ++ ' ' :: t8,
       strChars "RDW-SD" ++ ' ' :: t9,
       strChars "RDW-CV" ++ ' ' :: t10,
       strChars "PDW" ++ ' ' :: t11,
       strChars "MPV" ++ ' ' :: t12,
       strChars "P-LCR" ++ ' ' :: t13,
       strChars "PCT" ++ ' ' :: t14,
       strChars "NEUT" ++ ' ' :: t15,
       strChars "LYMPH" ++ ' ' :: t16,
       strChars "MONO" ++ ' ' :: t17,
       strChars "EO" ++ ' ' :: t18,
       strChars "BASO" ++ ' ' :: t19,
       strChars "IG" ++ ' ' :: t20,
       strChars "NRBC" ++ ' ' :: t21,
       strChars "Reticulocyte" ++ ' ' :: t22,
       strChars "IRF" ++ ' ' :: t23,
       strChars "LFR" ++ ' ' :: t24,
       strChars "MFR" ++ ' ' :: t25,
       strChars "HFR" ++ ' ' :: t26]))) =
      [("WBC", pyFloat t1),
       ("RBC", pyFloat t2),
       ("HGB", pyFloat t3),
       ("HCT", pyFloat t4),
       ("MCV", pyFloat t5),
       ("MCH", pyFloat t6),
       ("MCHC", pyFloat t7),
       ("PLT", pyFloat t8),
       ("RDW_SD", pyFloat t9),
       ("RDW_CV", pyFloat t10),
       ("PDW", pyFloat t11),
       ("MPV", pyFloat t12),
       ("P_LCR", pyFloat t13),
       ("PCT", pyFloat t14),
       ("NEUT", pyFloat t15),
       ("LYMPH", pyFloat t16),
       ("MONO", pyFloat t17),
       ("EO", pyFloat t18),
       ("BASO", pyFloat t19),
       ("IG", pyFloat t20),
       ("NRBCS", pyFloat t21),
       ("RETICULOCYTES", pyFloat t22),
       ("IRF", pyFloat t23),
       ("LFR", pyFloat t24),
       ("MFR", pyFloat t25),
       ("HFR", pyFloat t26)] := by
  have tc1 := wf_token_tokChars t1 w1
  have tc2 := wf_token_tokChars t2 w2
  have tc3 := wf_token_tokChars t3 w3
  have tc4 := wf_token_tokChars t4 w4
  have tc5 := wf_token_tokChars t5 w5
  have tc6 := wf_token_tokChars t6 w6
  have tc7 := wf_token_tokChars t7 w7
  have tc8 := wf_token_tokChars t8 w8
  have tc9 := wf_token_tokChars t9 w9
  have tc10 := wf_token_tokChars t10 w10
  have tc11 := wf_token_tokChars t11 w11
  have tc12 := wf_token_tokChars t12 w12
  have tc13 := wf_token_tokChars t13 w13
  have tc14 := wf_token_tokChars t14 w14
  have tc15 := wf_token_tokChars t15 w15
  have tc16 := wf_token_tokChars t16 w16
  have tc17 := wf_token_tokChars t17 w17
  have tc18 := wf_token_tokChars t18 w18
  have tc19 := wf_token_tokChars t19 w19
  have tc20 := wf_token_tokChars t20 w20
  have tc21 := wf_token_tokChars t21 w21
  have tc22 := wf_token_tokChars t22 w22
  have tc23 := wf_token_tokChars t23 w23
  have tc24 := wf_token_tokChars t24 w24
  have tc25 := wf_token_tokChars t25 w25
  have tc26 := wf_token_tokChars t26 w26
  have hnl : ∀ l ∈ [strChars "WBC" ++ ' ' :: t1,
       strChars "RBC" ++ ' ' :: t2,
       strChars "HGB" ++ ' ' :: t3,
       strChars "HCT" ++ ' ' :: t4,
       strChars "MCV" ++ ' ' :: t5,
       strChars "MCH" ++ ' ' :: t6,
       strChars "MCHC" ++ ' ' :: t7,
       strChars "PLT" ++ ' ' :: t8,
       strChars "RDW-SD" ++ ' ' :: t9,
       strChars "RDW-CV" ++ ' ' :: t10,
       strChars "PDW" ++ ' ' :: t11,
       strChars "MPV" ++ ' ' :: t12,
       strChars "P-LCR" ++ ' ' :: t13,
       strChars "PCT" ++ ' ' :: t14,
       strChars "NEUT" ++ ' ' :: t15,
       strChars "LYMPH" ++ ' ' :: t16,
       strChars "MONO" ++ ' ' :: t17,
       strChars "EO" ++ ' ' :: t18,
       strChars "BASO" ++ ' ' :: t19,
       strChars "IG" ++ ' ' :: t20,
       strChars "NRBC" ++ ' ' :: t21,
       strChars "Reticulocyte" ++ ' ' :: t22,
       strChars "IRF" ++ ' ' :: t23,
       strChars "LFR" ++ ' ' :: t24,
       strChars "MFR" ++ ' ' :: t25,
       strChars "HFR" ++ ' ' :: t26],
      ∀ c ∈ l, ¬(c = '\n') := by
    intro l hl
    simp only [List.mem_cons, List.not_mem_nil, or_false] at hl
    rcases hl with rfl | rfl | rfl | rfl | rfl | rfl | rfl | rfl | rfl | rfl | rfl | rfl | rfl | rfl | rfl | rfl | rfl | rfl | rfl | rfl | rfl | rfl | rfl | rfl | rfl | rfl
    · exact canonLine_no_newline (strChars "WBC") t1 (by decide) tc1
    · exact canonLine_no_newline (strChars "RBC") t2 (by decide) tc2
    · exact canonLine_no_newline (strChars "HGB") t3 (by decide) tc3
    · exact canonLine_no_newline (strChars "HCT") t4 (by decide) tc4
    · exact canonLine_no_newline (strChars "MCV") t5 (by decide) tc5
    · exact canonLine_no_newline (strChars "MCH") t6 (by decide) tc6
    · exact canonLine_no_newline (strChars "MCHC") t7 (by decide) tc7
    · exact canonLine_no_newline (strChars "PLT") t8 (by decide) tc8
    · exact canonLine_no_newline (strChars "RDW-SD") t9 (by decide) tc9
    · exact canonLine_no_newline (strChars "RDW-CV") t10 (by decide) tc10
    · exact canonLine_no_newline (strChars "PDW") t11 (by decide) tc11
    · exact canonLine_no_newline (strChars "MPV") t12 (by decide) tc12
    · exact canonLine_no_newline (strChars "P-LCR") t13 (by decide) tc13
    · exact canonLine_no_newline (strChars "PCT") t14 (by decide) tc14
    · exact canonLine_no_newline (strChars "NEUT") t15 (by decide) tc15
    · exact canonLine_no_newline (strChars "LYMPH") t16 (by decide) tc16
    · exact canonLine_no_newline (strChars "MONO") t17 (by decide) tc17
    · exact canonLine_no_newline (strChars "EO") t18 (by decide) tc18
    · exact canonLine_no_newline (strChars "BASO") t19 (by decide) tc19
    · exact canonLine_no_newline (strChars "IG") t20 (by decide) tc20
    · exact canonLine_no_newline (strChars "NRBC") t21 (by decide) tc21
    · exact canonLine_no_newline (strChars "Reticulocyte") t22 (by decide) tc22
    · exact canonLine_no_newline (strChars "IRF") t23 (by decide) tc23
    · exact canonLine_no_newline (strChars "LFR") t24 (by decide) tc24
    · exact canonLine_no_newline (strChars "MFR") t25 (by decide) tc25
    · exact canonLine_no_newline (strChars "HFR") t26 (by decide) tc26
  have hsplit : splitLines (String.mk (joinLines
      [strChars "WBC" ++ ' ' :: t1,
       strChars "RBC" ++ ' ' :: t2,
       strChars "HGB" ++ ' ' :: t3,
       strChars "HCT" ++ ' ' :: t4,
       strChars "MCV" ++ ' ' :: t5,
       strChars "MCH" ++ ' ' :: t6,
       strChars "MCHC" ++ ' ' :: t7,
       strChars "PLT" ++ ' ' :: t8,
       strChars "RDW-SD" ++ ' ' :: t9,
       strChars "RDW-CV" ++ ' ' :: t10,
       strChars "PDW" ++ ' ' :: t11,
       strChars "MPV" ++ ' ' :: t12,
       strChars "P-LCR" ++ ' ' :: t13,
       strChars "PCT" ++ ' ' :: t14,
       strChars "NEUT" ++ ' ' :: t15,
       strChars "LYMPH" ++ ' ' :: t16,
       strChars "MONO" ++ ' ' :: t17,
       strChars "EO" ++ ' ' :: t18,
       strChars "BASO" ++ ' ' :: t19,
       strChars "IG" ++ ' ' :: t20,
       strChars "NRBC" ++ ' ' :: t21,
       strChars "Reticulocyte" ++ ' ' :: t22,
       strChars "IRF" ++ ' ' :: t23,
       strChars "LFR" ++ ' ' :: t24,
       strChars "MFR" ++ ' ' :: t25,
       strChars "HFR" ++ ' ' :: t26])) =
      [strChars "WBC" ++ ' ' :: t1,
       strChars "RBC" ++ ' ' :: t2,
       strChars "HGB" ++ ' ' :: t3,
       strChars "HCT" ++ ' ' :: t4,
       strChars "MCV" ++ ' ' :: t5,
       strChars "MCH" ++ ' ' :: t6,
       strChars "MCHC" ++ ' ' :: t7,
       strChars "PLT" ++ ' ' :: t8,
       strChars "RDW-SD" ++ ' ' :: t9,
       strChars "RDW-CV" ++ ' ' :: t10,
       strChars "PDW" ++ ' ' :: t11,
       strChars "MPV" ++ ' ' :: t12,
       strChars "P-LCR" ++ ' ' :: t13,
       strChars "PCT" ++ ' ' :: t14,
       strChars "NEUT" ++ ' ' :: t15,
       strChars "LYMPH" ++ ' ' :: t16,
       strChars "MONO" ++ ' ' :: t17,
       strChars "EO" ++ ' ' :: t18,
       strChars "BASO" ++ ' ' :: t19,
       strChars "IG" ++ ' ' :: t20,
       strChars "NRBC" ++ ' ' :: t21,
       strChars "Reticulocyte" ++ ' ' :: t22,
       strChars "IRF" ++ ' ' :: t23,
       strChars "LFR" ++ ' ' :: t24,
       strChars "MFR" ++ ' ' :: t25,
       strChars "HFR" ++ ' ' :: t26] := by
    exact splitLines_joinLines _ (by simp) hnl
  have e1 : extractParameterValue
      [strChars "WBC" ++ ' ' :: t1,
       strChars "RBC" ++ ' ' :: t2,
       strChars "HGB" ++ ' ' :: t3,
       strChars "HCT" ++ ' ' :: t4,
       strChars "MCV" ++ ' ' :: t5,
       strChars "MCH" ++ ' ' :: t6,
       strChars "MCHC" ++ ' ' :: t7,
       strChars "PLT" ++ ' ' :: t8,
       strChars "RDW-SD" ++ ' ' :: t9,
       strChars "RDW-CV" ++ ' ' :: t10,
       strChars "PDW" ++ ' ' :: t11,
       strChars "MPV" ++ ' ' :: t12,
       strChars "P-LCR" ++ ' ' :: t13,
       strChars "PCT" ++ ' ' :: t14,
       strChars "NEUT" ++ ' ' :: t15,
       strChars "LYMPH" ++ ' ' :: t16,
       strChars "MONO" ++ ' ' :: t17,
       strChars "EO" ++ ' ' :: t18,
       strChars "BASO" ++ ' ' :: t19,
       strChars "IG" ++ ' ' :: t20,
       strChars "NRBC" ++ ' ' :: t21,
       strChars "Reticulocyte" ++ ' ' :: t22,
       strChars "IRF" ++ ' ' :: t23,
       strChars "LFR" ++ ' ' :: t24,
       strChars "MFR" ++ ' ' :: t25,
       strChars "HFR" ++ ' ' :: t26]
      [strChars "WBC", strChars "White Blood Cell", strChars "Leukocyte", strChars "White Blood Cell Count"] = some (pyFloat t1) := by
    exact extract_canonical_rows (strChars "WBC")
      [strChars "White Blood Cell", strChars "Leukocyte", strChars "White Blood Cell Count"]
      []
      t1
      [strChars "RBC" ++ ' ' :: t2, strChars "HGB" ++ ' ' :: t3, strChars "HCT" ++ ' ' :: t4, strChars "MCV" ++ ' ' :: t5, strChars "MCH" ++ ' ' :: t6, strChars "MCHC" ++ ' ' :: t7, strChars "PLT" ++ ' ' :: t8, strChars "RDW-SD" ++ ' ' :: t9, strChars "RDW-CV" ++ ' ' :: t10, strChars "PDW" ++ ' ' :: t11, strChars "MPV" ++ ' ' :: t12, strChars "P-LCR" ++ ' ' :: t13, strChars "PCT" ++ ' ' :: t14, strChars "NEUT" ++ ' ' :: t15, strChars "LYMPH" ++ ' ' :: t16, strChars "MONO" ++ ' ' :: t17, strChars "EO" ++ ' ' :: t18, strChars "BASO" ++ ' ' :: t19, strChars "IG" ++ ' ' :: t20, strChars "NRBC" ++ ' ' :: t21, strChars "Reticulocyte" ++ ' ' :: t22, strChars "IRF" ++ ' ' :: t23, strChars "LFR" ++ ' ' :: t24, strChars "MFR" ++ ' ' :: t25, strChars "HFR" ++ ' ' :: t26]
      (pyFloat t1)
      (by intro x hx; simp at hx)
      (by intro x hx; simp at hx)
      (by decide) (by decide)
      (pyExtract_canonLine (strChars "WBC") t1 (by decide) w1 s1)
  have e2 : extractParameterValue
      [strChars "WBC" ++ ' ' :: t1,
       strChars "RBC" ++ ' ' :: t2,
       strChars "HGB" ++ ' ' :: t3,
       strChars "HCT" ++ ' ' :: t4,
       strChars "MCV" ++ ' ' :: t5,
       strChars "MCH" ++ ' ' :: t6,
       strChars "MCHC" ++ ' ' :: t7,
       strChars "PLT" ++ ' ' :: t8,
       strChars "RDW-SD" ++ ' ' :: t9,
       strChars "RDW-CV" ++ ' ' :: t10,
       strChars "PDW" ++ ' ' :: t11,
       strChars "MPV" ++ ' ' :: t12,
       strChars "P-LCR" ++ ' ' :: t13,
       strChars "PCT" ++ ' ' :: t14,
       strChars "NEUT" ++ ' ' :: t15,
       strChars "LYMPH" ++ ' ' :: t16,
       strChars "MONO" ++ ' ' :: t17,
       strChars "EO" ++ ' ' :: t18,
       strChars "BASO" ++ ' ' :: t19,
       strChars "IG" ++ ' ' :: t20,
       strChars "NRBC" ++ ' ' :: t21,
       strChars "Reticulocyte" ++ ' ' :: t22,
       strChars "IRF" ++ ' ' :: t23,
       strChars "LFR" ++ ' ' :: t24,
       strChars "MFR" ++ ' ' :: t25,
       strChars "HFR" ++ ' ' :: t26]
      [strChars "RBC", strChars "Red Blood Cell", strChars "Erythrocyte", strChars "Red Blood Cell Count"] = some (pyFloat t2) := by
    exact extract_canonical_rows (strChars "RBC")
      [strChars "Red Blood Cell", strChars "Erythrocyte", strChars "Red Blood Cell Count"]
      [(strChars "WBC", t1)]
      t2
      [strChars "HGB" ++ ' ' :: t3, strChars "HCT" ++ ' ' :: t4, strChars "MCV" ++ ' ' :: t5, strChars "MCH" ++ ' ' :: t6, strChars "MCHC" ++ ' ' :: t7, strChars "PLT" ++ ' ' :: t8, strChars "RDW-SD" ++ ' ' :: t9, strChars "RDW-CV" ++ ' ' :: t10, strChars "PDW" ++ ' ' :: t11, strChars "MPV" ++ ' ' :: t12, strChars "P-LCR" ++ ' ' :: t13, strChars "PCT" ++ ' ' :: t14, strChars "NEUT" ++ ' ' :: t15, strChars "LYMPH" ++ ' ' :: t16, strChars "MONO" ++ ' ' :: t17, strChars "EO" ++ ' ' :: t18, strChars "BASO" ++ ' ' :: t19, strChars "IG" ++ ' ' :: t20, strChars "NRBC" ++ ' ' :: t21, strChars "Reticulocyte" ++ ' ' :: t22, strChars "IRF" ++ ' ' :: t23, strChars "LFR" ++ ' ' :: t24, strChars "MFR" ++ ' ' :: t25, strChars "HFR" ++ ' ' :: t26]
      (pyFloat t2)
      (by
        intro x hx
        simp only [List.map_cons, List.map_nil, List.mem_cons, List.not_mem_nil, or_false] at hx
        rcases hx with rfl
        · exact tc1
        )
      (by
        intro x hx
        simp only [List.map_cons, List.map_nil, List.mem_cons, List.not_mem_nil, or_false] at hx
        rcases hx with rfl
        decide)
      (by decide) (by decide)
      (pyExtract_canonLine (strChars "RBC") t2 (by decide) w2 s2)
  have e3 : extractParameterValue
      [strChars "WBC" ++ ' ' :: t1,
       strChars "RBC" ++ ' ' :: t2,
       strChars "HGB" ++ ' ' :: t3,
       strChars "HCT" ++ ' ' :: t4,
       strChars "MCV" ++ ' ' :: t5,
       strChars "MCH" ++ ' ' :: t6,
       strChars "MCHC" ++ ' ' :: t7,
       strChars "PLT" ++ ' ' :: t8,
       strChars "RDW-SD" ++ ' ' :: t9,
       strChars "RDW-CV" ++ ' ' :: t10,
       strChars "PDW" ++ ' ' :: t11,
       strChars "MPV" ++ ' ' :: t12,
       strChars "P-LCR" ++ ' ' :: t13,
       strChars "PCT" ++ ' ' :: t14,
       strChars "NEUT" ++ ' ' :: t15,
       strChars "LYMPH" ++ ' ' :: t16,
       strChars "MONO" ++ ' ' :: t17,
       strChars "EO" ++ ' ' :: t18,
       strChars "BASO" ++ ' ' :: t19,
       strChars "IG" ++ ' ' :: t20,
       strChars "NRBC" ++ ' ' :: t21,
       strChars "Reticulocyte" ++ ' ' :: t22,
       strChars "IRF" ++ ' ' :: t23,
       strChars "LFR" ++ ' ' :: t24,
       strChars "MFR" ++ ' ' :: t25,
       strChars "HFR" ++ ' ' :: t26]
      [strChars "HGB", strChars "Hb", strChars "Hemoglobin"] = some (pyFloat t3) := by
    exact extract_canonical_rows (strChars "HGB")
      [strChars "Hb", strChars "Hemoglobin"]
      [(strChars "WBC", t1), (strChars "RBC", t2)]
      t3
      [strChars "HCT" ++ ' ' :: t4, strChars "MCV" ++ ' ' :: t5, strChars "MCH" ++ ' ' :: t6, strChars "MCHC" ++ ' ' :: t7, strChars "PLT" ++ ' ' :: t8, strChars "RDW-SD" ++ ' ' :: t9, strChars "RDW-CV" ++ ' ' :: t10, strChars "PDW" ++ ' ' :: t11, strChars "MPV" ++ ' ' :: t12, strChars "P-LCR" ++ ' ' :: t13, strChars "PCT" ++ ' ' :: t14, strChars "NEUT" ++ ' ' :: t15, strChars "LYMPH" ++ ' ' :: t16, strChars "MONO" ++ ' ' :: t17, strChars "EO" ++ ' ' :: t18, strChars "BASO" ++ ' ' :: t19, strChars "IG" ++ ' ' :: t20, strChars "NRBC" ++ ' ' :: t21, strChars "Reticulocyte" ++ ' ' :: t22, strChars "IRF" ++ ' ' :: t23, strChars "LFR" ++ ' ' :: t24, strChars "MFR" ++ ' ' :: t25, strChars "HFR" ++ ' ' :: t26]
      (pyFloat t3)
      (by
        intro x hx
        simp only [List.map_cons, List.map_nil, List.mem_cons, List.not_mem_nil, or_false] at hx
        rcases hx with rfl | rfl
        · exact tc1
        · exact tc2
        )
      (by
        intro x hx
        simp only [List.map_cons, List.map_nil, List.mem_cons, List.not_mem_nil, or_false] at hx
        rcases hx with rfl | rfl <;> decide)
      (by decide) (by decide)
      (pyExtract_canonLine (strChars "HGB") t3 (by decide) w3 s3)
  have e4 : extractParameterValue
      [strChars "WBC" ++ ' ' :: t1,
       strChars "RBC" ++ ' ' :: t2,
       strChars "HGB" ++ ' ' :: t3,
       strChars "HCT" ++ ' ' :: t4,
       strChars "MCV" ++ ' ' :: t5,
       strChars "MCH" ++ ' ' :: t6,
       strChars "MCHC" ++ ' ' :: t7,
       strChars "PLT" ++ ' ' :: t8,
       strChars "RDW-SD" ++ ' ' :: t9,
       strChars "RDW-CV" ++ ' ' :: t10,
       strChars "PDW" ++ ' ' :: t11,
       strChars "MPV" ++ ' ' :: t12,
       strChars "P-LCR" ++ ' ' :: t13,
       strChars "PCT" ++ ' ' :: t14,
       strChars "NEUT" ++ ' ' :: t15,
       strChars "LYMPH" ++ ' ' :: t16,
       strChars "MONO" ++ ' ' :: t17,
       strChars "EO" ++ ' ' :: t18,
       strChars "BASO" ++ ' ' :: t19,
       strChars "IG" ++ ' ' :: t20,
       strChars "NRBC" ++ ' ' :: t21,
       strChars "Reticulocyte" ++ ' ' :: t22,
       strChars "IRF" ++ ' ' :: t23,
       strChars "LFR" ++ ' ' :: t24,
       strChars "MFR" ++ ' ' :: t25,
       strChars "HFR" ++ ' ' :: t26]
      [strChars "HCT", strChars "Hematocrit"] = some (pyFloat t4) := by
    exact extract_canonical_rows (strChars "HCT")
      [strChars "Hematocrit"]
      [(strChars "WBC", t1), (strChars "RBC", t2), (strChars "HGB", t3)]
      t4
      [strChars "MCV" ++ ' ' :: t5, strChars "MCH" ++ ' ' :: t6, strChars "MCHC" ++ ' ' :: t7, strChars "PLT" ++ ' ' :: t8, strChars "RDW-SD" ++ ' ' :: t9, strChars "RDW-CV" ++ ' ' :: t10, strChars "PDW" ++ ' ' :: t11, strChars "MPV" ++ ' ' :: t12, strChars "P-LCR" ++ ' ' :: t13, strChars "PCT" ++ ' ' :: t14, strChars "NEUT" ++ ' ' :: t15, strChars "LYMPH" ++ ' ' :: t16, strChars "MONO" ++ ' ' :: t17, strChars "EO" ++ ' ' :: t18, strChars "BASO" ++ ' ' :: t19, strChars "IG" ++ ' ' :: t20, strChars "NRBC" ++ ' ' :: t21, strChars "Reticulocyte" ++ ' ' :: t22, strChars "IRF" ++ ' ' :: t23, strChars "LFR" ++ ' ' :: t24, strChars "MFR" ++ ' ' :: t25, strChars "HFR" ++ ' ' :: t26]
      (pyFloat t4)
      (by
        intro x hx
        simp only [List.map_cons, List.map_nil, List.mem_cons, List.not_mem_nil, or_false] at hx
        rcases hx with rfl | rfl | rfl
        · exact tc1
        · exact tc2
        · exact tc3
        )
      (by
        intro x hx
        simp only [List.map_cons, List.map_nil, List.mem_cons, List.not_mem_nil, or_false] at hx
        rcases hx with rfl | rfl | rfl <;> decide)
      (by decide) (by decide)
      (pyExtract_canonLine (strChars "HCT") t4 (by decide) w4 s4)
  have e5 : extractParameterValue
      [strChars "WBC" ++ ' ' :: t1,
       strChars "RBC" ++ ' ' :: t2,
       strChars "HGB" ++ ' ' :: t3,
       strChars "HCT" ++ ' ' :: t4,
       strChars "MCV" ++ ' ' :: t5,
       strChars "MCH" ++ ' ' :: t6,
       strChars "MCHC" ++ ' ' :: t7,
       strChars "PLT" ++ ' ' :: t8,
       strChars "RDW-SD" ++ ' ' :: t9,
       strChars "RDW-CV" ++ ' ' :: t10,
       strChars "PDW" ++ ' ' :: t11,
       strChars "MPV" ++ ' ' :: t12,
       strChars "P-LCR" ++ ' ' :: t13,
       strChars "PCT" ++ ' ' :: t14,
       strChars "NEUT" ++ ' ' :: t15,
       strChars "LYMPH" ++ ' ' :: t16,
       strChars "MONO" ++ ' ' :: t17,
       strChars "EO" ++ ' ' :: t18,
       strChars "BASO" ++ ' ' :: t19,
       strChars "IG" ++ ' ' :: t20,
       strChars "NRBC" ++ ' ' :: t21,
       strChars "Reticulocyte" ++ ' ' :: t22,
       strChars "IRF" ++ ' ' :: t23,
       strChars "LFR" ++ ' ' :: t24,
       strChars "MFR" ++ ' ' :: t25,
       strChars "HFR" ++ ' ' :: t26]
      [strChars "MCV", strChars "Mean Corpuscular Volume"] = some (pyFloat t5) := by
    exact extract_canonical_rows (strChars "MCV")
      [strChars "Mean Corpuscular Volume"]
      [(strChars "WBC", t1), (strChars "RBC", t2), (strChars "HGB", t3), (strChars "HCT", t4)]
      t5
      [strChars "MCH" ++ ' ' :: t6, strChars "MCHC" ++ ' ' :: t7, strChars "PLT" ++ ' ' :: t8, strChars "RDW-SD" ++ ' ' :: t9, strChars "RDW-CV" ++ ' ' :: t10, strChars "PDW" ++ ' ' :: t11, strChars "MPV" ++ ' ' :: t12, strChars "P-LCR" ++ ' ' :: t13, strChars "PCT" ++ ' ' :: t14, strChars "NEUT" ++ ' ' :: t15, strChars "LYMPH" ++ ' ' :: t16, strChars "MONO" ++ ' ' :: t17, strChars "EO" ++ ' ' :: t18, strChars "BASO" ++ ' ' :: t19, strChars "IG" ++ ' ' :: t20, strChars "NRBC" ++ ' ' :: t21, strChars "Reticulocyte" ++ ' ' :: t22, strChars "IRF" ++ ' ' :: t23, strChars "LFR" ++ ' ' :: t24, strChars "MFR" ++ ' ' :: t25, strChars "HFR" ++ ' ' :: t26]
      (pyFloat t5)
      (by
        intro x hx
        simp only [List.map_cons, List.map_nil, List.mem_cons, List.not_mem_nil, or_false] at hx
        rcases hx with rfl | rfl | rfl | rfl
        · exact tc1
        · exact tc2
        · exact tc3
        · exact tc4
        )
      (by
        intro x hx
        simp only [List.map_cons, List.map_nil, List.mem_cons, List.not_mem_nil, or_false] at hx
        rcases hx with rfl | rfl | rfl | rfl <;> decide)
      (by decide) (by decide)
      (pyExtract_canonLine (strChars "MCV") t5 (by decide) w5 s5)
  have e6 : extractParameterValue
      [strChars "WBC" ++ ' ' :: t1,
       strChars "RBC" ++ ' ' :: t2,
       strChars "HGB" ++ ' ' :: t3,
       strChars "HCT" ++ ' ' :: t4,
       strChars "MCV" ++ ' ' :: t5,
       strChars "MCH" ++ ' ' :: t6,
       strChars "MCHC" ++ ' ' :: t7,
       strChars "PLT" ++ ' ' :: t8,
       strChars "RDW-SD" ++ ' ' :: t9,
       strChars "RDW-CV" ++ ' ' :: t10,
       strChars "PDW" ++ ' ' :: t11,
       strChars "MPV" ++ ' ' :: t12,
       strChars "P-LCR" ++ ' ' :: t13,
       strChars "PCT" ++ ' ' :: t14,
       strChars "NEUT" ++ ' ' :: t15,
       strChars "LYMPH" ++ ' ' :: t16,
       strChars "MONO" ++ ' ' :: t17,
       strChars "EO" ++ ' ' :: t18,
       strChars "BASO" ++ ' ' :: t19,
       strChars "IG" ++ ' ' :: t20,
       strChars "NRBC" ++ ' ' :: t21,
       strChars "Reticulocyte" ++ ' ' :: t22,
       strChars "IRF" ++ ' ' :: t23,
       strChars "LFR" ++ ' ' :: t24,
       strChars "MFR" ++ ' ' :: t25,
       strChars "HFR" ++ ' ' :: t26]
      [strChars "MCH", strChars "Mean Corpuscular Hemoglobin"] = some (pyFloat t6) := by
    exact extract_canonical_rows (strChars "MCH")
      [strChars "Mean Corpuscular Hemoglobin"]
      [(strChars "WBC", t1), (strChars "RBC", t2), (strChars "HGB", t3), (strChars "HCT", t4), (strChars "MCV", t5)]
      t6
      [strChars "MCHC" ++ ' ' :: t7, strChars "PLT" ++ ' ' :: t8, strChars "RDW-SD" ++ ' ' :: t9, strChars "RDW-CV" ++ ' ' :: t10, strChars "PDW" ++ ' ' :: t11, strChars "MPV" ++ ' ' :: t12, strChars "P-LCR" ++ ' ' :: t13, strChars "PCT" ++ ' ' :: t14, strChars "NEUT" ++ ' ' :: t15, strChars "LYMPH" ++ ' ' :: t16, strChars "MONO" ++ ' ' :: t17, strChars "EO" ++ ' ' :: t18, strChars "BASO" ++ ' ' :: t19, strChars "IG" ++ ' ' :: t20, strChars "NRBC" ++ ' ' :: t21, strChars "Reticulocyte" ++ ' ' :: t22, strChars "IRF" ++ ' ' :: t23, strChars "LFR" ++ ' ' :: t24, strChars "MFR" ++ ' ' :: t25, strChars "HFR" ++ ' ' :: t26]
      (pyFloat t6)
      (by
        intro x hx
        simp only [List.map_cons, List.map_nil, List.mem_cons, List.not_mem_nil, or_false] at hx
        rcases hx with rfl | rfl | rfl | rfl | rfl
        · exact tc1
        · exact tc2
        · exact tc3
        · exact tc4
        · exact tc5
        )
      (by
        intro x hx
        simp only [List.map_cons, List.map_nil, List.mem_cons, List.not_mem_nil, or_false] at hx
        rcases hx with rfl | rfl | rfl | rfl | rfl <;> decide)
      (by decide) (by decide)
      (pyExtract_canonLine (strChars "MCH") t6 (by decide) w6 s6)
  have e7 : extractParameterValue
      [strChars "WBC" ++ ' ' :: t1,
       strChars "RBC" ++ ' ' :: t2,
       strChars "HGB" ++ ' ' :: t3,
       strChars "HCT" ++ ' ' :: t4,
       strChars "MCV" ++ ' ' :: t5,
       strChars "MCH" ++ ' ' :: t6,
       strChars "MCHC" ++ ' ' :: t7,
       strChars "PLT" ++ ' ' :: t8,
       strChars "RDW-SD" ++ ' ' :: t9,
       strChars "RDW-CV" ++ ' ' :: t10,
       strChars "PDW" ++ ' ' :: t11,
       strChars "MPV" ++ ' ' :: t12,
       strChars "P-LCR" ++ ' ' :: t13,
       strChars "PCT" ++ ' ' :: t14,
       strChars "NEUT" ++ ' ' :: t15,
       strChars "LYMPH" ++ ' ' :: t16,
       strChars "MONO" ++ ' ' :: t17,
       strChars "EO" ++ ' ' :: t18,
       strChars "BASO" ++ ' ' :: t19,
       strChars "IG" ++ ' ' :: t20,
       strChars "NRBC" ++ ' ' :: t21,
       strChars "Reticulocyte" ++ ' ' :: t22,
       strChars "IRF" ++ ' ' :: t23,
       strChars "LFR" ++ ' ' :: t24,
       strChars "MFR" ++ ' ' :: t25,
       strChars "HFR" ++ ' ' :: t26]
      [strChars "MCHC", strChars "Mean Corpuscular Hemoglobin Concentration"] = some (pyFloat t7) := by
    exact extract_canonical_rows (strChars "MCHC")
      [strChars "Mean Corpuscular Hemoglobin Concentration"]
      [(strChars "WBC", t1), (strChars "RBC", t2), (strChars "HGB", t3), (strChars "HCT", t4), (strChars "MCV", t5), (strChars "MCH", t6)]
      t7
      [strChars "PLT" ++ ' ' :: t8, strChars "RDW-SD" ++ ' ' :: t9, strChars "RDW-CV" ++ ' ' :: t10, strChars "PDW" ++ ' ' :: t11, strChars "MPV" ++ ' ' :: t12, strChars "P-LCR" ++ ' ' :: t13, strChars "PCT" ++ ' ' :: t14, strChars "NEUT" ++ ' ' :: t15, strChars "LYMPH" ++ ' ' :: t16, strChars "MONO" ++ ' ' :: t17, strChars "EO" ++ ' ' :: t18, strChars "BASO" ++ ' ' :: t19, strChars "IG" ++ ' ' :: t20, strChars "NRBC" ++ ' ' :: t21, strChars "Reticulocyte" ++ ' ' :: t22, strChars "IRF" ++ ' ' :: t23, strChars "LFR" ++ ' ' :: t24, strChars "MFR" ++ ' ' :: t25, strChars "HFR" ++ ' ' :: t26]
      (pyFloat t7)
      (by
        intro x hx
        simp only [List.map_cons, List.map_nil, List.mem_cons, List.not_mem_nil, or_false] at hx
        rcases hx with rfl | rfl | rfl | rfl | rfl | rfl
        · exact tc1
        · exact tc2
        · exact tc3
        · exact tc4
        · exact tc5
        · exact tc6
        )
      (by
        intro x hx
        simp only [List.map_cons, List.map_nil, List.mem_cons, List.not_mem_nil, or_false] at hx
        rcases hx with rfl | rfl | rfl | rfl | rfl | rfl <;> decide)
      (by decide) (by decide)
      (pyExtract_canonLine (strChars "MCHC") t7 (by decide) w7 s7)
  have e8 : extractParameterValue
      [strChars "WBC" ++ ' ' :: t1,
       strChars "RBC" ++ ' ' :: t2,
       strChars "HGB" ++ ' ' :: t3,
       strChars "HCT" ++ ' ' :: t4,
       strChars "MCV" ++ ' ' :: t5,
       strChars "MCH" ++ ' ' :: t6,
       strChars "MCHC" ++ ' ' :: t7,
       strChars "PLT" ++ ' ' :: t8,
       strChars "RDW-SD" ++ ' ' :: t9,
       strChars "RDW-CV" ++ ' ' :: t10,
       strChars "PDW" ++ ' ' :: t11,
       strChars "MPV" ++ ' ' :: t12,
       strChars "P-LCR" ++ ' ' :: t13,
       strChars "PCT" ++ ' ' :: t14,
       strChars "NEUT" ++ ' ' :: t15,
       strChars "LYMPH" ++ ' ' :: t16,
       strChars "MONO" ++ ' ' :: t17,
       strChars "EO" ++ ' ' :: t18,
       strChars "BASO" ++ ' ' :: t19,
       strChars "IG" ++ ' ' :: t20,
       strChars "NRBC" ++ ' ' :: t21,
       strChars "Reticulocyte" ++ ' ' :: t22,
       strChars "IRF" ++ ' ' :: t23,
       strChars "LFR" ++ ' ' :: t24,
       strChars "MFR" ++ ' ' :: t25,
       strChars "HFR" ++ ' ' :: t26]
      [strChars "PLT", strChars "Platelet", strChars "Platelet Count"] = some (pyFloat t8) := by
    exact extract_canonical_rows (strChars "PLT")
      [strChars "Platelet", strChars "Platelet Count"]
      [(strChars "WBC", t1), (strChars "RBC", t2), (strChars "HGB", t3), (strChars "HCT", t4), (strChars "MCV", t5), (strChars "MCH", t6), (strChars "MCHC", t7)]
      t8
      [strChars "RDW-SD" ++ ' ' :: t9, strChars "RDW-CV" ++ ' ' :: t10, strChars "PDW" ++ ' ' :: t11, strChars "MPV" ++ ' ' :: t12, strChars "P-LCR" ++ ' ' :: t13, strChars "PCT" ++ ' ' :: t14, strChars "NEUT" ++ ' ' :: t15, strChars "LYMPH" ++ ' ' :: t16, strChars "MONO" ++ ' ' :: t17, strChars "EO" ++ ' ' :: t18, strChars "BASO" ++ ' ' :: t19, strChars "IG" ++ ' ' :: t20, strChars "NRBC" ++ ' ' :: t21, strChars "Reticulocyte" ++ ' ' :: t22, strChars "IRF" ++ ' ' :: t23, strChars "LFR" ++ ' ' :: t24, strChars "MFR" ++ ' ' :: t25, strChars "HFR" ++ ' ' :: t26]
      (pyFloat t8)
      (by
        intro x hx
        simp only [List.map_cons, List.map_nil, List.mem_cons, List.not_mem_nil, or_false] at hx
        rcases hx with rfl | rfl | rfl | rfl | rfl | rfl | rfl
        · exact tc1
        · exact tc2
        · exact tc3
        · exact tc4
        · exact tc5
        · exact tc6
        · exact tc7
        )
      (by
        intro x hx
        simp only [List.map_cons, List.map_nil, List.mem_cons, List.not_mem_nil, or_false] at hx
        rcases hx with rfl | rfl | rfl | rfl | rfl | rfl | rfl <;> decide)
      (by decide) (by decide)
      (pyExtract_canonLine (strChars "PLT") t8 (by decide) w8 s8)
  have e9 : extractParameterValue
      [strChars "WBC" ++ ' ' :: t1,
       strChars "RBC" ++ ' ' :: t2,
       strChars "HGB" ++ ' ' :: t3,
       strChars "HCT" ++ ' ' :: t4,
       strChars "MCV" ++ ' ' :: t5,
       strChars "MCH" ++ ' ' :: t6,
       strChars "MCHC" ++ ' ' :: t7,
       strChars "PLT" ++ ' ' :: t8,
       strChars "RDW-SD" ++ ' ' :: t9,
       strChars "RDW-CV" ++ ' ' :: t10,
       strChars "PDW" ++ ' ' :: t11,
       strChars "MPV" ++ ' ' :: t12,
       strChars "P-LCR" ++ ' ' :: t13,
       strChars "PCT" ++ ' ' :: t14,
       strChars "NEUT" ++ ' ' :: t15,
       strChars "LYMPH" ++ ' ' :: t16,
       strChars "MONO" ++ ' ' :: t17,
       strChars "EO" ++ ' ' :: t18,
       strChars "BASO" ++ ' ' :: t19,
       strChars "IG" ++ ' ' :: t20,
       strChars "NRBC" ++ ' ' :: t21,
       strChars "Reticulocyte" ++ ' ' :: t22,
       strChars "IRF" ++ ' ' :: t23,
       strChars "LFR" ++ ' ' :: t24,
       strChars "MFR" ++ ' ' :: t25,
       strChars "HFR" ++ ' ' :: t26]
      [strChars "RDW-SD", strChars "RDW SD", strChars "Red Cell Distribution Width SD"] = some (pyFloat t9) := by
    exact extract_canonical_rows (strChars "RDW-SD")
      [strChars "RDW SD", strChars "Red Cell Distribution Width SD"]
      [(strChars "WBC", t1), (strChars "RBC", t2), (strChars "HGB", t3), (strChars "HCT", t4), (strChars "MCV", t5), (strChars "MCH", t6), (strChars "MCHC", t7), (strChars "PLT", t8)]
      t9
      [strChars "RDW-CV" ++ ' ' :: t10, strChars "PDW" ++ ' ' :: t11, strChars "MPV" ++ ' ' :: t12, strChars "P-LCR" ++ ' ' :: t13, strChars "PCT" ++ ' ' :: t14, strChars "NEUT" ++ ' ' :: t15, strChars "LYMPH" ++ ' ' :: t16, strChars "MONO" ++ ' ' :: t17, strChars "EO" ++ ' ' :: t18, strChars "BASO" ++ ' ' :: t19, strChars "IG" ++ ' ' :: t20, strChars "NRBC" ++ ' ' :: t21, strChars "Reticulocyte" ++ ' ' :: t22, strChars "IRF" ++ ' ' :: t23, strChars "LFR" ++ ' ' :: t24, strChars "MFR" ++ ' ' :: t25, strChars "HFR" ++ ' ' :: t26]
      (pyFloat t9)
      (by
        intro x hx
        simp only [List.map_cons, List.map_nil, List.mem_cons, List.not_mem_nil, or_false] at hx
        rcases hx with rfl | rfl | rfl | rfl | rfl | rfl | rfl | rfl
        · exact tc1
        · exact tc2
        · exact tc3
        · exact tc4
        · exact tc5
        · exact tc6
        · exact tc7
        · exact tc8
        )
      (by
        intro x hx
        simp only [List.map_cons, List.map_nil, List.mem_cons, List.not_mem_nil, or_false] at hx
        rcases hx with rfl | rfl | rfl | rfl | rfl | rfl | rfl | rfl <;> decide)
      (by decide) (by decide)
      (pyExtract_canonLine (strChars "RDW-SD") t9 (by decide) w9 s9)
  have e10 : extractParameterValue
      [strChars "WBC" ++ ' ' :: t1,
       strChars "RBC" ++ ' ' :: t2,
       strChars "HGB" ++ ' ' :: t3,
       strChars "HCT" ++ ' ' :: t4,
       strChars "MCV" ++ ' ' :: t5,
       strChars "MCH" ++ ' ' :: t6,
       strChars "MCHC" ++ ' ' :: t7,
       strChars "PLT" ++ ' ' :: t8,
       strChars "RDW-SD" ++ ' ' :: t9,
       strChars "RDW-CV" ++ ' ' :: t10,
       strChars "PDW" ++ ' ' :: t11,
       strChars "MPV" ++ ' ' :: t12,
       strChars "P-LCR" ++ ' ' :: t13,
       strChars "PCT" ++ ' ' :: t14,
       strChars "NEUT" ++ ' ' :: t15,
       strChars "LYMPH" ++ ' ' :: t16,
       strChars "MONO" ++ ' ' :: t17,
       strChars "EO" ++ ' ' :: t18,
       strChars "BASO" ++ ' ' :: t19,
       strChars "IG" ++ ' ' :: t20,
       strChars "NRBC" ++ ' ' :: t21,
       strChars "Reticulocyte" ++ ' ' :: t22,
       strChars "IRF" ++ ' ' :: t23,
       strChars "LFR" ++ ' ' :: t24,
       strChars "MFR" ++ ' ' :: t25,
       strChars "HFR" ++ ' ' :: t26]
      [strChars "RDW-CV", strChars "RDW CV", strChars "Red Cell Distribution Width CV"] = some (pyFloat t10) := by
    exact extract_canonical_rows (strChars "RDW-CV")
      [strChars "RDW CV", strChars "Red Cell Distribution Width CV"]
      [(strChars "WBC", t1), (strChars "RBC", t2), (strChars "HGB", t3), (strChars "HCT", t4), (strChars "MCV", t5), (strChars "MCH", t6), (strChars "MCHC", t7), (strChars "PLT", t8), (strChars "RDW-SD", t9)]
      t10
      [strChars "PDW" ++ ' ' :: t11, strChars "MPV" ++ ' ' :: t12, strChars "P-LCR" ++ ' ' :: t13, strChars "PCT" ++ ' ' :: t14, strChars "NEUT" ++ ' ' :: t15, strChars "LYMPH" ++ ' ' :: t16, strChars "MONO" ++ ' ' :: t17, strChars "EO" ++ ' ' :: t18, strChars "BASO" ++ ' ' :: t19, strChars "IG" ++ ' ' :: t20, strChars "NRBC" ++ ' ' :: t21, strChars "Reticulocyte" ++ ' ' :: t22, strChars "IRF" ++ ' ' :: t23, strChars "LFR" ++ ' ' :: t24, strChars "MFR" ++ ' ' :: t25, strChars "HFR" ++ ' ' :: t26]
      (pyFloat t10)
      (by
        intro x hx
        simp only [List.map_cons, List.map_nil, List.mem_cons, List.not_mem_nil, or_false] at hx
        rcases hx with rfl | rfl | rfl | rfl | rfl | rfl | rfl | rfl | rfl
        · exact tc1
        · exact tc2
        · exact tc3
        · exact tc4
        · exact tc5
        · exact tc6
        · exact tc7
        · exact tc8
        · exact tc9
        )
      (by
        intro x hx
        simp only [List.map_cons, List.map_nil, List.mem_cons, List.not_mem_nil, or_false] at hx
        rcases hx with rfl | rfl | rfl | rfl | rfl | rfl | rfl | rfl | rfl <;> decide)
      (by decide) (by decide)
      (pyExtract_canonLine (strChars "RDW-CV") t10 (by decide) w10 s10)
  have e11 : extractParameterValue
      [strChars "WBC" ++ ' ' :: t1,
       strChars "RBC" ++ ' ' :: t2,
       strChars "HGB" ++ ' ' :: t3,
       strChars "HCT" ++ ' ' :: t4,
       strChars "MCV" ++ ' ' :: t5,
       strChars "MCH" ++ ' ' :: t6,
       strChars "MCHC" ++ ' ' :: t7,
       strChars "PLT" ++ ' ' :: t8,
       strChars "RDW-SD" ++ ' ' :: t9,
       strChars "RDW-CV" ++ ' ' :: t10,
       strChars "PDW" ++ ' ' :: t11,
       strChars "MPV" ++ ' ' :: t12,
       strChars "P-LCR" ++ ' ' :: t13,
       strChars "PCT" ++ ' ' :: t14,
       strChars "NEUT" ++ ' ' :: t15,
       strChars "LYMPH" ++ ' ' :: t16,
       strChars "MONO" ++ ' ' :: t17,
       strChars "EO" ++ ' ' :: t18,
       strChars "BASO" ++ ' ' :: t19,
       strChars "IG" ++ ' ' :: t20,
       strChars "NRBC" ++ ' ' :: t21,
       strChars "Reticulocyte" ++ ' ' :: t22,
       strChars "IRF" ++ ' ' :: t23,
       strChars "LFR" ++ ' ' :: t24,
       strChars "MFR" ++ ' ' :: t25,
       strChars "HFR" ++ ' ' :: t26]
      [strChars "PDW", strChars "Platelet Distribution Width"] = some (pyFloat t11) := by
    exact extract_canonical_rows (strChars "PDW")
      [strChars "Platelet Distribution Width"]
      [(strChars "WBC", t1), (strChars "RBC", t2), (strChars "HGB", t3), (strChars "HCT", t4), (strChars "MCV", t5), (strChars "MCH", t6), (strChars "MCHC", t7), (strChars "PLT", t8), (strChars "RDW-SD", t9), (strChars "RDW-CV", t10)]
      t11
      [strChars "MPV" ++ ' ' :: t12, strChars "P-LCR" ++ ' ' :: t13, strChars "PCT" ++ ' ' :: t14, strChars "NEUT" ++ ' ' :: t15, strChars "LYMPH" ++ ' ' :: t16, strChars "MONO" ++ ' ' :: t17, strChars "EO" ++ ' ' :: t18, strChars "BASO" ++ ' ' :: t19, strChars "IG" ++ ' ' :: t20, strChars "NRBC" ++ ' ' :: t21, strChars "Reticulocyte" ++ ' ' :: t22, strChars "IRF" ++ ' ' :: t23, strChars "LFR" ++ ' ' :: t24, strChars "MFR" ++ ' ' :: t25, strChars "HFR" ++ ' ' :: t26]
      (pyFloat t11)
      (by
        intro x hx
        simp only [List.map_cons, List.map_nil, List.mem_cons, List.not_mem_nil, or_false] at hx
        rcases hx with rfl | rfl | rfl | rfl | rfl | rfl | rfl | rfl | rfl | rfl
        · exact tc1
        · exact tc2
        · exact tc3
        · exact tc4
        · exact tc5
        · exact tc6
        · exact tc7
        · exact tc8
        · exact tc9
        · exact tc10
        )
      (by
        intro x hx
        simp only [List.map_cons, List.map_nil, List.mem_cons, List.not_mem_nil, or_false] at hx
        rcases hx with rfl | rfl | rfl | rfl | rfl | rfl | rfl | rfl | rfl | rfl <;> decide)
      (by decide) (by decide)
      (pyExtract_canonLine (strChars "PDW") t11 (by decide) w11 s11)
  have e12 : extractParameterValue
      [strChars "WBC" ++ ' ' :: t1,
       strChars "RBC" ++ ' ' :: t2,
       strChars "HGB" ++ ' ' :: t3,
       strChars "HCT" ++ ' ' :: t4,
       strChars "MCV" ++ ' ' :: t5,
       strChars "MCH" ++ ' ' :: t6,
       strChars "MCHC" ++ ' ' :: t7,
       strChars "PLT" ++ ' ' :: t8,
       strChars "RDW-SD" ++ ' ' :: t9,
       strChars "RDW-CV" ++ ' ' :: t10,
       strChars "PDW" ++ ' ' :: t11,
       strChars "MPV" ++ ' ' :: t12,
       strChars "P-LCR" ++ ' ' :: t13,
       strChars "PCT" ++ ' ' :: t14,
       strChars "NEUT" ++ ' ' :: t15,
       strChars "LYMPH" ++ ' ' :: t16,
       strChars "MONO" ++ ' ' :: t17,
       strChars "EO" ++ ' ' :: t18,
       strChars "BASO" ++ ' ' :: t19,
       strChars "IG" ++ ' ' :: t20,
       strChars "NRBC" ++ ' ' :: t21,
       strChars "Reticulocyte" ++ ' ' :: t22,
       strChars "IRF" ++ ' ' :: t23,
       strChars "LFR" ++ ' ' :: t24,
       strChars "MFR" ++ ' ' :: t25,
       strChars "HFR" ++ ' ' :: t26]
      [strChars "MPV", strChars "Mean Platelet Volume"] = some (pyFloat t12) := by
    exact extract_canonical_rows (strChars "MPV")
      [strChars "Mean Platelet Volume"]
      [(strChars "WBC", t1), (strChars "RBC", t2), (strChars "HGB", t3), (strChars "HCT", t4), (strChars "MCV", t5), (strChars "MCH", t6), (strChars "MCHC", t7), (strChars "PLT", t8), (strChars "RDW-SD", t9), (strChars "RDW-CV", t10), (strChars "PDW", t11)]
      t12
      [strChars "P-LCR" ++ ' ' :: t13, strChars "PCT" ++ ' ' :: t14, strChars "NEUT" ++ ' ' :: t15, strChars "LYMPH" ++ ' ' :: t16, strChars "MONO" ++ ' ' :: t17, strChars "EO" ++ ' ' :: t18, strChars "BASO" ++ ' ' :: t19, strChars "IG" ++ ' ' :: t20, strChars "NRBC" ++ ' ' :: t21, strChars "Reticulocyte" ++ ' ' :: t22, strChars "IRF" ++ ' ' :: t23, strChars "LFR" ++ ' ' :: t24, strChars "MFR" ++ ' ' :: t25, strChars "HFR" ++ ' ' :: t26]
      (pyFloat t12)
      (by
        intro x hx
        simp only [List.map_cons, List.map_nil, List.mem_cons, List.not_mem_nil, or_false] at hx
        rcases hx with rfl | rfl | rfl | rfl | rfl | rfl | rfl | rfl | rfl | rfl | rfl
        · exact tc1
        · exact tc2
        · exact tc3
        · exact tc4
        · exact tc5
        · exact tc6
        · exact tc7
        · exact tc8
        · exact tc9
        · exact tc10
        · exact tc11
        )
      (by
        intro x hx
        simp only [List.map_cons, List.map_nil, List.mem_cons, List.not_mem_nil, or_false] at hx
        rcases hx with rfl | rfl | rfl | rfl | rfl | rfl | rfl | rfl | rfl | rfl | rfl <;> decide)
      (by decide) (by decide)
      (pyExtract_canonLine (strChars "MPV") t12 (by decide) w12 s12)
  have e13 : extractParameterValue
      [strChars "WBC" ++ ' ' :: t1,
       strChars "RBC" ++ ' ' :: t2,
       strChars "HGB" ++ ' ' :: t3,
       strChars "HCT" ++ ' ' :: t4,
       strChars "MCV" ++ ' ' :: t5,
       strChars "MCH" ++ ' ' :: t6,
       strChars "MCHC" ++ ' ' :: t7,
       strChars "PLT" ++ ' ' :: t8,
       strChars "RDW-SD" ++ ' ' :: t9,
       strChars "RDW-CV" ++ ' ' :: t10,
       strChars "PDW" ++ ' ' :: t11,
       strChars "MPV" ++ ' ' :: t12,
       strChars "P-LCR" ++ ' ' :: t13,
       strChars "PCT" ++ ' ' :: t14,
       strChars "NEUT" ++ ' ' :: t15,
       strChars "LYMPH" ++ ' ' :: t16,
       strChars "MONO" ++ ' ' :: t17,
       strChars "EO" ++ ' ' :: t18,
       strChars "BASO" ++ ' ' :: t19,
       strChars "IG" ++ ' ' :: t20,
       strChars "NRBC" ++ ' ' :: t21,
       strChars "Reticulocyte" ++ ' ' :: t22,
       strChars "IRF" ++ ' ' :: t23,
       strChars "LFR" ++ ' ' :: t24,
       strChars "MFR" ++ ' ' :: t25,
       strChars "HFR" ++ ' ' :: t26]
      [strChars "P-LCR", strChars "PLCR", strChars "Platelet Large Cell Ratio"] = some (pyFloat t13) := by
    exact extract_canonical_rows (strChars "P-LCR")
      [strChars "PLCR", strChars "Platelet Large Cell Ratio"]
      [(strChars "WBC", t1), (strChars "RBC", t2), (strChars "HGB", t3), (strChars "HCT", t4), (strChars "MCV", t5), (strChars "MCH", t6), (strChars "MCHC", t7), (strChars "PLT", t8), (strChars "RDW-SD", t9), (strChars "RDW-CV", t10), (strChars "PDW", t11), (strChars "MPV", t12)]
      t13
      [strChars "PCT" ++ ' ' :: t14, strChars "NEUT" ++ ' ' :: t15, strChars "LYMPH" ++ ' ' :: t16, strChars "MONO" ++ ' ' :: t17, strChars "EO" ++ ' ' :: t18, strChars "BASO" ++ ' ' :: t19, strChars "IG" ++ ' ' :: t20, strChars "NRBC" ++ ' ' :: t21, strChars "Reticulocyte" ++ ' ' :: t22, strChars "IRF" ++ ' ' :: t23, strChars "LFR" ++ ' ' :: t24, strChars "MFR" ++ ' ' :: t25, strChars "HFR" ++ ' ' :: t26]
      (pyFloat t13)
      (by
        intro x hx
        simp only [List.map_cons, List.map_nil, List.mem_cons, List.not_mem_nil, or_false] at hx
        rcases hx with rfl | rfl | rfl | rfl | rfl | rfl | rfl | rfl | rfl | rfl | rfl | rfl
        · exact tc1
        · exact tc2
        · exact tc3
        · exact tc4
        · exact tc5
        · exact tc6
        · exact tc7
        · exact tc8
        · exact tc9
        · exact tc10
        · exact tc11
        · exact tc12
        )
      (by
        intro x hx
        simp only [List.map_cons, List.map_nil, List.mem_cons, List.not_mem_nil, or_false] at hx
        rcases hx with rfl | rfl | rfl | rfl | rfl | rfl | rfl | rfl | rfl | rfl | rfl | rfl <;> decide)
      (by decide) (by decide)
      (pyExtract_canonLine (strChars "P-LCR") t13 (by decide) w13 s13)
  have e14 : extractParameterValue
      [strChars "WBC" ++ ' ' :: t1,
       strChars "RBC" ++ ' ' :: t2,
       strChars "HGB" ++ ' ' :: t3,
       strChars "HCT" ++ ' ' :: t4,
       strChars "MCV" ++ ' ' :: t5,
       strChars "MCH" ++ ' ' :: t6,
       strChars "MCHC" ++ ' ' :: t7,
       strChars "PLT" ++ ' ' :: t8,
       strChars "RDW-SD" ++ ' ' :: t9,
       strChars "RDW-CV" ++ ' ' :: t10,
       strChars "PDW" ++ ' ' :: t11,
       strChars "MPV" ++ ' ' :: t12,
       strChars "P-LCR" ++ ' ' :: t13,
       strChars "PCT" ++ ' ' :: t14,
       strChars "NEUT" ++ ' ' :: t15,
       strChars "LYMPH" ++ ' ' :: t16,
       strChars "MONO" ++ ' ' :: t17,
       strChars "EO" ++ ' ' :: t18,
       strChars "BASO" ++ ' ' :: t19,
       strChars "IG" ++ ' ' :: t20,
       strChars "NRBC" ++ ' ' :: t21,
       strChars "Reticulocyte" ++ ' ' :: t22,
       strChars "IRF" ++ ' ' :: t23,
       strChars "LFR" ++ ' ' :: t24,
       strChars "MFR" ++ ' ' :: t25,
       strChars "HFR" ++ ' ' :: t26]
      [strChars "PCT", strChars "Plateletcrit"] = some (pyFloat t14) := by
    exact extract_canonical_rows (strChars "PCT")
      [strChars "Plateletcrit"]
      [(strChars "WBC", t1), (strChars "RBC", t2), (strChars "HGB", t3), (strChars "HCT", t4), (strChars "MCV", t5), (strChars "MCH", t6), (strChars "MCHC", t7), (strChars "PLT", t8), (strChars "RDW-SD", t9), (strChars "RDW-CV", t10), (strChars "PDW", t11), (strChars "MPV", t12), (strChars "P-LCR", t13)]
      t14
      [strChars "NEUT" ++ ' ' :: t15, strChars "LYMPH" ++ ' ' :: t16, strChars "MONO" ++ ' ' :: t17, strChars "EO" ++ ' ' :: t18, strChars "BASO" ++ ' ' :: t19, strChars "IG" ++ ' ' :: t20, strChars "NRBC" ++ ' ' :: t21, strChars "Reticulocyte" ++ ' ' :: t22, strChars "IRF" ++ ' ' :: t23, strChars "LFR" ++ ' ' :: t24, strChars "MFR" ++ ' ' :: t25, strChars "HFR" ++ ' ' :: t26]
      (pyFloat t14)
      (by
        intro x hx
        simp only [List.map_cons, List.map_nil, List.mem_cons, List.not_mem_nil, or_false] at hx
        rcases hx with rfl | rfl | rfl | rfl | rfl | rfl | rfl | rfl | rfl | rfl | rfl | rfl | rfl
        · exact tc1
        · exact tc2
        · exact tc3
        · exact tc4
        · exact tc5
        · exact tc6
        · exact tc7
        · exact tc8
        · exact tc9
        · exact tc10
        · exact tc11
        · exact tc12
        · exact tc13
        )
      (by
        intro x hx
        simp only [List.map_cons, List.map_nil, List.mem_cons, List.not_mem_nil, or_false] at hx
        rcases hx with rfl | rfl | rfl | rfl | rfl | rfl | rfl | rfl | rfl | rfl | rfl | rfl | rfl <;> decide)
      (by decide) (by decide)
      (pyExtract_canonLine (strChars "PCT") t14 (by decide) w14 s14)
  have e15 : extractParameterValue
      [strChars "WBC" ++ ' ' :: t1,
       strChars "RBC" ++ ' ' :: t2,
       strChars "HGB" ++ ' ' :: t3,
       strChars "HCT" ++ ' ' :: t4,
       strChars "MCV" ++ ' ' :: t5,
       strChars "MCH" ++ ' ' :: t6,
       strChars "MCHC" ++ ' ' :: t7,
       strChars "PLT" ++ ' ' :: t8,
       strChars "RDW-SD" ++ ' ' :: t9,
       strChars "RDW-CV" ++ ' ' :: t10,
       strChars "PDW" ++ ' ' :: t11,
       strChars "MPV" ++ ' ' :: t12,
       strChars "P-LCR" ++ ' ' :: t13,
       strChars "PCT" ++ ' ' :: t14,
       strChars "NEUT" ++ ' ' :: t15,
       strChars "LYMPH" ++ ' ' :: t16,
       strChars "MONO" ++ ' ' :: t17,
       strChars "EO" ++ ' ' :: t18,
       strChars "BASO" ++ ' ' :: t19,
       strChars "IG" ++ ' ' :: t20,
       strChars "NRBC" ++ ' ' :: t21,
       strChars "Reticulocyte" ++ ' ' :: t22,
       strChars "IRF" ++ ' ' :: t23,
       strChars "LFR" ++ ' ' :: t24,
       strChars "MFR" ++ ' ' :: t25,
       strChars "HFR" ++ ' ' :: t26]
      [strChars "NEUT", strChars "Neutrophil", strChars "Neutrophil Count"] = some (pyFloat t15) := by
    exact extract_canonical_rows (strChars "NEUT")
      [strChars "Neutrophil", strChars "Neutrophil Count"]
      [(strChars "WBC", t1), (strChars "RBC", t2), (strChars "HGB", t3), (strChars "HCT", t4), (strChars "MCV", t5), (strChars "MCH", t6), (strChars "MCHC", t7), (strChars "PLT", t8), (strChars "RDW-SD", t9), (strChars "RDW-CV", t10), (strChars "PDW", t11), (strChars "MPV", t12), (strChars "P-LCR", t13), (strChars "PCT", t14)]
      t15
      [strChars "LYMPH" ++ ' ' :: t16, strChars "MONO" ++ ' ' :: t17, strChars "EO" ++ ' ' :: t18, strChars "BASO" ++ ' ' :: t19, strChars "IG" ++ ' ' :: t20, strChars "NRBC" ++ ' ' :: t21, strChars "Reticulocyte" ++ ' ' :: t22, strChars "IRF" ++ ' ' :: t23, strChars "LFR" ++ ' ' :: t24, strChars "MFR" ++ ' ' :: t25, strChars "HFR" ++ ' ' :: t26]
      (pyFloat t15)
      (by
        intro x hx
        simp only [List.map_cons, List.map_nil, List.mem_cons, List.not_mem_nil, or_false] at hx
        rcases hx with rfl | rfl | rfl | rfl | rfl | rfl | rfl | rfl | rfl | rfl | rfl | rfl | rfl | rfl
        · exact tc1
        · exact tc2
        · exact tc3
        · exact tc4
        · exact tc5
        · exact tc6
        · exact tc7
        · exact tc8
        · exact tc9
        · exact tc10
        · exact tc11
        · exact tc12
        · exact tc13
        · exact tc14
        )
      (by
        intro x hx
        simp only [List.map_cons, List.map_nil, List.mem_cons, List.not_mem_nil, or_false] at hx
        rcases hx with rfl | rfl | rfl | rfl | rfl | rfl | rfl | rfl | rfl | rfl | rfl | rfl | rfl | rfl <;> decide)
      (by decide) (by decide)
      (pyExtract_canonLine (strChars "NEUT") t15 (by decide) w15 s15)
  have e16 : extractParameterValue
      [strChars "WBC" ++ ' ' :: t1,
       strChars "RBC" ++ ' ' :: t2,
       strChars "HGB" ++ ' ' :: t3,
       strChars "HCT" ++ ' ' :: t4,
       strChars "MCV" ++ ' ' :: t5,
       strChars "MCH" ++ ' ' :: t6,
       strChars "MCHC" ++ ' ' :: t7,
       strChars "PLT" ++ ' ' :: t8,
       strChars "RDW-SD" ++ ' ' :: t9,
       strChars "RDW-CV" ++ ' ' :: t10,
       strChars "PDW" ++ ' ' :: t11,
       strChars "MPV" ++ ' ' :: t12,
       strChars "P-LCR" ++ ' ' :: t13,
       strChars "PCT" ++ ' ' :: t14,
       strChars "NEUT" ++ ' ' :: t15,
       strChars "LYMPH" ++ ' ' :: t16,
       strChars "MONO" ++ ' ' :: t17,
       strChars "EO" ++ ' ' :: t18,
       strChars "BASO" ++ ' ' :: t19,
       strChars "IG" ++ ' ' :: t20,
       strChars "NRBC" ++ ' ' :: t21,
       strChars "Reticulocyte" ++ ' ' :: t22,
       strChars "IRF" ++ ' ' :: t23,
       strChars "LFR" ++ ' ' :: t24,
       strChars "MFR" ++ ' ' :: t25,
       strChars "HFR" ++ ' ' :: t26]
      [strChars "LYMPH", strChars "Lymphocyte", strChars "Lymphocyte Count"] = some (pyFloat t16) := by
    exact extract_canonical_rows (strChars "LYMPH")
      [strChars "Lymphocyte", strChars "Lymphocyte Count"]
      [(strChars "WBC", t1), (strChars "RBC", t2), (strChars "HGB", t3), (strChars "HCT", t4), (strChars "MCV", t5), (strChars "MCH", t6), (strChars "MCHC", t7), (strChars "PLT", t8), (strChars "RDW-SD", t9), (strChars "RDW-CV", t10), (strChars "PDW", t11), (strChars "MPV", t12), (strChars "P-LCR", t13), (strChars "PCT", t14), (strChars "NEUT", t15)]
      t16
      [strChars "MONO" ++ ' ' :: t17, strChars "EO" ++ ' ' :: t18, strChars "BASO" ++ ' ' :: t19, strChars "IG" ++ ' ' :: t20, strChars "NRBC" ++ ' ' :: t21, strChars "Reticulocyte" ++ ' ' :: t22, strChars "IRF" ++ ' ' :: t23, strChars "LFR" ++ ' ' :: t24, strChars "MFR" ++ ' ' :: t25, strChars "HFR" ++ ' ' :: t26]
      (pyFloat t16)
      (by
        intro x hx
        simp only [List.map_cons, List.map_nil, List.mem_cons, List.not_mem_nil, or_false] at hx
        rcases hx with rfl | rfl | rfl | rfl | rfl | rfl | rfl | rfl | rfl | rfl | rfl | rfl | rfl | rfl | rfl
        · exact tc1
        · exact tc2
        · exact tc3
        · exact tc4
        · exact tc5
        · exact tc6
        · exact tc7
        · exact tc8
        · exact tc9
        · exact tc10
        · exact tc11
        · exact tc12
        · exact tc13
        · exact tc14
        · exact tc15
        )
      (by
        intro x hx
        simp only [List.map_cons, List.map_nil, List.mem_cons, List.not_mem_nil, or_false] at hx
        rcases hx with rfl | rfl | rfl | rfl | rfl | rfl | rfl | rfl | rfl | rfl | rfl | rfl | rfl | rfl | rfl <;> decide)
      (by decide) (by decide)
      (pyExtract_canonLine (strChars "LYMPH") t16 (by decide) w16 s16)
  have e17 : extractParameterValue
      [strChars "WBC" ++ ' ' :: t1,
       strChars "RBC" ++ ' ' :: t2,
       strChars "HGB" ++ ' ' :: t3,
       strChars "HCT" ++ ' ' :: t4,
       strChars "MCV" ++ ' ' :: t5,
       strChars "MCH" ++ ' ' :: t6,
       strChars "MCHC" ++ ' ' :: t7,
       strChars "PLT" ++ ' ' :: t8,
       strChars "RDW-SD" ++ ' ' :: t9,
       strChars "RDW-CV" ++ ' ' :: t10,
       strChars "PDW" ++ ' ' :: t11,
       strChars "MPV" ++ ' ' :: t12,
       strChars "P-LCR" ++ ' ' :: t13,
       strChars "PCT" ++ ' ' :: t14,
       strChars "NEUT" ++ ' ' :: t15,
       strChars "LYMPH" ++ ' ' :: t16,
       strChars "MONO" ++ ' ' :: t17,
       strChars "EO" ++ ' ' :: t18,
       strChars "BASO" ++ ' ' :: t19,
       strChars "IG" ++ ' ' :: t20,
       strChars "NRBC" ++ ' ' :: t21,
       strChars "Reticulocyte" ++ ' ' :: t22,
       strChars "IRF" ++ ' ' :: t23,
       strChars "LFR" ++ ' ' :: t24,
       strChars "MFR" ++ ' ' :: t25,
       strChars "HFR" ++ ' ' :: t26]
      [strChars "MONO", strChars "Monocyte", strChars "Monocyte Count"] = some (pyFloat t17) := by
    exact extract_canonical_rows (strChars "MONO")
      [strChars "Monocyte", strChars "Monocyte Count"]
      [(strChars "WBC", t1), (strChars "RBC", t2), (strChars "HGB", t3), (strChars "HCT", t4), (strChars "MCV", t5), (strChars "MCH", t6), (strChars "MCHC", t7), (strChars "PLT", t8), (strChars "RDW-SD", t9), (strChars "RDW-CV", t10), (strChars "PDW", t11), (strChars "MPV", t12), (strChars "P-LCR", t13), (strChars "PCT", t14), (strChars "NEUT", t15), (strChars "LYMPH", t16)]
      t17
      [strChars "EO" ++ ' ' :: t18, strChars "BASO" ++ ' ' :: t19, strChars "IG" ++ ' ' :: t20, strChars "NRBC" ++ ' ' :: t21, strChars "Reticulocyte" ++ ' ' :: t22, strChars "IRF" ++ ' ' :: t23, strChars "LFR" ++ ' ' :: t24, strChars "MFR" ++ ' ' :: t25, strChars "HFR" ++ ' ' :: t26]
      (pyFloat t17)
      (by
        intro x hx
        simp only [List.map_cons, List.map_nil, List.mem_cons, List.not_mem_nil, or_false] at hx
        rcases hx with rfl | rfl | rfl | rfl | rfl | rfl | rfl | rfl | rfl | rfl | rfl | rfl | rfl | rfl | rfl | rfl
        · exact tc1
        · exact tc2
        · exact tc3
        · exact tc4
        · exact tc5
        · exact tc6
        · exact tc7
        · exact tc8
        · exact tc9
        · exact tc10
        · exact tc11
        · exact tc12
        · exact tc13
        · exact tc14
        · exact tc15
        · exact tc16
        )
      (by
        intro x hx
        simp only [List.map_cons, List.map_nil, List.mem_cons, List.not_mem_nil, or_false] at hx
        rcases hx with rfl | rfl | rfl | rfl | rfl | rfl | rfl | rfl | rfl | rfl | rfl | rfl | rfl | rfl | rfl | rfl <;> decide)
      (by decide) (by decide)
      (pyExtract_canonLine (strChars "MONO") t17 (by decide) w17 s17)
  have e18 : extractParameterValue
      [strChars "WBC" ++ ' ' :: t1,
       strChars "RBC" ++ ' ' :: t2,
       strChars "HGB" ++ ' ' :: t3,
       strChars "HCT" ++ ' ' :: t4,
       strChars "MCV" ++ ' ' :: t5,
       strChars "MCH" ++ ' ' :: t6,
       strChars "MCHC" ++ ' ' :: t7,
       strChars "PLT" ++ ' ' :: t8,
       strChars "RDW-SD" ++ ' ' :: t9,
       strChars "RDW-CV" ++ ' ' :: t10,
       strChars "PDW" ++ ' ' :: t11,
       strChars "MPV" ++ ' ' :: t12,
       strChars "P-LCR" ++ ' ' :: t13,
       strChars "PCT" ++ ' ' :: t14,
       strChars "NEUT" ++ ' ' :: t15,
       strChars "LYMPH" ++ ' ' :: t16,
       strChars "MONO" ++ ' ' :: t17,
       strChars "EO" ++ ' ' :: t18,
       strChars "BASO" ++ ' ' :: t19,
       strChars "IG" ++ ' ' :: t20,
       strChars "NRBC" ++ ' ' :: t21,
       strChars "Reticulocyte" ++ ' ' :: t22,
       strChars "IRF" ++ ' ' :: t23,
       strChars "LFR" ++ ' ' :: t24,
       strChars "MFR" ++ ' ' :: t25,
       strChars "HFR" ++ ' ' :: t26]
      [strChars "EO", strChars "Eosinophil", strChars "Eosinophil Count"] = some (pyFloat t18) := by
    exact extract_canonical_rows (strChars "EO")
      [strChars "Eosinophil", strChars "Eosinophil Count"]
      [(strChars "WBC", t1), (strChars "RBC", t2), (strChars "HGB", t3), (strChars "HCT", t4), (strChars "MCV", t5), (strChars "MCH", t6), (strChars "MCHC", t7), (strChars "PLT", t8), (strChars "RDW-SD", t9), (strChars "RDW-CV", t10), (strChars "PDW", t11), (strChars "MPV", t12), (strChars "P-LCR", t13), (strChars "PCT", t14), (strChars "NEUT", t15), (strChars "LYMPH", t16), (strChars "MONO", t17)]
      t18
      [strChars "BASO" ++ ' ' :: t19, strChars "IG" ++ ' ' :: t20, strChars "NRBC" ++ ' ' :: t21, strChars "Reticulocyte" ++ ' ' :: t22, strChars "IRF" ++ ' ' :: t23, strChars "LFR" ++ ' ' :: t24, strChars "MFR" ++ ' ' :: t25, strChars "HFR" ++ ' ' :: t26]
      (pyFloat t18)
      (by
        intro x hx
        simp only [List.map_cons, List.map_nil, List.mem_cons, List.not_mem_nil, or_false] at hx
        rcases hx with rfl | rfl | rfl | rfl | rfl | rfl | rfl | rfl | rfl | rfl | rfl | rfl | rfl | rfl | rfl | rfl | rfl
        · exact tc1
        · exact tc2
        · exact tc3
        · exact tc4
        · exact tc5
        · exact tc6
        · exact tc7
        · exact tc8
        · exact tc9
        · exact tc10
        · exact tc11
        · exact tc12
        · exact tc13
        · exact tc14
        · exact tc15
        · exact tc16
        · exact tc17
        )
      (by
        intro x hx
        simp only [List.map_cons, List.map_nil, List.mem_cons, List.not_mem_nil, or_false] at hx
        rcases hx with rfl | rfl | rfl | rfl | rfl | rfl | rfl | rfl | rfl | rfl | rfl | rfl | rfl | rfl | rfl | rfl | rfl <;> decide)
      (by decide) (by decide)
      (pyExtract_canonLine (strChars "EO") t18 (by decide) w18 s18)
  have e19 : extractParameterValue
      [strChars "WBC" ++ ' ' :: t1,
       strChars "RBC" ++ ' ' :: t2,
       strChars "HGB" ++ ' ' :: t3,
       strChars "HCT" ++ ' ' :: t4,
       strChars "MCV" ++ ' ' :: t5,
       strChars "MCH" ++ ' ' :: t6,
       strChars "MCHC" ++ ' ' :: t7,
       strChars "PLT" ++ ' ' :: t8,
       strChars "RDW-SD" ++ ' ' :: t9,
       strChars "RDW-CV" ++ ' ' :: t10,
       strChars "PDW" ++ ' ' :: t11,
       strChars "MPV" ++ ' ' :: t12,
       strChars "P-LCR" ++ ' ' :: t13,
       strChars "PCT" ++ ' ' :: t14,
       strChars "NEUT" ++ ' ' :: t15,
       strChars "LYMPH" ++ ' ' :: t16,
       strChars "MONO" ++ ' ' :: t17,
       strChars "EO" ++ ' ' :: t18,
       strChars "BASO" ++ ' ' :: t19,
       strChars "IG" ++ ' ' :: t20,
       strChars "NRBC" ++ ' ' :: t21,
       strChars "Reticulocyte" ++ ' ' :: t22,
       strChars "IRF" ++ ' ' :: t23,
       strChars "LFR" ++ ' ' :: t24,
       strChars "MFR" ++ ' ' :: t25,
       strChars "HFR" ++ ' ' :: t26]
      [strChars "BASO", strChars "Basophil", strChars "Basophil Count"] = some (pyFloat t19) := by
    exact extract_canonical_rows (strChars "BASO")
      [strChars "Basophil", strChars "Basophil Count"]
      [(strChars "WBC", t1), (strChars "RBC", t2), (strChars "HGB", t3), (strChars "HCT", t4), (strChars "MCV", t5), (strChars "MCH", t6), (strChars "MCHC", t7), (strChars "PLT", t8), (strChars "RDW-SD", t9), (strChars "RDW-CV", t10), (strChars "PDW", t11), (strChars "MPV", t12), (strChars "P-LCR", t13), (strChars "PCT", t14), (strChars "NEUT", t15), (strChars "LYMPH", t16), (strChars "MONO", t17), (strChars "EO", t18)]
      t19
      [strChars "IG" ++ ' ' :: t20, strChars "NRBC" ++ ' ' :: t21, strChars "Reticulocyte" ++ ' ' :: t22, strChars "IRF" ++ ' ' :: t23, strChars "LFR" ++ ' ' :: t24, strChars "MFR" ++ ' ' :: t25, strChars "HFR" ++ ' ' :: t26]
      (pyFloat t19)
      (by
        intro x hx
        simp only [List.map_cons, List.map_nil, List.mem_cons, List.not_mem_nil, or_false] at hx
        rcases hx with rfl | rfl | rfl | rfl | rfl | rfl | rfl | rfl | rfl | rfl | rfl | rfl | rfl | rfl | rfl | rfl | rfl | rfl
        · exact tc1
        · exact tc2
        · exact tc3
        · exact tc4
        · exact tc5
        · exact tc6
        · exact tc7
        · exact tc8
        · exact tc9
        · exact tc10
        · exact tc11
        · exact tc12
        · exact tc13
        · exact tc14
        · exact tc15
        · exact tc16
        · exact tc17
        · exact tc18
        )
      (by
        intro x hx
        simp only [List.map_cons, List.map_nil, List.mem_cons, List.not_mem_nil, or_false] at hx
        rcases hx with rfl | rfl | rfl | rfl | rfl | rfl | rfl | rfl | rfl | rfl | rfl | rfl | rfl | rfl | rfl | rfl | rfl | rfl <;> decide)
      (by decide) (by decide)
      (pyExtract_canonLine (strChars "BASO") t19 (by decide) w19 s19)
  have e20 : extractParameterValue
      [strChars "WBC" ++ ' ' :: t1,
       strChars "RBC" ++ ' ' :: t2,
       strChars "HGB" ++ ' ' :: t3,
       strChars "HCT" ++ ' ' :: t4,
       strChars "MCV" ++ ' ' :: t5,
       strChars "MCH" ++ ' ' :: t6,
       strChars "MCHC" ++ ' ' :: t7,
       strChars "PLT" ++ ' ' :: t8,
       strChars "RDW-SD" ++ ' ' :: t9,
       strChars "RDW-CV" ++ ' ' :: t10,
       strChars "PDW" ++ ' ' :: t11,
       strChars "MPV" ++ ' ' :: t12,
       strChars "P-LCR" ++ ' ' :: t13,
       strChars "PCT" ++ ' ' :: t14,
       strChars "NEUT" ++ ' ' :: t15,
       strChars "LYMPH" ++ ' ' :: t16,
       strChars "MONO" ++ ' ' :: t17,
       strChars "EO" ++ ' ' :: t18,
       strChars "BASO" ++ ' ' :: t19,
       strChars "IG" ++ ' ' :: t20,
       strChars "NRBC" ++ ' ' :: t21,
       strChars "Reticulocyte" ++ ' ' :: t22,
       strChars "IRF" ++ ' ' :: t23,
       strChars "LFR" ++ ' ' :: t24,
       strChars "MFR" ++ ' ' :: t25,
       strChars "HFR" ++ ' ' :: t26]
      [strChars "IG", strChars "Immature Granulocyte"] = some (pyFloat t20) := by
    exact extract_canonical_rows (strChars "IG")
      [strChars "Immature Granulocyte"]
      [(strChars "WBC", t1), (strChars "RBC", t2), (strChars "HGB", t3), (strChars "HCT", t4), (strChars "MCV", t5), (strChars "MCH", t6), (strChars "MCHC", t7), (strChars "PLT", t8), (strChars "RDW-SD", t9), (strChars "RDW-CV", t10), (strChars "PDW", t11), (strChars "MPV", t12), (strChars "P-LCR", t13), (strChars "PCT", t14), (strChars "NEUT", t15), (strChars "LYMPH", t16), (strChars "MONO", t17), (strChars "EO", t18), (strChars "BASO", t19)]
      t20
      [strChars "NRBC" ++ ' ' :: t21, strChars "Reticulocyte" ++ ' ' :: t22, strChars "IRF" ++ ' ' :: t23, strChars "LFR" ++ ' ' :: t24, strChars "MFR" ++ ' ' :: t25, strChars "HFR" ++ ' ' :: t26]
      (pyFloat t20)
      (by
        intro x hx
        simp only [List.map_cons, List.map_nil, List.mem_cons, List.not_mem_nil, or_false] at hx
        rcases hx with rfl | rfl | rfl | rfl | rfl | rfl | rfl | rfl | rfl | rfl | rfl | rfl | rfl | rfl | rfl | rfl | rfl | rfl | rfl
        · exact tc1
        · exact tc2
        · exact tc3
        · exact tc4
        · exact tc5
        · exact tc6
        · exact tc7
        · exact tc8
        · exact tc9
        · exact tc10
        · exact tc11
        · exact tc12
        · exact tc13
        · exact tc14
        · exact tc15
        · exact tc16
        · exact tc17
        · exact tc18
        · exact tc19
        )
      (by
        intro x hx
        simp only [List.map_cons, List.map_nil, List.mem_cons, List.not_mem_nil, or_false] at hx
        rcases hx with rfl | rfl | rfl | rfl | rfl | rfl | rfl | rfl | rfl | rfl | rfl | rfl | rfl | rfl | rfl | rfl | rfl | rfl | rfl <;> decide)
      (by decide) (by decide)
      (pyExtract_canonLine (strChars "IG") t20 (by decide) w20 s20)
  have e21 : extractParameterValue
      [strChars "WBC" ++ ' ' :: t1,
       strChars "RBC" ++ ' ' :: t2,
       strChars "HGB" ++ ' ' :: t3,
       strChars "HCT" ++ ' ' :: t4,
       strChars "MCV" ++ ' ' :: t5,
       strChars "MCH" ++ ' ' :: t6,
       strChars "MCHC" ++ ' ' :: t7,
       strChars "PLT" ++ ' ' :: t8,
       strChars "RDW-SD" ++ ' ' :: t9,
       strChars "RDW-CV" ++ ' ' :: t10,
       strChars "PDW" ++ ' ' :: t11,
       strChars "MPV" ++ ' ' :: t12,
       strChars "P-LCR" ++ ' ' :: t13,
       strChars "PCT" ++ ' ' :: t14,
       strChars "NEUT" ++ ' ' :: t15,
       strChars "LYMPH" ++ ' ' :: t16,
       strChars "MONO" ++ ' ' :: t17,
       strChars "EO" ++ ' ' :: t18,
       strChars "BASO" ++ ' ' :: t19,
       strChars "IG" ++ ' ' :: t20,
       strChars "NRBC" ++ ' ' :: t21,
       strChars "Reticulocyte" ++ ' ' :: t22,
       strChars "IRF" ++ ' ' :: t23,
       strChars "LFR" ++ ' ' :: t24,
       strChars "MFR" ++ ' ' :: t25,
       strChars "HFR" ++ ' ' :: t26]
      [strChars "NRBC", strChars "Nucleated RBC", strChars "Nucleated Red Blood Cell"] = some (pyFloat t21) := by
    exact extract_canonical_rows (strChars "NRBC")
      [strChars "Nucleated RBC", strChars "Nucleated Red Blood Cell"]
      [(strChars "WBC", t1), (strChars "RBC", t2), (strChars "HGB", t3), (strChars "HCT", t4), (strChars "MCV", t5), (strChars "MCH", t6), (strChars "MCHC", t7), (strChars "PLT", t8), (strChars "RDW-SD", t9), (strChars "RDW-CV", t10), (strChars "PDW", t11), (strChars "MPV", t12), (strChars "P-LCR", t13), (strChars "PCT", t14), (strChars "NEUT", t15), (strChars "LYMPH", t16), (strChars "MONO", t17), (strChars "EO", t18), (strChars "BASO", t19), (strChars "IG", t20)]
      t21
      [strChars "Reticulocyte" ++ ' ' :: t22, strChars "IRF" ++ ' ' :: t23, strChars "LFR" ++ ' ' :: t24, strChars "MFR" ++ ' ' :: t25, strChars "HFR" ++ ' ' :: t26]
      (pyFloat t21)
      (by
        intro x hx
        simp only [List.map_cons, List.map_nil, List.mem_cons, List.not_mem_nil, or_false] at hx
        rcases hx with rfl | rfl | rfl | rfl | rfl | rfl | rfl | rfl | rfl | rfl | rfl | rfl | rfl | rfl | rfl | rfl | rfl | rfl | rfl | rfl
        · exact tc1
        · exact tc2
        · exact tc3
        · exact tc4
        · exact tc5
        · exact tc6
        · exact tc7
        · exact tc8
        · exact tc9
        · exact tc10
        · exact tc11
        · exact tc12
        · exact tc13
        · exact tc14
        · exact tc15
        · exact tc16
        · exact tc17
        · exact tc18
        · exact tc19
        · exact tc20
        )
      (by
        intro x hx
        simp only [List.map_cons, List.map_nil, List.mem_cons, List.not_mem_nil, or_false] at hx
        rcases hx with rfl | rfl | rfl | rfl | rfl | rfl | rfl | rfl | rfl | rfl | rfl | rfl | rfl | rfl | rfl | rfl | rfl | rfl | rfl | rfl <;> decide)
      (by decide) (by decide)
      (pyExtract_canonLine (strChars "NRBC") t21 (by decide) w21 s21)
  have e22 : extractParameterValue
      [strChars "WBC" ++ ' ' :: t1,
       strChars "RBC" ++ ' ' :: t2,
       strChars "HGB" ++ ' ' :: t3,
       strChars "HCT" ++ ' ' :: t4,
       strChars "MCV" ++ ' ' :: t5,
       strChars "MCH" ++ ' ' :: t6,
       strChars "MCHC" ++ ' ' :: t7,
       strChars "PLT" ++ ' ' :: t8,
       strChars "RDW-SD" ++ ' ' :: t9,
       strChars "RDW-CV" ++ ' ' :: t10,
       strChars "PDW" ++ ' ' :: t11,
       strChars "MPV" ++ ' ' :: t12,
       strChars "P-LCR" ++ ' ' :: t13,
       strChars "PCT" ++ ' ' :: t14,
       strChars "NEUT" ++ ' ' :: t15,
       strChars "LYMPH" ++ ' ' :: t16,
       strChars "MONO" ++ ' ' :: t17,
       strChars "EO" ++ ' ' :: t18,
       strChars "BASO" ++ ' ' :: t19,
       strChars "IG" ++ ' ' :: t20,
       strChars "NRBC" ++ ' ' :: t21,
       strChars "Reticulocyte" ++ ' ' :: t22,
       strChars "IRF" ++ ' ' :: t23,
       strChars "LFR" ++ ' ' :: t24,
       strChars "MFR" ++ ' ' :: t25,
       strChars "HFR" ++ ' ' :: t26]
      [strChars "Reticulocyte", strChars "RETIC", strChars "Reticulocyte Count"] = some (pyFloat t22) := by
    exact extract_canonical_rows (strChars "Reticulocyte")
      [strChars "RETIC", strChars "Reticulocyte Count"]
      [(strChars "WBC", t1), (strChars "RBC", t2), (strChars "HGB", t3), (strChars "HCT", t4), (strChars "MCV", t5), (strChars "MCH", t6), (strChars "MCHC", t7), (strChars "PLT", t8), (strChars "RDW-SD", t9), (strChars "RDW-CV", t10), (strChars "PDW", t11), (strChars "MPV", t12), (strChars "P-LCR", t13), (strChars "PCT", t14), (strChars "NEUT", t15), (strChars "LYMPH", t16), (strChars "MONO", t17), (strChars "EO", t18), (strChars "BASO", t19), (strChars "IG", t20), (strChars "NRBC", t21)]
      t22
      [strChars "IRF" ++ ' ' :: t23, strChars "LFR" ++ ' ' :: t24, strChars "MFR" ++ ' ' :: t25, strChars "HFR" ++ ' ' :: t26]
      (pyFloat t22)
      (by
        intro x hx
        simp only [List.map_cons, List.map_nil, List.mem_cons, List.not_mem_nil, or_false] at hx
        rcases hx with rfl | rfl | rfl | rfl | rfl | rfl | rfl | rfl | rfl | rfl | rfl | rfl | rfl | rfl | rfl | rfl | rfl | rfl | rfl | rfl | rfl
        · exact tc1
        · exact tc2
        · exact tc3
        · exact tc4
        · exact tc5
        · exact tc6
        · exact tc7
        · exact tc8
        · exact tc9
        · exact tc10
        · exact tc11
        · exact tc12
        · exact tc13
        · exact tc14
        · exact tc15
        · exact tc16
        · exact tc17
        · exact tc18
        · exact tc19
        · exact tc20
        · exact tc21
        )
      (by
        intro x hx
        simp only [List.map_cons, List.map_nil, List.mem_cons, List.not_mem_nil, or_false] at hx
        rcases hx with rfl | rfl | rfl | rfl | rfl | rfl | rfl | rfl | rfl | rfl | rfl | rfl | rfl | rfl | rfl | rfl | rfl | rfl | rfl | rfl | rfl <;> decide)
      (by decide) (by decide)
      (pyExtract_canonLine (strChars "Reticulocyte") t22 (by decide) w22 s22)
  have e23 : extractParameterValue
      [strChars "WBC" ++ ' ' :: t1,
       strChars "RBC" ++ ' ' :: t2,
       strChars "HGB" ++ ' ' :: t3,
       strChars "HCT" ++ ' ' :: t4,
       strChars "MCV" ++ ' ' :: t5,
       strChars "MCH" ++ ' ' :: t6,
       strChars "MCHC" ++ ' ' :: t7,
       strChars "PLT" ++ ' ' :: t8,
       strChars "RDW-SD" ++ ' ' :: t9,
       strChars "RDW-CV" ++ ' ' :: t10,
       strChars "PDW" ++ ' ' :: t11,
       strChars "MPV" ++ ' ' :: t12,
       strChars "P-LCR" ++ ' ' :: t13,
       strChars "PCT" ++ ' ' :: t14,
       strChars "NEUT" ++ ' ' :: t15,
       strChars "LYMPH" ++ ' ' :: t16,
       strChars "MONO" ++ ' ' :: t17,
       strChars "EO" ++ ' ' :: t18,
       strChars "BASO" ++ ' ' :: t19,
       strChars "IG" ++ ' ' :: t20,
       strChars "NRBC" ++ ' ' :: t21,
       strChars "Reticulocyte" ++ ' ' :: t22,
       strChars "IRF" ++ ' ' :: t23,
       strChars "LFR" ++ ' ' :: t24,
       strChars "MFR" ++ ' ' :: t25,
       strChars "HFR" ++ ' ' :: t26]
      [strChars "IRF", strChars "Immature Reticulocyte Fraction"] = some (pyFloat t23) := by
    exact extract_canonical_rows (strChars "IRF")
      [strChars "Immature Reticulocyte Fraction"]
      [(strChars "WBC", t1), (strChars "RBC", t2), (strChars "HGB", t3), (strChars "HCT", t4), (strChars "MCV", t5), (strChars "MCH", t6), (strChars "MCHC", t7), (strChars "PLT", t8), (strChars "RDW-SD", t9), (strChars "RDW-CV", t10), (strChars "PDW", t11), (strChars "MPV", t12), (strChars "P-LCR", t13), (strChars "PCT", t14), (strChars "NEUT", t15), (strChars "LYMPH", t16), (strChars "MONO", t17), (strChars "EO", t18), (strChars "BASO", t19), (strChars "IG", t20), (strChars "NRBC", t21), (strChars "Reticulocyte", t22)]
      t23
      [strChars "LFR" ++ ' ' :: t24, strChars "MFR" ++ ' ' :: t25, strChars "HFR" ++ ' ' :: t26]
      (pyFloat t23)
      (by
        intro x hx
        simp only [List.map_cons, List.map_nil, List.mem_cons, List.not_mem_nil, or_false] at hx
        rcases hx with rfl | rfl | rfl | rfl | rfl | rfl | rfl | rfl | rfl | rfl | rfl | rfl | rfl | rfl | rfl | rfl | rfl | rfl | rfl | rfl | rfl | rfl
        · exact tc1
        · exact tc2
        · exact tc3
        · exact tc4
        · exact tc5
        · exact tc6
        · exact tc7
        · exact tc8
        · exact tc9
        · exact tc10
        · exact tc11
        · exact tc12
        · exact tc13
        · exact tc14
        · exact tc15
        · exact tc16
        · exact tc17
        · exact tc18
        · exact tc19
        · exact tc20
        · exact tc21
        · exact tc22
        )
      (by
        intro x hx
        simp only [List.map_cons, List.map_nil, List.mem_cons, List.not_mem_nil, or_false] at hx
        rcases hx with rfl | rfl | rfl | rfl | rfl | rfl | rfl | rfl | rfl | rfl | rfl | rfl | rfl | rfl | rfl | rfl | rfl | rfl | rfl | rfl | rfl | rfl <;> decide)
      (by decide) (by decide)
      (pyExtract_canonLine (strChars "IRF") t23 (by decide) w23 s23)
  have e24 : extractParameterValue
      [strChars "WBC" ++ ' ' :: t1,
       strChars "RBC" ++ ' ' :: t2,
       strChars "HGB" ++ ' ' :: t3,
       strChars "HCT" ++ ' ' :: t4,
       strChars "MCV" ++ ' ' :: t5,
       strChars "MCH" ++ ' ' :: t6,
       strChars "MCHC" ++ ' ' :: t7,
       strChars "PLT" ++ ' ' :: t8,
       strChars "RDW-SD" ++ ' ' :: t9,
       strChars "RDW-CV" ++ ' ' :: t10,
       strChars "PDW" ++ ' ' :: t11,
       strChars "MPV" ++ ' ' :: t12,
       strChars "P-LCR" ++ ' ' :: t13,
       strChars "PCT" ++ ' ' :: t14,
       strChars "NEUT" ++ ' ' :: t15,
       strChars "LYMPH" ++ ' ' :: t16,
       strChars "MONO" ++ ' ' :: t17,
       strChars "EO" ++ ' ' :: t18,
       strChars "BASO" ++ ' ' :: t19,
       strChars "IG" ++ ' ' :: t20,
       strChars "NRBC" ++ ' ' :: t21,
       strChars "Reticulocyte" ++ ' ' :: t22,
       strChars "IRF" ++ ' ' :: t23,
       strChars "LFR" ++ ' ' :: t24,
       strChars "MFR" ++ ' ' :: t25,
       strChars "HFR" ++ ' ' :: t26]
      [strChars "LFR", strChars "Low Fluorescence Reticulocyte"] = some (pyFloat t24) := by
    exact extract_canonical_rows (strChars "LFR")
      [strChars "Low Fluorescence Reticulocyte"]
      [(strChars "WBC", t1), (strChars "RBC", t2), (strChars "HGB", t3), (strChars "HCT", t4), (strChars "MCV", t5), (strChars "MCH", t6), (strChars "MCHC", t7), (strChars "PLT", t8), (strChars "RDW-SD", t9), (strChars "RDW-CV", t10), (strChars "PDW", t11), (strChars "MPV", t12), (strChars "P-LCR", t13), (strChars "PCT", t14), (strChars "NEUT", t15), (strChars "LYMPH", t16), (strChars "MONO", t17), (strChars "EO", t18), (strChars "BASO", t19), (strChars "IG", t20), (strChars "NRBC", t21), (strChars "Reticulocyte", t22), (strChars "IRF", t23)]
      t24
      [strChars "MFR" ++ ' ' :: t25, strChars "HFR" ++ ' ' :: t26]
      (pyFloat t24)
      (by
        intro x hx
        simp only [List.map_cons, List.map_nil, List.mem_cons, List.not_mem_nil, or_false] at hx
        rcases hx with rfl | rfl | rfl | rfl | rfl | rfl | rfl | rfl | rfl | rfl | rfl | rfl | rfl | rfl | rfl | rfl | rfl | rfl | rfl | rfl | rfl | rfl | rfl
        · exact tc1
        · exact tc2
        · exact tc3
        · exact tc4
        · exact tc5
        · exact tc6
        · exact tc7
        · exact tc8
        · exact tc9
        · exact tc10
        · exact tc11
        · exact tc12
        · exact tc13
        · exact tc14
        · exact tc15
        · exact tc16
        · exact tc17
        · exact tc18
        · exact tc19
        · exact tc20
        · exact tc21
        · exact tc22
        · exact tc23
        )
      (by
        intro x hx
        simp only [List.map_cons, List.map_nil, List.mem_cons, List.not_mem_nil, or_false] at hx
        rcases hx with rfl | rfl | rfl | rfl | rfl | rfl | rfl | rfl | rfl | rfl | rfl | rfl | rfl | rfl | rfl | rfl | rfl | rfl | rfl | rfl | rfl | rfl | rfl <;> decide)
      (by decide) (by decide)
      (pyExtract_canonLine (strChars "LFR") t24 (by decide) w24 s24)
  have e25 : extractParameterValue
      [strChars "WBC" ++ ' ' :: t1,
       strChars "RBC" ++ ' ' :: t2,
       strChars "HGB" ++ ' ' :: t3,
       strChars "HCT" ++ ' ' :: t4,
       strChars "MCV" ++ ' ' :: t5,
       strChars "MCH" ++ ' ' :: t6,
       strChars "MCHC" ++ ' ' :: t7,
       strChars "PLT" ++ ' ' :: t8,
       strChars "RDW-SD" ++ ' ' :: t9,
       strChars "RDW-CV" ++ ' ' :: t10,
       strChars "PDW" ++ ' ' :: t11,
       strChars "MPV" ++ ' ' :: t12,
       strChars "P-LCR" ++ ' ' :: t13,
       strChars "PCT" ++ ' ' :: t14,
       strChars "NEUT" ++ ' ' :: t15,
       strChars "LYMPH" ++ ' ' :: t16,
       strChars "MONO" ++ ' ' :: t17,
       strChars "EO" ++ ' ' :: t18,
       strChars "BASO" ++ ' ' :: t19,
       strChars "IG" ++ ' ' :: t20,
       strChars "NRBC" ++ ' ' :: t21,
       strChars "Reticulocyte" ++ ' ' :: t22,
       strChars "IRF" ++ ' ' :: t23,
       strChars "LFR" ++ ' ' :: t24,
       strChars "MFR" ++ ' ' :: t25,
       strChars "HFR" ++ ' ' :: t26]
      [strChars "MFR", strChars "Medium Fluorescence Reticulocyte"] = some (pyFloat t25) := by
    exact extract_canonical_rows (strChars "MFR")
      [strChars "Medium Fluorescence Reticulocyte"]
      [(strChars "WBC", t1), (strChars "RBC", t2), (strChars "HGB", t3), (strChars "HCT", t4), (strChars "MCV", t5), (strChars "MCH", t6), (strChars "MCHC", t7), (strChars "PLT", t8), (strChars "RDW-SD", t9), (strChars "RDW-CV", t10), (strChars "PDW", t11), (strChars "MPV", t12), (strChars "P-LCR", t13), (strChars "PCT", t14), (strChars "NEUT", t15), (strChars "LYMPH", t16), (strChars "MONO", t17), (strChars "EO", t18), (strChars "BASO", t19), (strChars "IG", t20), (strChars "NRBC", t21), (strChars "Reticulocyte", t22), (strChars "IRF", t23), (strChars "LFR", t24)]
      t25
      [strChars "HFR" ++ ' ' :: t26]
      (pyFloat t25)
      (by
        intro x hx
        simp only [List.map_cons, List.map_nil, List.mem_cons, List.not_mem_nil, or_false] at hx
        rcases hx with rfl | rfl | rfl | rfl | rfl | rfl | rfl | rfl | rfl | rfl | rfl | rfl | rfl | rfl | rfl | rfl | rfl | rfl | rfl | rfl | rfl | rfl | rfl | rfl
        · exact tc1
        · exact tc2
        · exact tc3
        · exact tc4
        · exact tc5
        · exact tc6
        · exact tc7
        · exact tc8
        · exact tc9
        · exact tc10
        · exact tc11
        · exact tc12
        · exact tc13
        · exact tc14
        · exact tc15
        · exact tc16
        · exact tc17
        · exact tc18
        · exact tc19
        · exact tc20
        · exact tc21
        · exact tc22
        · exact tc23
        · exact tc24
        )
      (by
        intro x hx
        simp only [List.map_cons, List.map_nil, List.mem_cons, List.not_mem_nil, or_false] at hx
        rcases hx with rfl | rfl | rfl | rfl | rfl | rfl | rfl | rfl | rfl | rfl | rfl | rfl | rfl | rfl | rfl | rfl | rfl | rfl | rfl | rfl | rfl | rfl | rfl | rfl <;> decide)
      (by decide) (by decide)
      (pyExtract_canonLine (strChars "MFR") t25 (by decide) w25 s25)
  have e26 : extractParameterValue
      [strChars "WBC" ++ ' ' :: t1,
       strChars "RBC" ++ ' ' :: t2,
       strChars "HGB" ++ ' ' :: t3,
       strChars "HCT" ++ ' ' :: t4,
       strChars "MCV" ++ ' ' :: t5,
       strChars "MCH" ++ ' ' :: t6,
       strChars "MCHC" ++ ' ' :: t7,
       strChars "PLT" ++ ' ' :: t8,
       strChars "RDW-SD" ++ ' ' :: t9,
       strChars "RDW-CV" ++ ' ' :: t10,
       strChars "PDW" ++ ' ' :: t11,
       strChars "MPV" ++ ' ' :: t12,
       strChars "P-LCR" ++ ' ' :: t13,
       strChars "PCT" ++ ' ' :: t14,
       strChars "NEUT" ++ ' ' :: t15,
       strChars "LYMPH" ++ ' ' :: t16,
       strChars "MONO" ++ ' ' :: t17,
       strChars "EO" ++ ' ' :: t18,
       strChars "BASO" ++ ' ' :: t19,
       strChars "IG" ++ ' ' :: t20,
       strChars "NRBC" ++ ' ' :: t21,
       strChars "Reticulocyte" ++ ' ' :: t22,
       strChars "IRF" ++ ' ' :: t23,
       strChars "LFR" ++ ' ' :: t24,
       strChars "MFR" ++ ' ' :: t25,
       strChars "HFR" ++ ' ' :: t26]
      [strChars "HFR", strChars "High Fluorescence Reticulocyte"] = some (pyFloat t26) := by
    exact extract_canonical_rows (strChars "HFR")
      [strChars "High Fluorescence Reticulocyte"]
      [(strChars "WBC", t1), (strChars "RBC", t2), (strChars "HGB", t3), (strChars "HCT", t4), (strChars "MCV", t5), (strChars "MCH", t6), (strChars "MCHC", t7), (strChars "PLT", t8), (strChars "RDW-SD", t9), (strChars "RDW-CV", t10), (strChars "PDW", t11), (strChars "MPV", t12), (strChars "P-LCR", t13), (strChars "PCT", t14), (strChars "NEUT", t15), (strChars "LYMPH", t16), (strChars "MONO", t17), (strChars "EO", t18), (strChars "BASO", t19), (strChars "IG", t20), (strChars "NRBC", t21), (strChars "Reticulocyte", t22), (strChars "IRF", t23), (strChars "LFR", t24), (strChars "MFR", t25)]
      t26
      []
      (pyFloat t26)
      (by
        intro x hx
        simp only [List.map_cons, List.map_nil, List.mem_cons, List.not_mem_nil, or_false] at hx
        rcases hx with rfl | rfl | rfl | rfl | rfl | rfl | rfl | rfl | rfl | rfl | rfl | rfl | rfl | rfl | rfl | rfl | rfl | rfl | rfl | rfl | rfl | rfl | rfl | rfl | rfl
        · exact tc1
        · exact tc2
        · exact tc3
        · exact tc4
        · exact tc5
        · exact tc6
        · exact tc7
        · exact tc8
        · exact tc9
        · exact tc10
        · exact tc11
        · exact tc12
        · exact tc13
        · exact tc14
        · exact tc15
        · exact tc16
        · exact tc17
        · exact tc18
        · exact tc19
        · exact tc20
        · exact tc21
        · exact tc22
        · exact tc23
        · exact tc24
        · exact tc25
        )
      (by
        intro x hx
        simp only [List.map_cons, List.map_nil, List.mem_cons, List.not_mem_nil, or_false] at hx
        rcases hx with rfl | rfl | rfl | rfl | rfl | rfl | rfl | rfl | rfl | rfl | rfl | rfl | rfl | rfl | rfl | rfl | rfl | rfl | rfl | rfl | rfl | rfl | rfl | rfl | rfl <;> decide)
      (by decide) (by decide)
      (pyExtract_canonLine (strChars "HFR") t26 (by decide) w26 s26)
  simp only [extract_parameters]
  rw [hsplit]
  simp only [extractParamsLines, parameter_patterns, List.filterMap_cons,
    List.filterMap_nil, List.map_cons, List.map_nil, e1, e2, e3, e4, e5, e6, e7, e8, e9, e10, e11, e12, e13, e14, e15, e16, e17, e18, e19, e20, e21, e22, e23, e24, e25, e26,
    Option.map_some']
  rw [validate_cons_in "WBC" (pyFloat t1) _ (1.0 : ℚ) (50.0 : ℚ) rfl r1]
  rw [validate_cons_in "RBC" (pyFloat t2) _ (2.0 : ℚ) (8.0 : ℚ) rfl r2]
  rw [validate_cons_in "HGB" (pyFloat t3) _ (5.0 : ℚ) (20.0 : ℚ) rfl r3]
  rw [validate_cons_in "HCT" (pyFloat t4) _ (20.0 : ℚ) (60.0 : ℚ) rfl r4]
  rw [validate_cons_in "MCV" (pyFloat t5) _ (60.0 : ℚ) (120.0 : ℚ) rfl r5]
  rw [validate_cons_in "MCH" (pyFloat t6) _ (20.0 : ℚ) (40.0 : ℚ) rfl r6]
  rw [validate_cons_in "MCHC" (pyFloat t7) _ (30.0 : ℚ) (38.0 : ℚ) rfl r7]
  rw [validate_cons_in "PLT" (pyFloat t8) _ (50.0 : ℚ) (600.0 : ℚ) rfl r8]
  rw [validate_cons_in "RDW_SD" (pyFloat t9) _ (35.0 : ℚ) (60.0 : ℚ) rfl r9]
  rw [validate_cons_in "RDW_CV" (pyFloat t10) _ (10.0 : ℚ) (20.0 : ℚ) rfl r10]
  rw [validate_cons_in "PDW" (pyFloat t11) _ (8.0 : ℚ) (25.0 : ℚ) rfl r11]
  rw [validate_cons_in "MPV" (pyFloat t12) _ (6.0 : ℚ) (15.0 : ℚ) rfl r12]
  rw [validate_cons_in "P_LCR" (pyFloat t13) _ (10.0 : ℚ) (50.0 : ℚ) rfl r13]
  rw [validate_cons_in "PCT" (pyFloat t14) _ (0.05 : ℚ) (0.7 : ℚ) rfl r14]
  rw [validate_cons_in "NEUT" (pyFloat t15) _ (0.5 : ℚ) (15.0 : ℚ) rfl r15]
  rw [validate_cons_in "LYMPH" (pyFloat t16) _ (0.5 : ℚ) (10.0 : ℚ) rfl r16]
  rw [validate_cons_in "MONO" (pyFloat t17) _ (0.1 : ℚ) (1.5 : ℚ) rfl r17]
  rw [validate_cons_in "EO" (pyFloat t18) _ (0.02 : ℚ) (0.8 : ℚ) rfl r18]
  rw [validate_cons_in "BASO" (pyFloat t19) _ (0.0 : ℚ) (0.5 : ℚ) rfl r19]
  rw [validate_cons_in "IG" (pyFloat t20) _ (0.0 : ℚ) (0.1 : ℚ) rfl r20]
  rw [validate_cons_in "NRBCS" (pyFloat t21) _ (0.0 : ℚ) (5.0 : ℚ) rfl r21]
  rw [validate_cons_in "RETICULOCYTES" (pyFloat t22) _ (0.1 : ℚ) (5.0 : ℚ) rfl r22]
  rw [validate_cons_in "IRF" (pyFloat t23) _ (0.3 : ℚ) (35.0 : ℚ) rfl r23]
  rw [validate_cons_in "LFR" (pyFloat t24) _ (80.0 : ℚ) (95.0 : ℚ) rfl r24]
  rw [validate_cons_in "MFR" (pyFloat t25) _ (8.0 : ℚ) (25.0 : ℚ) rfl r25]
  rw [validate_cons_in "HFR" (pyFloat t26) _ (0.0 : ℚ) (3.0 : ℚ) rfl r26]
  rfl

/-- Witness for C6 (amended) at a concrete token for every code. -/
theorem C6_round_trip_amended_witness :
    validate_parameters (extract_parameters (String.mk (joinLines
      [strChars "WBC" ++ ' ' :: strChars "6.0",
       strChars "RBC" ++ ' ' :: strChars "4.8",
       strChars "HGB" ++ ' ' :: strChars "13.0",
       strChars "HCT" ++ ' ' :: strChars "40.0",
       strChars "MCV" ++ ' ' :: strChars "90.0",
       strChars "MCH" ++ ' ' :: strChars "29.0",
       strChars "MCHC" ++ ' ' :: strChars "34.0",
       strChars "PLT" ++ ' ' :: strChars "250.0",
       strChars "RDW-SD" ++ ' ' :: strChars "42.0",
       strChars "RDW-CV" ++ ' ' :: strChars "13.0",
       strChars "PDW" ++ ' ' :: strChars "12.0",
       strChars "MPV" ++ ' ' :: strChars "9.0",
       strChars "P-LCR" ++ ' ' :: strChars "30.0",
       strChars "PCT" ++ ' ' :: strChars "0.3",
       strChars "NEUT" ++ ' ' :: strChars "4.0",
       strChars "LYMPH" ++ ' ' :: strChars "2.0",
       strChars "MONO" ++ ' ' :: strChars "0.5",
       strChars "EO" ++ ' ' :: strChars "0.2",
       strChars "BASO" ++ ' ' :: strChars "0.1",
       strChars "IG" ++ ' ' :: strChars "0.03",
       strChars "NRBC" ++ ' ' :: strChars "1.0",
       strChars "Reticulocyte" ++ ' ' :: strChars "1.5",
       strChars "IRF" ++ ' ' :: strChars "10.0",
       strChars "LFR" ++ ' ' :: strChars "88.0",
       strChars "MFR" ++ ' ' :: strChars "12.0",
       strChars "HFR" ++ ' ' :: strChars "1.0"]))) =
      [("WBC", pyFloat (strChars "6.0")),
       ("RBC", pyFloat (strChars "4.8")),
       ("HGB", pyFloat (strChars "13.0")),
       ("HCT", pyFloat (strChars "40.0")),
       ("MCV", pyFloat (strChars "90.0")),
       ("MCH", pyFloat (strChars "29.0")),
       ("MCHC", pyFloat (strChars "34.0")),
       ("PLT", pyFloat (strChars "250.0")),
       ("RDW_SD", pyFloat (strChars "42.0")),
       ("RDW_CV", pyFloat (strChars "13.0")),
       ("PDW", pyFloat (strChars "12.0")),
       ("MPV", pyFloat (strChars "9.0")),
       ("P_LCR", pyFloat (strChars "30.0")),
       ("PCT", pyFloat (strChars "0.3")),
       ("NEUT", pyFloat (strChars "4.0")),
       ("LYMPH", pyFloat (strChars "2.0")),
       ("MONO", pyFloat (strChars "0.5")),
       ("EO", pyFloat (strChars "0.2")),
       ("BASO", pyFloat (strChars "0.1")),
       ("IG", pyFloat (strChars "0.03")),
       ("NRBCS", pyFloat (strChars "1.0")),
       ("RETICULOCYTES", pyFloat (strChars "1.5")),
       ("IRF", pyFloat (strChars "10.0")),
       ("LFR", pyFloat (strChars "88.0")),
       ("MFR", pyFloat (strChars "12.0")),
       ("HFR", pyFloat (strChars "1.0"))] :=
  C6_round_trip_amended (strChars "6.0") (strChars "4.8") (strChars "13.0") (strChars "40.0") (strChars "90.0") (strChars "29.0") (strChars "34.0") (strChars "250.0") (strChars "42.0") (strChars "13.0") (strChars "12.0") (strChars "9.0") (strChars "30.0") (strChars "0.3") (strChars "4.0") (strChars "2.0") (strChars "0.5") (strChars "0.2") (strChars "0.1") (strChars "0.03") (strChars "1.0") (strChars "1.5") (strChars "10.0") (strChars "88.0") (strChars "12.0") (strChars "1.0")
    (by decide) (by with_unfolding_all decide) (by with_unfolding_all decide)
    (by decide) (by with_unfolding_all decide) (by with_unfolding_all decide)
    (by decide) (by with_unfolding_all decide) (by with_unfolding_all decide)
    (by decide) (by with_unfolding_all decide) (by with_unfolding_all decide)
    (by decide) (by with_unfolding_all decide) (by with_unfolding_all decide)
    (by decide) (by with_unfolding_all decide) (by with_unfolding_all decide)
    (by decide) (by with_unfolding_all decide) (by with_unfolding_all decide)
    (by decide) (by with_unfolding_all decide) (by with_unfolding_all decide)
    (by decide) (by with_unfolding_all decide) (by with_unfolding_all decide)
    (by decide) (by with_unfolding_all decide) (by with_unfolding_all decide)
    (by decide) (by with_unfolding_all decide) (by with_unfolding_all decide)
    (by decide) (by with_unfolding_all decide) (by with_unfolding_all decide)
    (by decide) (by with_unfolding_all decide) (by with_unfolding_all decide)
    (by decide) (by with_unfolding_all decide) (by with_unfolding_all decide)
    (by decide) (by with_unfolding_all decide) (by with_unfolding_all decide)
    (by decide) (by with_unfolding_all decide) (by with_unfolding_all decide)
    (by decide) (by with_unfolding_all decide) (by with_unfolding_all decide)
    (by decide) (by with_unfolding_all decide) (by with_unfolding_all decide)
    (by decide) (by with_unfolding_all decide) (by with_unfolding_all decide)
    (by decide) (by with_unfolding_all decide) (by with_unfolding_all decide)
    (by decide) (by with_unfolding_all decide) (by with_unfolding_all decide)
    (by decide) (by with_unfolding_all decide) (by with_unfolding_all decide)
    (by decide) (by with_unfolding_all decide) (by with_unfolding_all decide)
    (by decide) (by with_unfolding_all decide) (by with_unfolding_all decide)
    (by decide) (by with_unfolding_all decide) (by with_unfolding_all decide)
    (by decide) (by with_unfolding_all decide) (by with_unfolding_all decide)


end BloodAnalysis
